import Mathlib

/-!
PicoXR stereo layers: a shallow embedding.

The definitions below follow
`Plugins/PicoXR/Source/PicoXRHMD/Private/PXR_StereoLayer.cpp`
(Android build, `PLATFORM_ANDROID` defined).  Engine floats are modelled by
exact rationals, engine handles by natural numbers, shared pointers by
`Option` values.
-/

namespace PicoXR

/-! ## Engine value types -/

/-- Engine `FVector2D`, components over exact arithmetic. -/
structure FVector2D where
  X : ℚ
  Y : ℚ
  deriving DecidableEq

/-- Engine `FVector`, components over exact arithmetic. -/
structure FVector where
  X : ℚ
  Y : ℚ
  Z : ℚ
  deriving DecidableEq

/-- Engine `FIntPoint`. -/
structure FIntPoint where
  X : Int
  Y : Int
  deriving DecidableEq

/-- Engine `FQuat`. -/
structure FQuat where
  X : ℚ
  Y : ℚ
  Z : ℚ
  W : ℚ
  deriving DecidableEq

/-- Engine `FTransform`: rotation, translation and scale. -/
structure FTransform where
  Rotation : FQuat
  Translation : FVector
  Scale3D : FVector
  deriving DecidableEq

/-- Engine `FBox2D`. -/
structure FBox2D where
  Min : FVector2D
  Max : FVector2D
  deriving DecidableEq

/-- What `FRHITexture::GetTexture2D()` points to when it is not null. -/
structure FRHITexture2D where
  SizeX : Nat
  SizeY : Nat
  NumSamples : Nat
  NumMips : Nat
  deriving DecidableEq

/-- What `FRHITexture::GetTextureCube()` points to when it is not null. -/
structure FRHITextureCube where
  Size : Nat
  deriving DecidableEq

/-- A live `FRHITexture`: its address and the two views the source asks for. -/
structure FRHITexture where
  ptr : Nat
  GetTexture2D : Option FRHITexture2D
  GetTextureCube : Option FRHITextureCube
  deriving DecidableEq

/-- Engine `FCylinderLayer` shape properties. -/
structure FCylinderLayer where
  Radius : ℚ
  OverlayArc : ℚ
  Height : ℚ
  deriving DecidableEq

/-- Engine `FEquirectLayer` shape properties. -/
structure FEquirectLayer where
  LeftUVRect : FBox2D
  RightUVRect : FBox2D
  LeftScale : FVector2D
  RightScale : FVector2D
  LeftBias : FVector2D
  RightBias : FVector2D
  deriving DecidableEq

/-- The shape held by a layer description (`HasShape<T>` / `GetShape<T>`);
`Other` is any shape that is none of the four the source tests for. -/
inductive LayerShape where
  | Quad
  | Cylinder (props : FCylinderLayer)
  | Equirect (props : FEquirectLayer)
  | Cubemap
  | Other
  deriving DecidableEq

/-- Engine `IStereoLayers::ELayerType`. -/
inductive ELayerType where
  | WorldLocked
  | TrackerLocked
  | FaceLocked
  deriving DecidableEq

/-- Engine `IStereoLayers::FLayerDesc`; `Texture` and `LeftTexture` are
reference-counted pointers, `none` being the invalid (null) reference. -/
structure FLayerDesc where
  Transform : FTransform
  QuadSize : FVector2D
  UVRect : FBox2D
  LayerSize : FIntPoint
  Priority : Int
  PositionType : ELayerType
  Shape : LayerShape
  Texture : Option FRHITexture
  LeftTexture : Option FRHITexture
  Flags : Nat
  deriving DecidableEq

/-! ## Native SDK value types -/

/-- Native `PxrLayerParam`, the create-params of a layer. -/
structure PxrLayerParam where
  layerId : Nat
  layerShape : Nat
  layerType : Nat
  layerLayout : Nat
  format : Nat
  width : Nat
  height : Nat
  sampleCount : Nat
  faceCount : Nat
  arraySize : Nat
  mipmapCount : Nat
  layerFlags : Nat
  deriving DecidableEq

/-- The record `FMemory::Memzero(PxrLayerCreateParam)` leaves behind. -/
def PxrLayerParam.zero : PxrLayerParam :=
  ⟨0, 0, 0, 0, 0, 0, 0, 0, 0, 0, 0, 0⟩

/-- The wrapper `FPxrLayer`: it owns one native layer id. -/
structure FPxrLayer where
  PxrLayerId : Nat
  deriving DecidableEq

/-- Engine `ERHIResourceType`, the three values the source picks from. -/
inductive ERHIResourceType where
  | RRT_Texture2D
  | RRT_Texture2DArray
  | RRT_TextureCube
  deriving DecidableEq

/-- Engine `EPixelFormat`, the two values the source passes. -/
inductive EPixelFormat where
  | PF_R8G8B8A8
  | PF_R8G8
  deriving DecidableEq

/-- A swapchain resource as `CreateSwapChain_RenderThread` is asked to build
it: the arguments of the call and the index of the current image. -/
structure FXRSwapChain where
  LayerId : Nat
  ResourceType : ERHIResourceType
  Textures : List Nat
  Format : EPixelFormat
  SizeX : Nat
  SizeY : Nat
  ArraySize : Nat
  NumMips : Nat
  NumSamples : Nat
  bSRGB : Bool
  bFoveation : Bool
  MSAAValue : Int
  SwapChainIndex : Nat
  deriving DecidableEq

/-- Arrays handed to `CreateMeshSection_LinearColor`. -/
structure UnderlayMesh where
  Vertices : List FVector
  Triangles : List Int
  UV0 : List FVector2D
  deriving DecidableEq

/-- The procedural mesh component owned by an underlay actor. -/
structure UProceduralMeshComponent where
  Name : Nat
  Section0 : UnderlayMesh
  bHasMaterial : Bool
  WorldTransform : Option FTransform
  deriving DecidableEq

/-- An actor spawned into a world. -/
structure AActor where
  World : Nat
  deriving DecidableEq

/-- The layer object `FPICOXRStereoLayer`. -/
structure FPICOXRStereoLayer where
  bSplashLayer : Bool
  bSplashBlackProjectionLayer : Bool
  bMRCLayer : Bool
  ID : Nat
  PxrLayerID : Nat
  LayerDesc : FLayerDesc
  SwapChain : Option FXRSwapChain
  LeftSwapChain : Option FXRSwapChain
  FoveationSwapChain : Option FXRSwapChain
  bTextureNeedUpdate : Bool
  UnderlayMeshComponent : Option UProceduralMeshComponent
  UnderlayActor : Option AActor
  PxrLayer : Option FPxrLayer
  PxrLayerCreateParam : PxrLayerParam
  deriving DecidableEq

/-! ## Reuse test -/

/-- The method `FPICOXRStereoLayer::IfCanReuseLayers`. -/
def IfCanReuseLayers (self : FPICOXRStereoLayer) (InLayer : Option FPICOXRStereoLayer) : Bool :=
  match InLayer with
  | none => false
  | some In =>
    if !In.PxrLayer.isSome then false
    else if self.PxrLayerCreateParam.width != In.PxrLayerCreateParam.width
        || self.PxrLayerCreateParam.height != In.PxrLayerCreateParam.height
        || self.PxrLayerCreateParam.layerShape != In.PxrLayerCreateParam.layerShape
        || self.PxrLayerCreateParam.layerLayout != In.PxrLayerCreateParam.layerLayout
        || self.PxrLayerCreateParam.mipmapCount != In.PxrLayerCreateParam.mipmapCount
        || self.PxrLayerCreateParam.sampleCount != In.PxrLayerCreateParam.sampleCount
        || self.PxrLayerCreateParam.format != In.PxrLayerCreateParam.format
        || self.PxrLayerCreateParam.layerType != In.PxrLayerCreateParam.layerType then false
    else true

/-! ## Surroundings: headers, engine and SDK -/

/-- Constants declared in engine and SDK headers that are not part of the
sources; every definition below takes them as a parameter. -/
structure Consts where
  LAYER_FLAG_TEX_CONTINUOUS_UPDATE : Nat
  LAYER_FLAG_TEX_NO_ALPHA_CHANNEL : Nat
  LAYER_FLAG_QUAD_PRESERVE_TEX_RATIO : Nat
  LAYER_FLAG_HIDDEN : Nat
  PXR_LAYER_PROJECTION : Nat
  PXR_LAYER_QUAD : Nat
  PXR_LAYER_CYLINDER : Nat
  PXR_LAYER_EQUIRECT : Nat
  PXR_LAYER_CUBE : Nat
  PXR_OVERLAY : Nat
  PXR_UNDERLAY : Nat
  PXR_LAYER_LAYOUT_STEREO : Nat
  PXR_LAYER_LAYOUT_MONO : Nat
  PXR_LAYER_LAYOUT_ARRAY : Nat
  PXR_LAYER_LAYOUT_DOUBLE_WIDE : Nat
  PXR_LAYER_FLAG_STATIC_IMAGE : Nat
  PXR_LAYER_FLAG_HEAD_LOCKED : Nat
  GL_SRGB8_ALPHA8 : Nat
  GL_RGBA8 : Nat
  VK_FORMAT_R8G8B8A8_SRGB : Nat
  VK_FORMAT_R8G8B8A8_UNORM : Nat
  PI : ℚ

/-- One assignment of these constants, after the public engine, SDK, OpenGL
and Vulkan headers, for evaluating the definitions on concrete layers; `PI` is
the single-precision literal `3.1415926535897932f`, whose exact value is
`13176795 / 2^22`. -/
def stdConsts : Consts where
  LAYER_FLAG_TEX_CONTINUOUS_UPDATE := 1
  LAYER_FLAG_TEX_NO_ALPHA_CHANNEL := 2
  LAYER_FLAG_QUAD_PRESERVE_TEX_RATIO := 4
  LAYER_FLAG_HIDDEN := 32
  PXR_LAYER_PROJECTION := 0
  PXR_LAYER_QUAD := 1
  PXR_LAYER_CYLINDER := 2
  PXR_LAYER_EQUIRECT := 3
  PXR_LAYER_CUBE := 5
  PXR_OVERLAY := 0
  PXR_UNDERLAY := 1
  PXR_LAYER_LAYOUT_STEREO := 0
  PXR_LAYER_LAYOUT_MONO := 3
  PXR_LAYER_LAYOUT_ARRAY := 2
  PXR_LAYER_LAYOUT_DOUBLE_WIDE := 1
  PXR_LAYER_FLAG_STATIC_IMAGE := 4
  PXR_LAYER_FLAG_HEAD_LOCKED := 32
  GL_SRGB8_ALPHA8 := 35907
  GL_RGBA8 := 32856
  VK_FORMAT_R8G8B8A8_SRGB := 43
  VK_FORMAT_R8G8B8A8_UNORM := 37
  PI := 13176795 / 4194304

/-- Engine `EWorldType::Type`. -/
inductive EWorldType where
  | None
  | Game
  | Editor
  | PIE
  | EditorPreview
  | GamePreview
  | GameRPC
  | Inactive
  deriving DecidableEq

/-- Engine `FWorldContext`, as far as the source reads it. -/
structure FWorldContext where
  WorldType : EWorldType
  World : Option Nat

/-- What the engine and the HMD device answer when the layer code asks. -/
structure Host where
  RHIString : String
  IsMobileColorsRGB : Bool
  MSAAValue : Option Int
  bHasContentResourceFinder : Bool
  WorldContexts : List FWorldContext
  depthCapable : LayerShape → Bool
  Cos : ℚ → ℚ
  Sin : ℚ → ℚ

/-- Native `PxrEyeType`. -/
inductive PxrEyeType where
  | PXR_EYE_LEFT
  | PXR_EYE_RIGHT
  deriving DecidableEq

/-- The native SDK as an oracle: what each entry point answers. -/
structure PxrSDK where
  Pxr_IsInitialized : Bool
  Pxr_CreateLayer : PxrLayerParam → Int
  Pxr_GetLayerImageCount : Nat → PxrEyeType → Nat
  Pxr_GetLayerImage : Nat → PxrEyeType → Nat → Nat
  Pxr_GetLayerFoveationImage : Nat → PxrEyeType → Nat × Nat × Nat

/-- State shared by all layers on the render thread: the static
`PxrLayerIDCounter` (a `uint32`) and the log of `Pxr_CreateLayer` calls
issued so far. -/
structure RenderState where
  PxrLayerIDCounter : Nat
  CreateLayerCalls : List PxrLayerParam
  deriving DecidableEq

/-- A test `(Flags & Mask) != 0` on a `uint32` bit set. -/
def hasFlag (Flags Mask : Nat) : Bool :=
  (Flags &&& Mask) != 0

/-- Conversion of a `float` to `uint32` (`width = QuadSize.X`): truncation
towards zero.  Outside `[0, 2^32)` C++ leaves the result undefined; the model
saturates there, as the conversion instruction of the Android targets does. -/
def floatToUint32 (q : ℚ) : Nat :=
  min (Rat.floor q).toNat (2 ^ 32 - 1)

/-- The cast `(int)` of a `float`: truncation towards zero. -/
def truncToInt (q : ℚ) : Int :=
  if 0 ≤ q then ⌊q⌋ else ⌈q⌉

/-! ## Small helpers of the layer class -/

/-- The method `FPICOXRStereoLayer::GetShapeType`. -/
def GetShapeType (self : FPICOXRStereoLayer) : Nat :=
  match self.LayerDesc.Shape with
  | .Quad => 1
  | .Cylinder _ => 2
  | .Equirect _ => 3
  | .Cubemap => 5
  | .Other => 0

/-- Modelled from the spec: `IsLayerSupportDepth`, declared in the header
`PXR_StereoLayer.h`, which is not part of the sources.  The spec ties depth
support to the shape of the layer ("depth-capable shapes", "when shape
supports depth"); which shapes are depth-capable is left to the host. -/
def IsLayerSupportDepth (h : Host) (self : FPICOXRStereoLayer) : Bool :=
  h.depthCapable self.LayerDesc.Shape

/-- Modelled from the spec: `IsVisible`, declared in the header
`PXR_StereoLayer.h`, which is not part of the sources.  The spec lists
"hidden" among the description flags; a layer is visible when it is not set. -/
def IsVisible (c : Consts) (self : FPICOXRStereoLayer) : Bool :=
  !hasFlag self.LayerDesc.Flags c.LAYER_FLAG_HIDDEN

/-- The copy constructor behind `CloneMyself`: every member is copied. -/
def CloneMyself (self : FPICOXRStereoLayer) : FPICOXRStereoLayer where
  bSplashLayer := self.bSplashLayer
  bSplashBlackProjectionLayer := self.bSplashBlackProjectionLayer
  bMRCLayer := self.bMRCLayer
  ID := self.ID
  PxrLayerID := self.PxrLayerID
  LayerDesc := self.LayerDesc
  SwapChain := self.SwapChain
  LeftSwapChain := self.LeftSwapChain
  FoveationSwapChain := self.FoveationSwapChain
  bTextureNeedUpdate := self.bTextureNeedUpdate
  UnderlayMeshComponent := self.UnderlayMeshComponent
  UnderlayActor := self.UnderlayActor
  PxrLayer := self.PxrLayer
  PxrLayerCreateParam := self.PxrLayerCreateParam

/-! ## Underlay mesh -/

/-- The product `FVector * float`. -/
def FVector.scale (v : FVector) (s : ℚ) : FVector :=
  ⟨v.X * s, v.Y * s, v.Z * s⟩

/-- The sum `FVector + FVector`. -/
def FVector.add (a b : FVector) : FVector :=
  ⟨a.X + b.X, a.Y + b.Y, a.Z + b.Z⟩

/-- The difference `FVector - FVector`. -/
def FVector.sub (a b : FVector) : FVector :=
  ⟨a.X - b.X, a.Y - b.Y, a.Z - b.Z⟩

/-- The cross product of two vectors. -/
def FVector.cross (a b : FVector) : FVector :=
  ⟨a.Y * b.Z - a.Z * b.Y, a.Z * b.X - a.X * b.Z, a.X * b.Y - a.Y * b.X⟩

/-- The dot product of two vectors. -/
def FVector.dot (a b : FVector) : ℚ :=
  a.X * b.X + a.Y * b.Y + a.Z * b.Z

/-- The constant `FVector::ZeroVector`. -/
def FVector.ZeroVector : FVector :=
  ⟨0, 0, 0⟩

/-- The constant `FVector2D::ZeroVector`. -/
def FVector2D.ZeroVector : FVector2D :=
  ⟨0, 0⟩

/-- The static function `AddFaceIndices`: six `Triangles.Add` calls. -/
def AddFaceIndices (v0 v1 v2 v3 : Int) (Triangles : List Int) (inverse : Bool) : List Int :=
  if inverse then
    Triangles ++ [v0, v2, v1, v0, v3, v2]
  else
    Triangles ++ [v0, v1, v2, v0, v2, v3]

/-- The local `TexSize` of `CreateUnderlayMesh`:
`Texture.IsValid() ? Texture->GetTexture2D()->GetSizeXY() : LayerSize`.
The source dereferences `GetTexture2D()` unchecked, so a valid texture with
no 2D view is outside its precondition; the model reads a zero size there. -/
def TexSizeOf (d : FLayerDesc) : FIntPoint :=
  match d.Texture with
  | some t =>
    match t.GetTexture2D with
    | some t2 => ⟨t2.SizeX, t2.SizeY⟩
    | none => ⟨0, 0⟩
  | none => d.LayerSize

/-- The local `AspectRatio`:
`TexSize.X ? (float)TexSize.Y / (float)TexSize.X : 3.0f / 4.0f`. -/
def AspectRatioOf (TexSize : FIntPoint) : ℚ :=
  if TexSize.X ≠ 0 then (TexSize.Y : ℚ) / (TexSize.X : ℚ) else 3 / 4

/-- The local `Sides` of the cylinder branch:
`ArcAngle = Arc / Radius; Sides = (int)((ArcAngle * 180) / (PI * 5))`,
every operation taken over exact arithmetic.  `cylinderSidesBinary32` is the
same expression with every operation rounded as `float` rounds it. -/
def cylinderSides (PI Arc Radius : ℚ) : Int :=
  truncToInt ((Arc / Radius * 180) / (PI * 5))

/-- Rounding to the nearest integer, a tie going to the even one. -/
def roundHalfEven (q : ℚ) : Int :=
  if q - ⌊q⌋ < 1 / 2 then ⌊q⌋
  else if 1 / 2 < q - ⌊q⌋ then ⌊q⌋ + 1
  else if ⌊q⌋ % 2 = 0 then ⌊q⌋ else ⌊q⌋ + 1

/-- The exponent of the unit in the last place of a `float` (IEEE binary32)
near `x`: 24 significant bits, the exponent not below that of the smallest
normal number, so that the subnormal numbers are spaced by `2 ^ (-149)`. -/
def binary32UlpExponent (x : ℚ) : Int :=
  max (Int.log 2 |x|) (-126) - 23

/-- The `float` an exact result is rounded to: the nearest multiple of the
unit in the last place, a tie going to the even significand.  Overflow is not
modelled, the exponent being unbounded above: a result beyond the largest
finite `float` becomes an infinity in the source, whose cast to `int` C++
leaves undefined. -/
def roundBinary32 (x : ℚ) : ℚ :=
  (roundHalfEven (x / 2 ^ binary32UlpExponent x) : ℚ) * 2 ^ binary32UlpExponent x

/-- The local `Sides` of the cylinder branch as `float` arithmetic computes
it: `ArcAngle = Arc / Radius` is rounded, and so are the product
`ArcAngle * 180`, the product `PI * 5` and their quotient, before the cast
`(int)`. -/
def cylinderSidesBinary32 (PI Arc Radius : ℚ) : Int :=
  truncToInt (roundBinary32
    (roundBinary32 (roundBinary32 (Arc / Radius) * 180) / roundBinary32 (PI * 5)))

/-- The variables the cylinder loop updates. -/
structure CylinderLoop where
  Vertices : List FVector
  UV0 : List FVector2D
  Triangles : List Int
  CurrentAngle : ℚ

/-- One pass of the body of `for (Side = 0; Side < Sides + 1; Side++)`. -/
def cylinderBody (h : Host) (Radius : ℚ) (HalfHeight : FVector) (CylinderScale AngleStep : ℚ)
    (Sides : Int) (s : CylinderLoop) (Side : Nat) : CylinderLoop :=
  let MidVertex : FVector :=
    (FVector.add (FVector.scale ⟨1, 0, 0⟩ (h.Cos s.CurrentAngle))
      (FVector.scale ⟨0, 1, 0⟩ (h.Sin s.CurrentAngle))).scale Radius
  let Vertices := (s.Vertices.set (2 * Side) ((MidVertex.sub HalfHeight).scale CylinderScale)).set
    (2 * Side + 1) ((MidVertex.add HalfHeight).scale CylinderScale)
  let UV0 := (s.UV0.set (2 * Side) ⟨1 - (Side : ℚ) / (Sides : ℚ), 0⟩).set
    (2 * Side + 1) ⟨1 - (Side : ℚ) / (Sides : ℚ), 1⟩
  let Triangles :=
    if (Side : Int) < Sides then
      (((((s.Triangles.set (6 * Side + 0) (2 * Side)).set
        (6 * Side + 2) (2 * Side + 1)).set
        (6 * Side + 1) (2 * (Side + 1) + 1)).set
        (6 * Side + 3) (2 * Side)).set
        (6 * Side + 5) (2 * (Side + 1) + 1)).set
        (6 * Side + 4) (2 * (Side + 1))
    else s.Triangles
  ⟨Vertices, UV0, Triangles, s.CurrentAngle + AngleStep⟩

/-- The method `FPICOXRStereoLayer::CreateUnderlayMesh`; the three arrays
are passed in and returned.  `TArray::Init` with a negative count is outside
the engine's precondition and is modelled as an empty array; a division by a
zero `Sides` follows the convention `x / 0 = 0` of exact arithmetic. -/
def CreateUnderlayMesh (c : Consts) (h : Host) (self : FPICOXRStereoLayer) (m : UnderlayMesh) :
    UnderlayMesh :=
  match self.LayerDesc.Shape with
  | .Quad =>
    let QuadScale : ℚ := 99 / 100
    let TexSize := TexSizeOf self.LayerDesc
    let Aspect := AspectRatioOf TexSize
    let QuadSizeX := self.LayerDesc.QuadSize.X
    let QuadSizeY :=
      if hasFlag self.LayerDesc.Flags (Consts.LAYER_FLAG_QUAD_PRESERVE_TEX_RATIO c) then
        self.LayerDesc.QuadSize.X * Aspect
      else self.LayerDesc.QuadSize.Y
    { Vertices :=
        ((((List.replicate 4 FVector.ZeroVector).set 0
          (FVector.scale ⟨0, -QuadSizeX / 2, -QuadSizeY / 2⟩ QuadScale)).set 1
          (FVector.scale ⟨0, QuadSizeX / 2, -QuadSizeY / 2⟩ QuadScale)).set 2
          (FVector.scale ⟨0, QuadSizeX / 2, QuadSizeY / 2⟩ QuadScale)).set 3
          (FVector.scale ⟨0, -QuadSizeX / 2, QuadSizeY / 2⟩ QuadScale)
      UV0 :=
        ((((List.replicate 4 FVector2D.ZeroVector).set 0 ⟨1, 0⟩).set 1 ⟨1, 1⟩).set 2
          ⟨0, 0⟩).set 3 ⟨0, 1⟩
      Triangles := AddFaceIndices 0 1 2 3 m.Triangles false }
  | .Cylinder CylinderProps =>
    let Arc := CylinderProps.OverlayArc
    let Radius := CylinderProps.Radius
    let Height := CylinderProps.Height
    let CylinderScale : ℚ := 99 / 100
    let TexSize := TexSizeOf self.LayerDesc
    let Aspect := AspectRatioOf TexSize
    let CylinderHeight :=
      if hasFlag self.LayerDesc.Flags (Consts.LAYER_FLAG_QUAD_PRESERVE_TEX_RATIO c) then
        Arc * Aspect
      else Height
    let HalfHeight : FVector := ⟨0, 0, CylinderHeight / 2⟩
    let ArcAngle := Arc / Radius
    let Sides := cylinderSides c.PI Arc Radius
    let start : CylinderLoop :=
      { Vertices := List.replicate (2 * (Sides + 1)).toNat FVector.ZeroVector
        UV0 := List.replicate (2 * (Sides + 1)).toNat FVector2D.ZeroVector
        Triangles := List.replicate (Sides * 6).toNat 0
        CurrentAngle := -ArcAngle / 2 }
    let AngleStep := ArcAngle / (Sides : ℚ)
    let done := (List.range (Sides + 1).toNat).foldl
      (cylinderBody h Radius HalfHeight CylinderScale AngleStep Sides) start
    { Vertices := done.Vertices, UV0 := done.UV0, Triangles := done.Triangles }
  | .Cubemap =>
    let CubemapScale : ℚ := 1000
    let T0 := m.Triangles
    let T1 := AddFaceIndices 0 1 3 2 T0 false
    let T2 := AddFaceIndices 4 5 7 6 T1 true
    let T3 := AddFaceIndices 0 1 5 4 T2 true
    let T4 := AddFaceIndices 2 3 7 6 T3 false
    let T5 := AddFaceIndices 0 2 6 4 T4 false
    let T6 := AddFaceIndices 1 3 7 5 T5 true
    { Vertices :=
        ((((((((List.replicate 8 FVector.ZeroVector).set 0
          (FVector.scale ⟨-1, -1, -1⟩ CubemapScale)).set 1
          (FVector.scale ⟨-1, -1, 1⟩ CubemapScale)).set 2
          (FVector.scale ⟨-1, 1, -1⟩ CubemapScale)).set 3
          (FVector.scale ⟨-1, 1, 1⟩ CubemapScale)).set 4
          (FVector.scale ⟨1, -1, -1⟩ CubemapScale)).set 5
          (FVector.scale ⟨1, -1, 1⟩ CubemapScale)).set 6
          (FVector.scale ⟨1, 1, -1⟩ CubemapScale)).set 7
          (FVector.scale ⟨1, 1, 1⟩ CubemapScale)
      UV0 := m.UV0
      Triangles := T6 }
  | _ => m

/-- The world picked by the loop over `GEngine->GetWorldContexts()`: the
`World()` of the last context of type `Game` or `PIE`. -/
def findWorld (ctxs : List FWorldContext) : Option Nat :=
  ctxs.foldl (fun World Context =>
    if Context.WorldType = EWorldType.Game ∨ Context.WorldType = EWorldType.PIE then Context.World
    else World) none

/-- The method `FPICOXRStereoLayer::ManageUnderlayComponent`. -/
def ManageUnderlayComponent (c : Consts) (h : Host) (self : FPICOXRStereoLayer) :
    FPICOXRStereoLayer :=
  if IsLayerSupportDepth h self then
    match self.UnderlayMeshComponent with
    | none =>
      match findWorld h.WorldContexts with
      | none => self
      | some World =>
        let Section := CreateUnderlayMesh c h self ⟨[], [], []⟩
        { self with
          UnderlayActor := some ⟨World⟩
          UnderlayMeshComponent := some
            { Name := self.ID
              Section0 := Section
              bHasMaterial := h.bHasContentResourceFinder
              WorldTransform := some self.LayerDesc.Transform } }
    | some Component =>
      { self with
        UnderlayMeshComponent := some
          { Component with WorldTransform := some self.LayerDesc.Transform } }
  else self

/-- The address a texture reference compares by (`!=` on `FTextureRHIRef`). -/
def texPtr (t : Option FRHITexture) : Option Nat :=
  t.map (fun x => x.ptr)

/-- The method `FPICOXRStereoLayer::SetPXRLayerDesc`. -/
def SetPXRLayerDesc (c : Consts) (h : Host) (self : FPICOXRStereoLayer) (InDesc : FLayerDesc) :
    FPICOXRStereoLayer :=
  let self1 :=
    if texPtr self.LayerDesc.Texture != texPtr InDesc.Texture
        || texPtr self.LayerDesc.LeftTexture != texPtr InDesc.LeftTexture then
      { self with bTextureNeedUpdate := true }
    else self
  ManageUnderlayComponent c h { self1 with LayerDesc := InDesc }

/-! ## Creation and reuse on the render thread -/

/-- Lines 374 to 406 of `InitPXRLayer_RenderThread`: shape, type and the
size, sample and mip counts resolved from the description.  A valid texture
that is neither 2D nor cube leaves the four counts as they were. -/
def resolveCreateParam (c : Consts) (h : Host) (self : FPICOXRStereoLayer) : PxrLayerParam :=
  let p : PxrLayerParam :=
    { self.PxrLayerCreateParam with
      layerShape := GetShapeType self
      layerType := if IsLayerSupportDepth h self then c.PXR_UNDERLAY else c.PXR_OVERLAY }
  match self.LayerDesc.Texture with
  | some Texture =>
    match Texture.GetTexture2D with
    | some Texture2D =>
      { p with
        width := Texture2D.SizeX
        height := Texture2D.SizeY
        sampleCount := Texture2D.NumSamples
        mipmapCount := Texture2D.NumMips }
    | none =>
      match Texture.GetTextureCube with
      | some TextureCube =>
        { p with
          width := TextureCube.Size
          height := TextureCube.Size
          sampleCount := 1
          mipmapCount := 1 }
      | none => p
  | none =>
    { p with
      width := floatToUint32 self.LayerDesc.QuadSize.X
      height := floatToUint32 self.LayerDesc.QuadSize.Y
      sampleCount := 1
      mipmapCount := 1 }

/-- Lines 413 to 438 of `InitPXRLayer_RenderThread`: face count, array size,
static-image flag, layout and format. -/
def completeCreateParam (c : Consts) (h : Host) (self : FPICOXRStereoLayer) (p : PxrLayerParam) :
    PxrLayerParam :=
  let p1 : PxrLayerParam :=
    { p with
      faceCount := if p.layerShape = c.PXR_LAYER_CUBE then 6 else 1
      arraySize := 1 }
  let p2 : PxrLayerParam :=
    if (self.bSplashLayer && h.RHIString == "Vulkan")
        || !hasFlag self.LayerDesc.Flags c.LAYER_FLAG_TEX_CONTINUOUS_UPDATE then
      { p1 with layerFlags := p1.layerFlags ||| c.PXR_LAYER_FLAG_STATIC_IMAGE }
    else p1
  let p3 : PxrLayerParam :=
    { p2 with
      layerLayout :=
        if self.LayerDesc.LeftTexture.isSome then c.PXR_LAYER_LAYOUT_STEREO
        else c.PXR_LAYER_LAYOUT_MONO }
  if h.RHIString == "OpenGL" then
    { p3 with format := if h.IsMobileColorsRGB then c.GL_SRGB8_ALPHA8 else c.GL_RGBA8 }
  else if h.RHIString == "Vulkan" then
    { p3 with
      format :=
        if h.IsMobileColorsRGB then c.VK_FORMAT_R8G8B8A8_SRGB else c.VK_FORMAT_R8G8B8A8_UNORM }
  else p3

/-- What `InitPXRLayer_RenderThread` hands back: its return value, the layer
it ran on and the shared render-thread state. -/
structure InitResult where
  ret : Bool
  layer : FPICOXRStereoLayer
  state : RenderState
  deriving DecidableEq

/-- Lines 445 to 450: the layer adopts the resources of the previous snapshot. -/
def adoptLayer (self In : FPICOXRStereoLayer) : FPICOXRStereoLayer :=
  { self with
    PxrLayerID := In.PxrLayerID
    PxrLayer := In.PxrLayer
    SwapChain := In.SwapChain
    LeftSwapChain := In.LeftSwapChain
    FoveationSwapChain := In.FoveationSwapChain
    bTextureNeedUpdate := self.bTextureNeedUpdate || In.bTextureNeedUpdate }

/-- Lines 561 to 565: a visible layer with a valid texture that asks for
continuous updates is marked for a texture copy; the function returns true. -/
def finishInit (c : Consts) (self : FPICOXRStereoLayer) (st : RenderState) : InitResult :=
  if hasFlag self.LayerDesc.Flags c.LAYER_FLAG_TEX_CONTINUOUS_UPDATE
      && self.LayerDesc.Texture.isSome && IsVisible c self then
    ⟨true, { self with bTextureNeedUpdate := true }, st⟩
  else ⟨true, self, st⟩

/-- The images read back by the loop
`for (i = 0; i < ImageCounts; i++) Pxr_GetLayerImage(PxrLayerID, eye, i, ...)`. -/
def layerImages (sdk : PxrSDK) (PxrLayerID : Nat) (eye : PxrEyeType) : List Nat :=
  (List.range (sdk.Pxr_GetLayerImageCount PxrLayerID eye)).map
    (fun i => sdk.Pxr_GetLayerImage PxrLayerID eye i)

/-- Lines 510 to 552: wrapper and swapchains built after a native creation. -/
def buildSwapChains (c : Consts) (h : Host) (sdk : PxrSDK) (self : FPICOXRStereoLayer)
    (MSAAValue : Int) (bNeedFFRSwapChain : Bool) : FPICOXRStereoLayer :=
  let p := self.PxrLayerCreateParam
  let ResourceType :=
    if p.layerShape = c.PXR_LAYER_CUBE then ERHIResourceType.RRT_TextureCube
    else if p.arraySize = 2 then ERHIResourceType.RRT_Texture2DArray
    else ERHIResourceType.RRT_Texture2D
  let mk (Textures : List Nat) : FXRSwapChain :=
    { LayerId := self.PxrLayerID
      ResourceType := ResourceType
      Textures := Textures
      Format := EPixelFormat.PF_R8G8B8A8
      SizeX := p.width
      SizeY := p.height
      ArraySize := p.arraySize
      NumMips := p.mipmapCount
      NumSamples := p.sampleCount
      bSRGB := h.IsMobileColorsRGB
      bFoveation := false
      MSAAValue := MSAAValue
      SwapChainIndex := 0 }
  let Foveation := sdk.Pxr_GetLayerFoveationImage self.PxrLayerID PxrEyeType.PXR_EYE_RIGHT
  { self with
    PxrLayer := some ⟨self.PxrLayerID⟩
    SwapChain := some (mk (layerImages sdk self.PxrLayerID PxrEyeType.PXR_EYE_RIGHT))
    LeftSwapChain :=
      if p.layerLayout = c.PXR_LAYER_LAYOUT_STEREO then
        some (mk (layerImages sdk self.PxrLayerID PxrEyeType.PXR_EYE_LEFT))
      else self.LeftSwapChain
    FoveationSwapChain :=
      if bNeedFFRSwapChain then
        some
          { LayerId := self.PxrLayerID
            ResourceType := ResourceType
            Textures := [Foveation.1]
            Format := EPixelFormat.PF_R8G8
            SizeX := Foveation.2.1
            SizeY := Foveation.2.2
            ArraySize := p.arraySize
            NumMips := 1
            NumSamples := 1
            bSRGB := h.IsMobileColorsRGB
            bFoveation := true
            MSAAValue := 1
            SwapChainIndex := 0 }
      else self.FoveationSwapChain
    bTextureNeedUpdate := true }

/-- Line 466, `PxrLayerCreateParam.layerId = PxrLayerID = PxrLayerIDCounter`. -/
def stampLayerId (self : FPICOXRStereoLayer) (Counter : Nat) : FPICOXRStereoLayer :=
  { self with
    PxrLayerID := Counter
    PxrLayerCreateParam := { self.PxrLayerCreateParam with layerId := Counter } }

/-- A call `Pxr_CreateLayer(&PxrLayerCreateParam)` entered in the log. -/
def logCreateLayer (st : RenderState) (p : PxrLayerParam) : RenderState :=
  { st with CreateLayerCalls := st.CreateLayerCalls ++ [p] }

/-- Line 469, `PxrLayerIDCounter++` on a `uint32`. -/
def bumpCounter (st : RenderState) : RenderState :=
  { st with PxrLayerIDCounter := (st.PxrLayerIDCounter + 1) % 2 ^ 32 }

/-- Lines 442 to 565 of `InitPXRLayer_RenderThread`: reuse of the previous
snapshot, or creation of a native layer and its swapchains.  `Pxr_CreateLayer`
is called only when `Pxr_IsInitialized()` answers true (`&&`). -/
def reuseOrCreate (c : Consts) (h : Host) (sdk : PxrSDK) (st : RenderState)
    (self : FPICOXRStereoLayer) (InLayer : Option FPICOXRStereoLayer)
    (MSAAValue : Int) (bNeedFFRSwapChain : Bool) : InitResult :=
  if IfCanReuseLayers self InLayer then
    match InLayer with
    | some In => finishInit c (adoptLayer self In) st
    | none => finishInit c self st
  else
    let self1 := stampLayerId self st.PxrLayerIDCounter
    if sdk.Pxr_IsInitialized then
      let st1 := logCreateLayer st self1.PxrLayerCreateParam
      if sdk.Pxr_CreateLayer self1.PxrLayerCreateParam = 0 then
        finishInit c (buildSwapChains c h sdk self1 MSAAValue bNeedFFRSwapChain) (bumpCounter st1)
      else ⟨false, self1, st1⟩
    else ⟨false, self1, st⟩

/-- The method `FPICOXRStereoLayer::InitPXRLayer_RenderThread`; `InLayer` is
the previous snapshot, `none` for a null pointer. -/
def InitPXRLayer_RenderThread (c : Consts) (h : Host) (sdk : PxrSDK) (st : RenderState)
    (self : FPICOXRStereoLayer) (InLayer : Option FPICOXRStereoLayer) : InitResult :=
  if self.ID = 0 then
    let MSAAValue : Int :=
      match h.MSAAValue with
      | some v => v
      | none => 1
    let bNeedFFRSwapChain : Bool := h.RHIString == "Vulkan"
    reuseOrCreate c h sdk st self InLayer MSAAValue bNeedFFRSwapChain
  else if !self.bSplashBlackProjectionLayer then
    let p := resolveCreateParam c h self
    if p.width = 0 ∨ p.height = 0 then
      ⟨false, { self with PxrLayerCreateParam := p }, st⟩
    else
      reuseOrCreate c h sdk st { self with PxrLayerCreateParam := completeCreateParam c h self p }
        InLayer 1 false
  else
    reuseOrCreate c h sdk st self InLayer 1 false

/-- The layer as it stands when line 442 (`IfCanReuseLayers(InLayer)`) is
reached; `none` when the zero-size check of line 408 has returned before. -/
def layerAtReuseTest (c : Consts) (h : Host) (self : FPICOXRStereoLayer) :
    Option FPICOXRStereoLayer :=
  if self.ID = 0 then some self
  else if !self.bSplashBlackProjectionLayer then
    let p := resolveCreateParam c h self
    if p.width = 0 ∨ p.height = 0 then none
    else some { self with PxrLayerCreateParam := completeCreateParam c h self p }
  else some self

/-! ## Concrete layers for evaluation -/

/-- A host running OpenGL without sRGB, one game world, no depth-capable shape. -/
def exHost : Host where
  RHIString := "OpenGL"
  IsMobileColorsRGB := false
  MSAAValue := some 1
  bHasContentResourceFinder := true
  WorldContexts := [⟨EWorldType.Game, some 1⟩]
  depthCapable := fun _ => false
  Cos := fun _ => 1
  Sin := fun _ => 0

/-- An initialised SDK on which every creation succeeds and every layer has
three images per eye. -/
def exSDK : PxrSDK where
  Pxr_IsInitialized := true
  Pxr_CreateLayer := fun _ => 0
  Pxr_GetLayerImageCount := fun _ _ => 3
  Pxr_GetLayerImage := fun id _ i => 10 * id + i
  Pxr_GetLayerFoveationImage := fun id _ => (10 * id + 9, 64, 64)

/-- The identity transform. -/
def exTransform : FTransform :=
  ⟨⟨0, 0, 0, 1⟩, ⟨0, 0, 0⟩, ⟨1, 1, 1⟩⟩

/-- A 512 by 512 2D texture with one sample and one mip. -/
def exTexture : FRHITexture :=
  ⟨4096, some ⟨512, 512, 1, 1⟩, none⟩

/-- A quad description showing `exTexture`, no flag set. -/
def exDesc : FLayerDesc where
  Transform := exTransform
  QuadSize := ⟨1, 1⟩
  UVRect := ⟨⟨0, 0⟩, ⟨1, 1⟩⟩
  LayerSize := ⟨0, 0⟩
  Priority := 0
  PositionType := ELayerType.WorldLocked
  Shape := LayerShape.Quad
  Texture := some exTexture
  LeftTexture := none
  Flags := 0

/-- A freshly constructed layer with id 1 holding `exDesc`. -/
def exLayer : FPICOXRStereoLayer where
  bSplashLayer := false
  bSplashBlackProjectionLayer := false
  bMRCLayer := false
  ID := 1
  PxrLayerID := 0
  LayerDesc := exDesc
  SwapChain := none
  LeftSwapChain := none
  FoveationSwapChain := none
  bTextureNeedUpdate := true
  UnderlayMeshComponent := none
  UnderlayActor := none
  PxrLayer := none
  PxrLayerCreateParam := PxrLayerParam.zero

/-- The render-thread state before any layer was created. -/
def exState : RenderState :=
  ⟨0, []⟩

/-- Frame 1: `exLayer` is initialised with no previous snapshot. -/
def exFrame1 : InitResult :=
  InitPXRLayer_RenderThread stdConsts exHost exSDK exState exLayer none

/-- The layer of frame 2: `exLayer`, its description now asking for
continuous updates. -/
def exLayer2 : FPICOXRStereoLayer :=
  { exLayer with LayerDesc := { exDesc with Flags := 1 } }

/-- The layer of frame 2 with its create-params computed, as line 442 finds it. -/
def exLayer2AtTest : FPICOXRStereoLayer :=
  { exLayer2 with
    PxrLayerCreateParam :=
      completeCreateParam stdConsts exHost exLayer2 (resolveCreateParam stdConsts exHost exLayer2) }

/-- Frame 2: `exLayer2` is initialised against the snapshot of frame 1. -/
def exFrame2 : InitResult :=
  InitPXRLayer_RenderThread stdConsts exHost exSDK exFrame1.state exLayer2 (some exFrame1.layer)

/-- A description with an invalid texture, `LayerSize` (0,0) and `QuadSize` (1,1). -/
def exDescNoTexture : FLayerDesc :=
  { exDesc with Texture := none, LayerSize := ⟨0, 0⟩, QuadSize := ⟨1, 1⟩ }

/-- A description with an invalid texture, `QuadSize` (0,0) and `LayerSize` (512,512). -/
def exDescZeroQuad : FLayerDesc :=
  { exDesc with Texture := none, LayerSize := ⟨512, 512⟩, QuadSize := ⟨0, 0⟩ }

/-! ## Online message tasks

The definitions of this part follow
`Plugins/OnlineSubsystemPico/Source/OnlineSubsystemPico/Private/OnlineMessageTaskManagerPico.cpp`
(Android build).  A message handle is an address, `none` being the null
pointer; what the code does to the outside world is returned as a list of
events. -/

/-- What the task manager does to the outside world. -/
inductive OnlineEvent where
  | ExecuteDelegate (Delegate : Nat) (MessageHandle : Option Nat) (bIsError : Bool)
  | FreeMessage (MessageHandle : Option Nat)
  | Broadcast (Delegates : List Nat) (MessageHandle : Option Nat) (bIsError : Bool)
  deriving DecidableEq

/-- The task object `FOnlineAsyncTaskPico`; `Delegate` is the single-cast
completion delegate, `none` when unbound. -/
structure FOnlineAsyncTaskPico where
  RequestId : Nat
  bIsComplete : Bool
  bWasSuccessful : Bool
  MessageHandle : Option Nat
  bIsError : Bool
  Delegate : Option Nat
  deriving DecidableEq

/-- The method `FOnlineAsyncTaskPico::Tick`.  `GetAccessToken` is the header
constant `ppfMessageType_User_GetAccessToken`, `ElapsedTime` the value of the
engine's `GetElapsedTime()`. -/
def FOnlineAsyncTaskPico.Tick (GetAccessToken : Nat) (ElapsedTime : ℚ)
    (self : FOnlineAsyncTaskPico) : FOnlineAsyncTaskPico :=
  if self.RequestId ≠ GetAccessToken then
    if ElapsedTime ≥ 10 then
      { self with bIsComplete := true, bWasSuccessful := false }
    else self
  else self

/-- The method `FOnlineAsyncTaskPico::TaskReceiveMessage`: the task after the
call and the events of the call. -/
def FOnlineAsyncTaskPico.TaskReceiveMessage (self : FOnlineAsyncTaskPico)
    (InMessageHandle : Option Nat) (InbIsError : Bool) :
    FOnlineAsyncTaskPico × List OnlineEvent :=
  let self1 : FOnlineAsyncTaskPico :=
    match InMessageHandle with
    | some Handle =>
      { self with
        bIsComplete := true
        bWasSuccessful := true
        MessageHandle := some Handle
        bIsError := InbIsError }
    | none => { self with bIsComplete := true, bWasSuccessful := false }
  if self1.bWasSuccessful then
    let Executed : List OnlineEvent :=
      match self1.Delegate with
      | some d => [OnlineEvent.ExecuteDelegate d self1.MessageHandle self1.bIsError]
      | none => []
    ({ self1 with Delegate := none, MessageHandle := none },
      Executed ++ [OnlineEvent.FreeMessage self1.MessageHandle])
  else (self1, [])

/-- A message waiting in the native queue: its address (never null) and what
`ppf_Message_GetType`, `ppf_Message_GetRequestID` and `ppf_Message_IsError`
answer for it. -/
structure ppfMessage where
  Handle : Nat
  MessageType : Nat
  RequestID : Nat
  IsError : Bool
  deriving DecidableEq

/-- The two maps of `FOnlineAsyncTaskManagerPico`, as association lists:
pending tasks by request id, multicast delegates by message type. -/
structure FOnlineAsyncTaskManagerPico where
  RequestTaskMap : List (Nat × FOnlineAsyncTaskPico)
  NotificationMap : List (Nat × List Nat)
  deriving DecidableEq

/-- Modelled from the spec: `FOnlineAsyncEventPico::TriggerDelegates`, whose
body is in a header that is not part of the sources.  The spec has the event
"broadcast to all delegates registered for that type". -/
def FOnlineAsyncEventPico_TriggerDelegates (MessageHandle : Option Nat) (bIsError : Bool)
    (Delegate : List Nat) : List OnlineEvent :=
  [OnlineEvent.Broadcast Delegate MessageHandle bIsError]

/-- What one call of `TickTask` leaves behind: the manager, the messages
still in the native queue and the events of the call. -/
structure TickResult where
  Manager : FOnlineAsyncTaskManagerPico
  Queue : List ppfMessage
  Events : List OnlineEvent
  deriving DecidableEq

/-- The method `FOnlineAsyncTaskManagerPico::TickTask`, run on the native
message queue.  Each pass of `for (;;)` pops the head of the queue; an empty
queue (`ppf_PopMessage` answers null), a matched task and a registered
notification leave the loop, a message that is neither matched nor registered
is freed and the loop goes round again. -/
def TickTask (self : FOnlineAsyncTaskManagerPico) : List ppfMessage → TickResult
  | [] => ⟨self, [], []⟩
  | Message :: Rest =>
    match self.RequestTaskMap.lookup Message.RequestID with
    | some Item =>
      ⟨{ self with
          RequestTaskMap := self.RequestTaskMap.filter (fun e => e.1 != Message.RequestID) },
        Rest, (Item.TaskReceiveMessage (some Message.Handle) Message.IsError).2⟩
    | none =>
      match self.NotificationMap.lookup Message.MessageType with
      | some Delegate =>
        ⟨self, Rest,
          FOnlineAsyncEventPico_TriggerDelegates (some Message.Handle) Message.IsError Delegate⟩
      | none =>
        let Next := TickTask self Rest
        ⟨Next.Manager, Next.Queue, OnlineEvent.FreeMessage (some Message.Handle) :: Next.Events⟩

/-- The number of messages a call of `TickTask` took out of the queue. -/
def poppedCount (Before : List ppfMessage) (r : TickResult) : Nat :=
  Before.length - r.Queue.length

/-- A message is dropped when no pending task has its request id and no
notification entry has its type. -/
def isDropped (self : FOnlineAsyncTaskManagerPico) (Message : ppfMessage) : Bool :=
  (self.RequestTaskMap.lookup Message.RequestID).isNone
    && (self.NotificationMap.lookup Message.MessageType).isNone

/-- The events of an invoked callback: a task delegate or a broadcast. -/
def OnlineEvent.isCallback : OnlineEvent → Bool
  | .ExecuteDelegate _ _ _ => true
  | .Broadcast _ _ _ => true
  | .FreeMessage _ => false

/-- The events of an invoked task completion delegate. -/
def OnlineEvent.isTaskCallback : OnlineEvent → Bool
  | .ExecuteDelegate _ _ _ => true
  | _ => false

/-- The `FreeMessage` events of a run of dropped messages. -/
def dropEvents (Dropped : List ppfMessage) : List OnlineEvent :=
  Dropped.map (fun Message => OnlineEvent.FreeMessage (some Message.Handle))

/-- A pending task for request 7 with delegate 70 bound. -/
def exTask : FOnlineAsyncTaskPico :=
  ⟨7, false, false, none, false, some 70⟩

/-- A manager with pending tasks for requests 7 and 8 and two delegates
registered for message type 100. -/
def exManager : FOnlineAsyncTaskManagerPico :=
  ⟨[(7, exTask), (8, { exTask with RequestId := 8, Delegate := some 80 })], [(100, [1, 2])]⟩

/-- The answer to request 7, without error flag. -/
def exMsgDone : ppfMessage :=
  ⟨500, 3, 7, false⟩

/-- An unsolicited message of the registered type 100. -/
def exMsgNotify : ppfMessage :=
  ⟨501, 100, 99, false⟩

/-- A message of type 4 for request 99: no task, no notification entry. -/
def exMsgStray : ppfMessage :=
  ⟨502, 4, 99, false⟩

/-- A second message that nothing is waiting for. -/
def exMsgStray2 : ppfMessage :=
  ⟨503, 5, 98, true⟩

/-! ## Submission on the RHI thread -/

/-- Engine `FLinearColor`. -/
structure FLinearColor where
  R : ℚ
  G : ℚ
  B : ℚ
  A : ℚ
  deriving DecidableEq

/-- The members of the HMD device `FPICOXRHMD` that submission reads. -/
structure FPICOXRHMD where
  bIsSwitchingLevel : Bool
  GColorScale : FLinearColor
  GColorOffset : FLinearColor
  GbApplyToAllLayers : Bool
  deriving DecidableEq

/-- The members of the frame `FPXRGameFrame` that submission reads. -/
structure FPXRGameFrame where
  ViewNumber : Nat
  TrackingToWorld : FTransform
  WorldToMetersScale : ℚ
  deriving DecidableEq

/-- Engine and plugin helpers called by submission whose bodies are not part
of the sources: the layer's location and orientation getters, the inverse
transforms of `FTransform` and the unit conversions of `FPICOXRUtils`. -/
structure PoseHelpers where
  GetLayerLocation : FPICOXRStereoLayer → FVector
  GetLayerOrientation : FPICOXRStereoLayer → FQuat
  InverseTransformPosition : FTransform → FVector → FVector
  InverseTransformRotation : FTransform → FQuat → FQuat
  ConvertUnrealVectorToXRVector : FVector → ℚ → FVector
  ConvertUnrealQuatToXRQuat : FQuat → FQuat

/-- Native `PxrPosef`. -/
structure PxrPosef where
  orientation : FQuat
  position : FVector
  deriving DecidableEq

/-- Native `PxrLayerHeader` and `PxrLayerHeader2`, the members the source
assigns; the last two belong to the second form only. -/
structure PxrLayerHeader where
  layerId : Nat
  layerFlags : Nat
  compositionDepth : Nat
  sensorFrameIndex : Nat
  colorScale : List ℚ
  colorBias : List ℚ
  layerShape : Nat
  useImageRect : Nat
  deriving DecidableEq

/-- The per-eye members of native `PxrLayerEquirect` and of its header. -/
structure EquirectEye where
  radius : ℚ
  pose : PxrPosef
  imageRect : Int × Int × Int × Int
  scaleX : ℚ
  scaleY : ℚ
  biasX : ℚ
  biasY : ℚ
  deriving DecidableEq

/-- One call into the native submission entry points, with its argument. -/
inductive NativeSubmit where
  | Pxr_SubmitLayer_Projection (header : PxrLayerHeader)
  | Pxr_SubmitLayer_Quad (header : PxrLayerHeader) (pose : PxrPosef) (size0 size1 : ℚ)
  | Pxr_SubmitLayer_Cylinder (header : PxrLayerHeader) (pose : PxrPosef)
      (centralAngle height radius : ℚ)
  | Pxr_SubmitLayer2_Equirect (header : PxrLayerHeader) (eyes : List EquirectEye)
  | Pxr_SubmitLayer2_Cube (header : PxrLayerHeader) (poses : List PxrPosef)
  deriving DecidableEq

/-- The constant `FTransform::Identity`. -/
def FTransform.Identity : FTransform :=
  ⟨⟨0, 0, 0, 1⟩, ⟨0, 0, 0⟩, ⟨1, 1, 1⟩⟩

/-- A zero-initialised header (`layerSubmit = {}`). -/
def PxrLayerHeader.zero : PxrLayerHeader :=
  ⟨0, 0, 0, 0, [0, 0, 0, 0], [0, 0, 0, 0], 0, 0⟩

/-- Lines 817 to 819, the vertical flip of a UV range:
`temp = vmin; vmin = 1 - vmax; vmax = 1 - temp`, on the pair `(vmin, vmax)`. -/
def flipV (v : ℚ × ℚ) : ℚ × ℚ :=
  (1 - v.2, 1 - v.1)

/-- One pass of the loop over `EyeIndex` in the equirect branch, for an eye
with UV rectangle `UVRect`. -/
def equirectEye (p : PxrLayerParam) (pose : PxrPosef) (UVRect : FBox2D) : EquirectEye :=
  let umax := UVRect.Max.X
  let umin := UVRect.Min.X
  let v := flipV (UVRect.Min.Y, UVRect.Max.Y)
  let vmin := v.1
  let vmax := v.2
  let imagerectx : ℚ := (truncToInt (umin * p.width) : ℚ)
  let imagerecty : ℚ := (truncToInt (vmin * p.height) : ℚ)
  let imagerectwidth : ℚ := p.width * (umax - umin)
  let imagerectheight : ℚ := p.height * (vmax - vmin)
  { radius := 100
    pose := pose
    imageRect := (truncToInt imagerectx, truncToInt imagerecty, truncToInt imagerectwidth,
      truncToInt imagerectheight)
    scaleX := 1 / (umax - umin)
    scaleY := 1 / (vmax - vmin)
    biasX := -umin / (umax - umin)
    biasY := (vmax - 1) / (vmax - vmin) }

/-- The four colour components as the header stores them. -/
def FLinearColor.toList (col : FLinearColor) : List ℚ :=
  [col.R, col.G, col.B, col.A]

/-- The method `FPICOXRStereoLayer::SubmitLayer_RHIThread`: the native
submission calls it issues, in order.  `GetShape<T>()` on a description of
another shape is outside the engine's precondition; the model reads zero
properties there. -/
def SubmitLayer_RHIThread (c : Consts) (HMDDevice : FPICOXRHMD) (ph : PoseHelpers)
    (self : FPICOXRStereoLayer) (Frame : FPXRGameFrame) : List NativeSubmit :=
  if self.ID = 0 then
    let bDrawBlackEye := HMDDevice.bIsSwitchingLevel
    [NativeSubmit.Pxr_SubmitLayer_Projection
      { PxrLayerHeader.zero with
        layerId := self.PxrLayerID
        layerFlags := 0
        sensorFrameIndex := Frame.ViewNumber
        colorScale := if bDrawBlackEye then [0, 0, 0, 0] else HMDDevice.GColorScale.toList
        colorBias := if bDrawBlackEye then [0, 0, 0, 0] else HMDDevice.GColorOffset.toList }]
  else if self.bSplashBlackProjectionLayer then
    [NativeSubmit.Pxr_SubmitLayer_Projection
      { PxrLayerHeader.zero with
        layerId := self.PxrLayerID
        layerFlags := 0
        sensorFrameIndex := Frame.ViewNumber
        colorScale := [0, 0, 0, 0] }]
  else
    let Flags0 : Nat := 0 ||| (if self.bMRCLayer then 1 <<< 30 else 0)
    let BaseTransform : FTransform :=
      match self.LayerDesc.PositionType with
      | .WorldLocked =>
        { FTransform.Identity with
          Rotation := Frame.TrackingToWorld.Rotation
          Translation := Frame.TrackingToWorld.Translation }
      | .TrackerLocked => FTransform.Identity
      | .FaceLocked => FTransform.Identity
    let Flags : Nat :=
      match self.LayerDesc.PositionType with
      | .FaceLocked => Flags0 ||| c.PXR_LAYER_FLAG_HEAD_LOCKED
      | _ => Flags0
    let LayerPosition := ph.ConvertUnrealVectorToXRVector
      (ph.InverseTransformPosition BaseTransform (ph.GetLayerLocation self))
      Frame.WorldToMetersScale
    let LayerOrientation := ph.ConvertUnrealQuatToXRQuat
      (ph.InverseTransformRotation BaseTransform (ph.GetLayerOrientation self))
    let pose : PxrPosef := ⟨LayerOrientation, LayerPosition⟩
    let SizeX : Int := self.PxrLayerCreateParam.width
    let SizeY : Int := self.PxrLayerCreateParam.height
    let Aspect : ℚ := if SizeX ≠ 0 then (SizeY : ℚ) / (SizeX : ℚ) else 3 / 4
    let Scale := ph.ConvertUnrealVectorToXRVector self.LayerDesc.Transform.Scale3D
      Frame.WorldToMetersScale
    let bAdjustLayersColor := HMDDevice.GbApplyToAllLayers && !self.bSplashLayer
    let header : PxrLayerHeader :=
      { PxrLayerHeader.zero with
        layerId := self.PxrLayerID
        compositionDepth := 0
        sensorFrameIndex := Frame.ViewNumber
        layerFlags := Flags
        colorScale := if bAdjustLayersColor then HMDDevice.GColorScale.toList else [1, 1, 1, 1]
        colorBias := if bAdjustLayersColor then HMDDevice.GColorOffset.toList else [0, 0, 0, 0] }
    let bPreserve :=
      hasFlag self.LayerDesc.Flags (Consts.LAYER_FLAG_QUAD_PRESERVE_TEX_RATIO c)
    let ShapeType := GetShapeType self
    if ShapeType = c.PXR_LAYER_QUAD then
      let QuadSizeY :=
        if bPreserve then self.LayerDesc.QuadSize.X * Aspect else self.LayerDesc.QuadSize.Y
      [NativeSubmit.Pxr_SubmitLayer_Quad header pose (self.LayerDesc.QuadSize.X * Scale.X)
        (QuadSizeY * Scale.Y)]
    else if ShapeType = c.PXR_LAYER_CYLINDER then
      let CylinderProps : FCylinderLayer :=
        match self.LayerDesc.Shape with
        | .Cylinder props => props
        | _ => ⟨0, 0, 0⟩
      let CylinderHeight :=
        if bPreserve then CylinderProps.OverlayArc * Aspect else CylinderProps.Height
      [NativeSubmit.Pxr_SubmitLayer_Cylinder header pose
        (CylinderProps.OverlayArc / CylinderProps.Radius) (CylinderHeight * Scale.X)
        (CylinderProps.Radius * Scale.X)]
    else if ShapeType = c.PXR_LAYER_EQUIRECT then
      let zeroBox : FBox2D := ⟨⟨0, 0⟩, ⟨0, 0⟩⟩
      let EquirectProps : FEquirectLayer :=
        match self.LayerDesc.Shape with
        | .Equirect props => props
        | _ => ⟨zeroBox, zeroBox, ⟨0, 0⟩, ⟨0, 0⟩, ⟨0, 0⟩, ⟨0, 0⟩⟩
      [NativeSubmit.Pxr_SubmitLayer2_Equirect
        { header with layerShape := c.PXR_LAYER_EQUIRECT, useImageRect := 1 }
        [equirectEye self.PxrLayerCreateParam pose EquirectProps.LeftUVRect,
         equirectEye self.PxrLayerCreateParam pose EquirectProps.RightUVRect]]
    else if ShapeType = c.PXR_LAYER_CUBE then
      [NativeSubmit.Pxr_SubmitLayer2_Cube { header with layerShape := c.PXR_LAYER_CUBE }
        [pose, pose]]
    else []

/-- A device that is not switching level and leaves layer colours alone. -/
def exHMD : FPICOXRHMD :=
  ⟨false, ⟨1, 1, 1, 1⟩, ⟨0, 0, 0, 0⟩, false⟩

/-- Pose helpers that hand the vectors through unchanged. -/
def exPoseHelpers : PoseHelpers where
  GetLayerLocation := fun L => L.LayerDesc.Transform.Translation
  GetLayerOrientation := fun L => L.LayerDesc.Transform.Rotation
  InverseTransformPosition := fun _ v => v
  InverseTransformRotation := fun _ q => q
  ConvertUnrealVectorToXRVector := fun v _ => v
  ConvertUnrealQuatToXRQuat := fun q => q

/-- A frame with view number 1 in identity tracking space. -/
def exGameFrame : FPXRGameFrame :=
  ⟨1, FTransform.Identity, 100⟩

/-- A layer with id 1 whose shape is none of quad, cylinder, equirect, cubemap. -/
def exLayerOtherShape : FPICOXRStereoLayer :=
  { exLayer with LayerDesc := { exDesc with Shape := LayerShape.Other } }

/-! ## Swapchain index on the RHI thread -/

/-- Modelled from the spec: `IncrementSwapChainIndex_RHIThread` of the
swapchain class, whose body is not part of the sources.  The spec describes
the swapchain as a ring of images whose index is bumped; the index advances
by one modulo the ring size, the number of images. -/
def FXRSwapChain.IncrementSwapChainIndex_RHIThread (sc : FXRSwapChain) : FXRSwapChain :=
  { sc with SwapChainIndex := (sc.SwapChainIndex + 1) % sc.Textures.length }

/-- The getter `GetSwapChainIndex_RHIThread` of the swapchain class. -/
def FXRSwapChain.GetSwapChainIndex_RHIThread (sc : FXRSwapChain) : Int :=
  (sc.SwapChainIndex : Int)

/-- The loop `while (index != SwapChain->GetSwapChainIndex_RHIThread())
SwapChain->IncrementSwapChainIndex_RHIThread();` run for at most `fuel`
increments: the swapchain it ends on and the number of increments made, or
`none` when the loop is still running after `fuel` increments. -/
def spinSwapChain (index : Int) : Nat → FXRSwapChain → Option (FXRSwapChain × Nat)
  | 0, sc => if index ≠ sc.GetSwapChainIndex_RHIThread then none else some (sc, 0)
  | fuel + 1, sc =>
    if index ≠ sc.GetSwapChainIndex_RHIThread then
      (spinSwapChain index fuel sc.IncrementSwapChainIndex_RHIThread).map
        (fun r => (r.1, r.2 + 1))
    else some (sc, 0)

/-- What `IncrementSwapChainIndex_RHIThread` of the layer leaves behind: the
layer and the increments made on the main and on the left-eye swapchain. -/
structure IncrementResult where
  layer : FPICOXRStereoLayer
  MainIncrements : Nat
  LeftIncrements : Nat
  deriving DecidableEq

/-- The method `FPICOXRStereoLayer::IncrementSwapChainIndex_RHIThread`, each
of its two loops run for at most `fuel` increments; `index` is the value
`Pxr_GetLayerNextImageIndex` leaves in the local of that name.  The result is
`none` when a loop is still running after `fuel` increments. -/
def IncrementSwapChainIndex_RHIThread (c : Consts) (fuel : Nat) (index : Int)
    (self : FPICOXRStereoLayer) : Option IncrementResult :=
  if hasFlag self.LayerDesc.Flags c.LAYER_FLAG_HIDDEN then some ⟨self, 0, 0⟩
  else
    match self.SwapChain with
    | none => some ⟨self, 0, 0⟩
    | some SwapChain =>
      match spinSwapChain index fuel SwapChain with
      | none => none
      | some (SwapChain1, k) =>
        match self.LeftSwapChain with
        | none => some ⟨{ self with SwapChain := some SwapChain1 }, k, 0⟩
        | some LeftSwapChain =>
          match spinSwapChain index fuel LeftSwapChain with
          | none => none
          | some (LeftSwapChain1, kl) =>
            some ⟨{ self with SwapChain := some SwapChain1, LeftSwapChain := some LeftSwapChain1 },
              k, kl⟩

/-- The layer of frame 1 of the example: visible, with a main swapchain of
three images at index 0 and no left-eye swapchain. -/
def exRingLayer : FPICOXRStereoLayer :=
  exFrame1.layer

/-! ## Runs of layer initialisations -/

/-- One call of `InitPXRLayer_RenderThread`: the host and SDK it meets, the
layer it runs on and the previous snapshot it is given. -/
structure InitCall where
  h : Host
  sdk : PxrSDK
  self : FPICOXRStereoLayer
  InLayer : Option FPICOXRStereoLayer

/-- Whether a call that started in state `st` and ended as `r` created a
native layer: it returned true after a `Pxr_CreateLayer` call. -/
def didCreate (st : RenderState) (r : InitResult) : Bool :=
  r.ret && (r.state.CreateLayerCalls.length != st.CreateLayerCalls.length)

/-- The native layer ids bound by the successful creations of a run of
calls on the render thread, in the order of the calls. -/
def createdLayerIds (c : Consts) : RenderState → List InitCall → List Nat
  | _, [] => []
  | st, call :: rest =>
    if didCreate st (InitPXRLayer_RenderThread c call.h call.sdk st call.self call.InLayer) then
      (InitPXRLayer_RenderThread c call.h call.sdk st call.self call.InLayer).layer.PxrLayerID ::
        createdLayerIds c
          (InitPXRLayer_RenderThread c call.h call.sdk st call.self call.InLayer).state rest
    else
      createdLayerIds c
        (InitPXRLayer_RenderThread c call.h call.sdk st call.self call.InLayer).state rest

/-- An initialised SDK on which every creation fails. -/
def exFailingSDK : PxrSDK :=
  { exSDK with Pxr_CreateLayer := fun _ => -1 }

/-- The values a `uint32` counter takes over `n` increments, starting from
`Counter`: the value before each increment. -/
def countedIds (Counter : Nat) : Nat → List Nat
  | 0 => []
  | n + 1 => Counter :: countedIds ((Counter + 1) % 2 ^ 32) n

/-- The render-thread state in which the counter holds the largest `uint32`. -/
def exStateLastId : RenderState :=
  ⟨4294967295, []⟩

/-- The layer `exLayer2` (continuous updates asked for) whose create-params
already carry the static-image flag. -/
def exLayer2Static : FPICOXRStereoLayer :=
  { exLayer2 with PxrLayerCreateParam := { PxrLayerParam.zero with layerFlags := 4 } }

/-! ## Registration in the task manager -/

/-- Engine `TMap::FindOrAdd` on the notification map: an absent key is added
with a default-constructed (empty) multicast delegate. -/
def FindOrAdd (Map : List (Nat × List Nat)) (Key : Nat) : List (Nat × List Nat) :=
  match Map.lookup Key with
  | some _ => Map
  | none => Map ++ [(Key, [])]

/-- The method `FOnlineAsyncTaskManagerPico::CollectedRequestTask`:
`RequestTaskMap.Add(Request, InTask)`, which replaces an entry of the same key. -/
def CollectedRequestTask (self : FOnlineAsyncTaskManagerPico) (Request : Nat)
    (InTask : FOnlineAsyncTaskPico) : FOnlineAsyncTaskManagerPico :=
  { self with
    RequestTaskMap := (Request, InTask) :: self.RequestTaskMap.filter (fun e => e.1 != Request) }

/-- The method `FOnlineAsyncTaskManagerPico::GetOrAddNotifyDelegate`, as far
as the manager is concerned: `NotificationMap.FindOrAdd(MessageType)`. -/
def GetOrAddNotifyDelegate (self : FOnlineAsyncTaskManagerPico) (MessageType : Nat) :
    FOnlineAsyncTaskManagerPico :=
  { self with NotificationMap := FindOrAdd self.NotificationMap MessageType }

/-- The method `FOnlineAsyncTaskManagerPico::RemoveNotifyDelegate`:
`NotificationMap.FindOrAdd(MessageType).Remove(Delegate)`. -/
def RemoveNotifyDelegate (self : FOnlineAsyncTaskManagerPico) (MessageType : Nat)
    (Delegate : Nat) : FOnlineAsyncTaskManagerPico :=
  { self with
    NotificationMap :=
      (FindOrAdd self.NotificationMap MessageType).map
        (fun e => (e.1, if e.1 = MessageType then e.2.filter (fun d => d != Delegate) else e.2)) }

/-- The task `exTask` after a `Tick` at elapsed time 10, the exempt request
id being 0: timed out, its delegate still bound. -/
def exTaskTimedOut : FOnlineAsyncTaskPico :=
  exTask.Tick 0 10

/-- The task `exTask` after it received message 500 without error flag. -/
def exTaskDone : FOnlineAsyncTaskPico :=
  (exTask.TaskReceiveMessage (some 500) false).1

/-- A message of type 200, for which `exManager` has no notification entry. -/
def exMsgType200 : ppfMessage :=
  ⟨504, 200, 97, false⟩

/-! ## Deferred deletion of native layers -/

/-- Modelled from the spec: the deferred deletion queue
`FDelayDeleteLayerManager`, whose class is in a header that is not part of
the sources.  The spec has it hold the native layer ids enqueued for
destruction until it is drained. -/
structure FDelayDeleteLayerManager where
  Queue : List Nat
  deriving DecidableEq

/-- Modelled from the spec: `AddPxrLayerToDeferredDeletionQueue`, not part of
the sources; the spec's `enqueue(nativeLayerId)` puts the id on the queue. -/
def FDelayDeleteLayerManager.AddPxrLayerToDeferredDeletionQueue
    (self : FDelayDeleteLayerManager) (PxrLayerId : Nat) : FDelayDeleteLayerManager :=
  ⟨self.Queue ++ [PxrLayerId]⟩

/-- Modelled from the spec: the drain of the queue, not part of the sources.
The spec: "drained once per frame at a well-defined point after the current
frame's submissions are known to be flushed, calling the native destroy-layer
entry point for each queued id exactly once".  The result is the emptied
queue and the ids handed to the native destroy entry point. -/
def FDelayDeleteLayerManager.drainAtFrameEnd (self : FDelayDeleteLayerManager) :
    FDelayDeleteLayerManager × List Nat :=
  (⟨[]⟩, self.Queue)

/-- A call of `AddPxrLayerToDeferredDeletionQueue` made by the destructor of
a wrapper: the id, and whether the call was wrapped in `ExecuteOnRenderThread`. -/
structure EnqueueCall where
  PxrLayerId : Nat
  bViaExecuteOnRenderThread : Bool
  deriving DecidableEq

/-- The destructor `FPxrLayer::~FPxrLayer`: the enqueue calls it makes, given
what `IsInGameThread()` answers. -/
def FPxrLayer.destructor (IsInGameThread : Bool) (self : FPxrLayer) : List EnqueueCall :=
  if IsInGameThread then [⟨self.PxrLayerId, true⟩]
  else [⟨self.PxrLayerId, false⟩]

/-- What happens on the render thread over time, as far as the queue is
concerned: a wrapper is destroyed, or the frame reaches its drain point. -/
inductive RenderOp where
  | DestroyWrapper (IsInGameThread : Bool) (Layer : FPxrLayer)
  | FrameEnd
  deriving DecidableEq

/-- A run of render-thread events from a given queue: the queue it ends with
and the ids handed to the native destroy entry point, in order. -/
def runDeletion : FDelayDeleteLayerManager → List RenderOp → FDelayDeleteLayerManager × List Nat
  | q, [] => (q, [])
  | q, RenderOp.DestroyWrapper b w :: rest =>
    runDeletion
      ((w.destructor b).foldl (fun m e => m.AddPxrLayerToDeferredDeletionQueue e.PxrLayerId) q)
      rest
  | q, RenderOp.FrameEnd :: rest =>
    ((runDeletion q.drainAtFrameEnd.1 rest).1,
      q.drainAtFrameEnd.2 ++ (runDeletion q.drainAtFrameEnd.1 rest).2)

/-- How many wrappers of native layer id `PxrLayerId` a run destroys. -/
def destroyedWrappers (PxrLayerId : Nat) : List RenderOp → Nat
  | [] => 0
  | RenderOp.DestroyWrapper _ w :: rest =>
    (if w.PxrLayerId = PxrLayerId then 1 else 0) + destroyedWrappers PxrLayerId rest
  | RenderOp.FrameEnd :: rest => destroyedWrappers PxrLayerId rest

/-! ## Reading an underlay mesh -/

/-- The triangles of an index array: its consecutive triples. -/
def trianglesOf : List Int → List (Int × Int × Int)
  | a :: b :: c :: rest => (a, b, c) :: trianglesOf rest
  | _ => []

/-- The vertex an index of the index array refers to. -/
def vertexAt (Vertices : List FVector) (i : Int) : FVector :=
  Vertices.getD i.toNat FVector.ZeroVector

/-- For a triangle `(a, b, c)` of a mesh: the dot product of its normal
`(b - a) x (c - a)` with its centroid. -/
def outwardness (Vertices : List FVector) (t : Int × Int × Int) : ℚ :=
  FVector.dot
    (FVector.cross ((vertexAt Vertices t.2.1).sub (vertexAt Vertices t.1))
      ((vertexAt Vertices t.2.2).sub (vertexAt Vertices t.1)))
    (((vertexAt Vertices t.1).add
      ((vertexAt Vertices t.2.1).add (vertexAt Vertices t.2.2))).scale (1 / 3))

/-- The example layer with a cubemap shape. -/
def exLayerCubemap : FPICOXRStereoLayer :=
  { exLayer with LayerDesc := { exDesc with Shape := LayerShape.Cubemap } }

/-- A map from positions to texture coordinates that is affine in the
position: `v ↦ (a . v + a0, b . v + b0)`. -/
def affineUV (a b : FVector) (a0 b0 : ℚ) (v : FVector) : FVector2D :=
  ⟨a.dot v + a0, b.dot v + b0⟩

/-- C1. `IfCanReuseLayers` answers true exactly when the previous snapshot
exists, holds a valid native-layer wrapper and agrees with this layer on
width, height, layerShape, layerLayout, mipmapCount, sampleCount, format and
layerType; a difference in any one of the eight makes it answer false. -/
theorem IfCanReuseLayers_iff (self : FPICOXRStereoLayer) (InLayer : Option FPICOXRStereoLayer) :
    (IfCanReuseLayers self InLayer = true ↔
      ∃ In, InLayer = some In ∧ In.PxrLayer.isSome = true ∧
        self.PxrLayerCreateParam.width = In.PxrLayerCreateParam.width ∧
        self.PxrLayerCreateParam.height = In.PxrLayerCreateParam.height ∧
        self.PxrLayerCreateParam.layerShape = In.PxrLayerCreateParam.layerShape ∧
        self.PxrLayerCreateParam.layerLayout = In.PxrLayerCreateParam.layerLayout ∧
        self.PxrLayerCreateParam.mipmapCount = In.PxrLayerCreateParam.mipmapCount ∧
        self.PxrLayerCreateParam.sampleCount = In.PxrLayerCreateParam.sampleCount ∧
        self.PxrLayerCreateParam.format = In.PxrLayerCreateParam.format ∧
        self.PxrLayerCreateParam.layerType = In.PxrLayerCreateParam.layerType) ∧
    (∀ In, InLayer = some In →
        (self.PxrLayerCreateParam.width ≠ In.PxrLayerCreateParam.width ∨
         self.PxrLayerCreateParam.height ≠ In.PxrLayerCreateParam.height ∨
         self.PxrLayerCreateParam.layerShape ≠ In.PxrLayerCreateParam.layerShape ∨
         self.PxrLayerCreateParam.layerLayout ≠ In.PxrLayerCreateParam.layerLayout ∨
         self.PxrLayerCreateParam.mipmapCount ≠ In.PxrLayerCreateParam.mipmapCount ∨
         self.PxrLayerCreateParam.sampleCount ≠ In.PxrLayerCreateParam.sampleCount ∨
         self.PxrLayerCreateParam.format ≠ In.PxrLayerCreateParam.format ∨
         self.PxrLayerCreateParam.layerType ≠ In.PxrLayerCreateParam.layerType) →
        IfCanReuseLayers self InLayer = false) := by
  cases InLayer with
  | none => simp [IfCanReuseLayers]
  | some In =>
    cases hp : In.PxrLayer
    · simp [IfCanReuseLayers, hp]
    · simp [IfCanReuseLayers, hp]
      tauto


/-! ## Shared lemmas -/

lemma reuse_fields {self In : FPICOXRStereoLayer}
    (hr : IfCanReuseLayers self (some In) = true) :
    In.PxrLayer.isSome = true ∧
    self.PxrLayerCreateParam.width = In.PxrLayerCreateParam.width ∧
    self.PxrLayerCreateParam.height = In.PxrLayerCreateParam.height ∧
    self.PxrLayerCreateParam.layerShape = In.PxrLayerCreateParam.layerShape ∧
    self.PxrLayerCreateParam.layerLayout = In.PxrLayerCreateParam.layerLayout ∧
    self.PxrLayerCreateParam.mipmapCount = In.PxrLayerCreateParam.mipmapCount ∧
    self.PxrLayerCreateParam.sampleCount = In.PxrLayerCreateParam.sampleCount ∧
    self.PxrLayerCreateParam.format = In.PxrLayerCreateParam.format ∧
    self.PxrLayerCreateParam.layerType = In.PxrLayerCreateParam.layerType := by
  cases hp : In.PxrLayer
  · simp [IfCanReuseLayers, hp] at hr
  · simp [IfCanReuseLayers, hp] at hr
    simp
    tauto

lemma completeCreateParam_faceCount (c : Consts) (h : Host) (self : FPICOXRStereoLayer)
    (p : PxrLayerParam) :
    (completeCreateParam c h self p).faceCount = (if p.layerShape = c.PXR_LAYER_CUBE then 6 else 1)
    ∧ (completeCreateParam c h self p).arraySize = 1
    ∧ (completeCreateParam c h self p).layerShape = p.layerShape
    ∧ (completeCreateParam c h self p).layerType = p.layerType
    ∧ (completeCreateParam c h self p).width = p.width
    ∧ (completeCreateParam c h self p).height = p.height
    ∧ (completeCreateParam c h self p).sampleCount = p.sampleCount
    ∧ (completeCreateParam c h self p).mipmapCount = p.mipmapCount := by
  unfold completeCreateParam
  split_ifs <;> simp

/-! ## Reuse requires matching create-params -/

/-- C2, counterexample.  Frame 2 of the example reuses the snapshot of frame 1
(`IfCanReuseLayers` is true and the call returns true) although the two
create-params differ in `layerFlags`: 0 against `PXR_LAYER_FLAG_STATIC_IMAGE`. -/
theorem reuse_with_different_layerFlags :
    IfCanReuseLayers exFrame2.layer (some exFrame1.layer) = true ∧
    exFrame2.ret = true ∧
    exFrame2.layer.PxrLayerCreateParam.layerFlags = 0 ∧
    exFrame1.layer.PxrLayerCreateParam.layerFlags = 4 ∧
    exFrame2.layer.PxrLayerCreateParam ≠ exFrame1.layer.PxrLayerCreateParam := by
  decide

/-- C2, amended.  Whenever `IfCanReuseLayers` is true the two create-params
agree on the eight fields the predicate reads; when both were computed by the
non-projection path of `InitPXRLayer_RenderThread` (the previous one then
stamped with its native id) they also agree on face count and array size.
Nothing is implied about `layerFlags`. -/
theorem reuse_implies_compared_fields (c : Consts) (hA hB : Host)
    (A B A0 B0 : FPICOXRStereoLayer)
    (hr : IfCanReuseLayers A (some B) = true) :
    (A.PxrLayerCreateParam.width = B.PxrLayerCreateParam.width ∧
     A.PxrLayerCreateParam.height = B.PxrLayerCreateParam.height ∧
     A.PxrLayerCreateParam.sampleCount = B.PxrLayerCreateParam.sampleCount ∧
     A.PxrLayerCreateParam.mipmapCount = B.PxrLayerCreateParam.mipmapCount ∧
     A.PxrLayerCreateParam.format = B.PxrLayerCreateParam.format ∧
     A.PxrLayerCreateParam.layerShape = B.PxrLayerCreateParam.layerShape ∧
     A.PxrLayerCreateParam.layerLayout = B.PxrLayerCreateParam.layerLayout ∧
     A.PxrLayerCreateParam.layerType = B.PxrLayerCreateParam.layerType) ∧
    (A.PxrLayerCreateParam = completeCreateParam c hA A0 (resolveCreateParam c hA A0) →
     (∃ id, B.PxrLayerCreateParam =
        { completeCreateParam c hB B0 (resolveCreateParam c hB B0) with layerId := id }) →
     A.PxrLayerCreateParam.faceCount = B.PxrLayerCreateParam.faceCount ∧
     A.PxrLayerCreateParam.arraySize = B.PxrLayerCreateParam.arraySize) := by
  obtain ⟨-, h1, h2, h3, h4, h5, h6, h7, h8⟩ := reuse_fields hr
  refine ⟨⟨h1, h2, h6, h5, h7, h3, h4, h8⟩, ?_⟩
  rintro hAeq ⟨id, hBeq⟩
  have fa := completeCreateParam_faceCount c hA A0 (resolveCreateParam c hA A0)
  have fb := completeCreateParam_faceCount c hB B0 (resolveCreateParam c hB B0)
  rw [hAeq, hBeq] at h3
  simp only at h3
  rw [fa.2.2.1, fb.2.2.1] at h3
  rw [hAeq, hBeq]
  simp only [fa.1, fb.1, fa.2.1, fb.2.1, h3, and_self]

/-- C2, witness of the amended statement on the two example frames. -/
theorem reuse_implies_compared_fields_witness :
    IfCanReuseLayers exFrame2.layer (some exFrame1.layer) = true ∧
    exFrame2.layer.PxrLayerCreateParam.width = exFrame1.layer.PxrLayerCreateParam.width :=
  ⟨by decide,
   (reuse_implies_compared_fields stdConsts exHost exHost exFrame2.layer exFrame1.layer
      exLayer exLayer (by decide)).1.1⟩

/-! ## The reuse path -/

lemma finishInit_ret (c : Consts) (self : FPICOXRStereoLayer) (st : RenderState) :
    (finishInit c self st).ret = true ∧ (finishInit c self st).state = st ∧
    (finishInit c self st).layer.PxrLayerID = self.PxrLayerID ∧
    (finishInit c self st).layer.PxrLayer = self.PxrLayer ∧
    (finishInit c self st).layer.SwapChain = self.SwapChain ∧
    (finishInit c self st).layer.LeftSwapChain = self.LeftSwapChain ∧
    (finishInit c self st).layer.FoveationSwapChain = self.FoveationSwapChain ∧
    (finishInit c self st).layer.PxrLayerCreateParam = self.PxrLayerCreateParam ∧
    (self.bTextureNeedUpdate = true → (finishInit c self st).layer.bTextureNeedUpdate = true) := by
  unfold finishInit
  split_ifs <;> simp

lemma reuseOrCreate_reuse (c : Consts) (h : Host) (sdk : PxrSDK) (st : RenderState)
    (self In : FPICOXRStereoLayer) (msaa : Int) (ffr : Bool)
    (hr : IfCanReuseLayers self (some In) = true) :
    reuseOrCreate c h sdk st self (some In) msaa ffr = finishInit c (adoptLayer self In) st := by
  simp [reuseOrCreate, hr]

lemma reuseOrCreate_create (c : Consts) (h : Host) (sdk : PxrSDK) (st : RenderState)
    (self : FPICOXRStereoLayer) (InLayer : Option FPICOXRStereoLayer) (msaa : Int) (ffr : Bool)
    (hr : IfCanReuseLayers self InLayer = false) :
    reuseOrCreate c h sdk st self InLayer msaa ffr =
      if sdk.Pxr_IsInitialized then
        if sdk.Pxr_CreateLayer (stampLayerId self st.PxrLayerIDCounter).PxrLayerCreateParam = 0 then
          finishInit c (buildSwapChains c h sdk (stampLayerId self st.PxrLayerIDCounter) msaa ffr)
            (bumpCounter
              (logCreateLayer st (stampLayerId self st.PxrLayerIDCounter).PxrLayerCreateParam))
        else
          ⟨false, stampLayerId self st.PxrLayerIDCounter,
            logCreateLayer st (stampLayerId self st.PxrLayerIDCounter).PxrLayerCreateParam⟩
      else ⟨false, stampLayerId self st.PxrLayerIDCounter, st⟩ := by
  simp [reuseOrCreate, hr]

lemma init_of_layerAtReuseTest (c : Consts) (h : Host) (sdk : PxrSDK) (st : RenderState)
    (self self1 In : FPICOXRStereoLayer)
    (hs : layerAtReuseTest c h self = some self1)
    (hr : IfCanReuseLayers self1 (some In) = true) :
    InitPXRLayer_RenderThread c h sdk st self (some In) = finishInit c (adoptLayer self1 In) st := by
  unfold layerAtReuseTest at hs
  unfold InitPXRLayer_RenderThread
  dsimp only at hs ⊢
  split_ifs at hs ⊢ <;> cases hs <;> exact reuseOrCreate_reuse c h sdk st _ In _ _ hr

/-- C3.  When line 442 is reached (the zero-size check did not return) and
`IfCanReuseLayers` holds there, `InitPXRLayer_RenderThread` returns true, the
layer carries the previous snapshot's native layer id, wrapper, main,
left-eye and foveation swapchains, `bTextureNeedUpdate` is set whenever it was
set on the layer or on the previous snapshot, no `Pxr_CreateLayer` call is
issued and `PxrLayerIDCounter` is unchanged. -/
theorem InitPXRLayer_reuse_path (c : Consts) (h : Host) (sdk : PxrSDK) (st : RenderState)
    (self self1 In : FPICOXRStereoLayer)
    (hs : layerAtReuseTest c h self = some self1)
    (hr : IfCanReuseLayers self1 (some In) = true) :
    (InitPXRLayer_RenderThread c h sdk st self (some In)).ret = true ∧
    (InitPXRLayer_RenderThread c h sdk st self (some In)).layer.PxrLayerID = In.PxrLayerID ∧
    (InitPXRLayer_RenderThread c h sdk st self (some In)).layer.PxrLayer = In.PxrLayer ∧
    (InitPXRLayer_RenderThread c h sdk st self (some In)).layer.SwapChain = In.SwapChain ∧
    (InitPXRLayer_RenderThread c h sdk st self (some In)).layer.LeftSwapChain = In.LeftSwapChain ∧
    (InitPXRLayer_RenderThread c h sdk st self (some In)).layer.FoveationSwapChain
      = In.FoveationSwapChain ∧
    ((self.bTextureNeedUpdate || In.bTextureNeedUpdate) = true →
      (InitPXRLayer_RenderThread c h sdk st self (some In)).layer.bTextureNeedUpdate = true) ∧
    (InitPXRLayer_RenderThread c h sdk st self (some In)).state.CreateLayerCalls
      = st.CreateLayerCalls ∧
    (InitPXRLayer_RenderThread c h sdk st self (some In)).state.PxrLayerIDCounter
      = st.PxrLayerIDCounter := by
  have hb : self1.bTextureNeedUpdate = self.bTextureNeedUpdate := by
    unfold layerAtReuseTest at hs
    dsimp only at hs
    split_ifs at hs <;> cases hs <;> rfl
  rw [init_of_layerAtReuseTest c h sdk st self self1 In hs hr]
  obtain ⟨f1, f2, f3, f4, f5, f6, f7, -, f9⟩ := finishInit_ret c (adoptLayer self1 In) st
  refine ⟨f1, f3, f4, f5, f6, f7, ?_, by rw [f2], by rw [f2]⟩
  intro hor
  apply f9
  simpa [adoptLayer, hb] using hor

/-- C3, witness: frame 2 of the example runs the reuse path. -/
theorem InitPXRLayer_reuse_path_witness :
    exFrame2.ret = true ∧ exFrame2.layer.PxrLayerID = exFrame1.layer.PxrLayerID :=
  ⟨(InitPXRLayer_reuse_path stdConsts exHost exSDK exFrame1.state
      exLayer2 exLayer2AtTest exFrame1.layer (by decide) (by decide)).1,
   (InitPXRLayer_reuse_path stdConsts exHost exSDK exFrame1.state
      exLayer2 exLayer2AtTest exFrame1.layer (by decide) (by decide)).2.1⟩

/-! ## Zero-sized layers -/

/-- C4.  For a layer with `ID != 0` that is not the splash black projection
layer, a zero width or height resolved from the description makes
`InitPXRLayer_RenderThread` return false with no `Pxr_CreateLayer` call and
with `PxrLayerID`, the wrapper, the three swapchains, `bTextureNeedUpdate` and
`PxrLayerIDCounter` as they were. -/
theorem InitPXRLayer_zero_size (c : Consts) (h : Host) (sdk : PxrSDK) (st : RenderState)
    (self : FPICOXRStereoLayer) (InLayer : Option FPICOXRStereoLayer)
    (hID : self.ID ≠ 0) (hSplash : self.bSplashBlackProjectionLayer = false)
    (hz : (resolveCreateParam c h self).width = 0 ∨ (resolveCreateParam c h self).height = 0) :
    (InitPXRLayer_RenderThread c h sdk st self InLayer).ret = false ∧
    (InitPXRLayer_RenderThread c h sdk st self InLayer).state.CreateLayerCalls
      = st.CreateLayerCalls ∧
    (InitPXRLayer_RenderThread c h sdk st self InLayer).state.PxrLayerIDCounter
      = st.PxrLayerIDCounter ∧
    (InitPXRLayer_RenderThread c h sdk st self InLayer).layer.PxrLayerID = self.PxrLayerID ∧
    (InitPXRLayer_RenderThread c h sdk st self InLayer).layer.PxrLayer = self.PxrLayer ∧
    (InitPXRLayer_RenderThread c h sdk st self InLayer).layer.SwapChain = self.SwapChain ∧
    (InitPXRLayer_RenderThread c h sdk st self InLayer).layer.LeftSwapChain
      = self.LeftSwapChain ∧
    (InitPXRLayer_RenderThread c h sdk st self InLayer).layer.FoveationSwapChain
      = self.FoveationSwapChain ∧
    (InitPXRLayer_RenderThread c h sdk st self InLayer).layer.bTextureNeedUpdate
      = self.bTextureNeedUpdate := by
  simp [InitPXRLayer_RenderThread, hID, hSplash, hz]

/-- C4, witness: a layer whose description has no texture and `QuadSize` (0,0). -/
theorem InitPXRLayer_zero_size_witness :
    (InitPXRLayer_RenderThread stdConsts exHost exSDK exState
      { exLayer with LayerDesc := exDescZeroQuad } none).ret = false :=
  (InitPXRLayer_zero_size stdConsts exHost exSDK exState
    { exLayer with LayerDesc := exDescZeroQuad } none (by decide) rfl (by decide)).1

/-- C5, counterexample.  With an invalid texture and `LayerSize` (0,0) but
`QuadSize` (1,1) the layer is created: the call returns true after one
`Pxr_CreateLayer` call for a 1 by 1 layer. -/
theorem InitPXRLayer_ignores_LayerSize :
    exDescNoTexture.Texture = none ∧ exDescNoTexture.LayerSize = ⟨0, 0⟩ ∧
    (InitPXRLayer_RenderThread stdConsts exHost exSDK exState
      { exLayer with LayerDesc := exDescNoTexture } none).ret = true ∧
    ((InitPXRLayer_RenderThread stdConsts exHost exSDK exState
      { exLayer with LayerDesc := exDescNoTexture } none).state.CreateLayerCalls.map
        (fun p => (p.width, p.height))) = [(1, 1)] := by
  decide

/-- C5, amended.  For a layer with `ID != 0` that is not the splash black
projection layer, an invalid texture together with a `QuadSize` of which one
component converts to 0 (such as `QuadSize` (0,0)) makes
`InitPXRLayer_RenderThread` return false without any `Pxr_CreateLayer` call;
`LayerSize` is not read. -/
theorem InitPXRLayer_no_texture_zero_QuadSize (c : Consts) (h : Host) (sdk : PxrSDK)
    (st : RenderState) (self : FPICOXRStereoLayer) (InLayer : Option FPICOXRStereoLayer)
    (hID : self.ID ≠ 0) (hSplash : self.bSplashBlackProjectionLayer = false)
    (hTex : self.LayerDesc.Texture = none)
    (hq : floatToUint32 self.LayerDesc.QuadSize.X = 0 ∨
          floatToUint32 self.LayerDesc.QuadSize.Y = 0) :
    (InitPXRLayer_RenderThread c h sdk st self InLayer).ret = false ∧
    (InitPXRLayer_RenderThread c h sdk st self InLayer).state.CreateLayerCalls
      = st.CreateLayerCalls ∧
    (InitPXRLayer_RenderThread c h sdk st self InLayer).layer.PxrLayer = self.PxrLayer := by
  have hz : (resolveCreateParam c h self).width = 0 ∨ (resolveCreateParam c h self).height = 0 := by
    simpa [resolveCreateParam, hTex] using hq
  simp [InitPXRLayer_RenderThread, hID, hSplash, hz]

/-- C5, witness: `QuadSize` (0,0) with `LayerSize` (512,512) and no texture. -/
theorem InitPXRLayer_no_texture_zero_QuadSize_witness :
    exDescZeroQuad.LayerSize = ⟨512, 512⟩ ∧
    (InitPXRLayer_RenderThread stdConsts exHost exSDK exState
      { exLayer with LayerDesc := exDescZeroQuad } none).ret = false :=
  ⟨rfl, (InitPXRLayer_no_texture_zero_QuadSize stdConsts exHost exSDK exState
    { exLayer with LayerDesc := exDescZeroQuad } none (by decide) rfl rfl (by decide)).1⟩

/-! ## Reuse across a change of flags -/

lemma reuse_of_fields {self In : FPICOXRStereoLayer}
    (hp : In.PxrLayer.isSome = true)
    (h1 : self.PxrLayerCreateParam.width = In.PxrLayerCreateParam.width)
    (h2 : self.PxrLayerCreateParam.height = In.PxrLayerCreateParam.height)
    (h3 : self.PxrLayerCreateParam.layerShape = In.PxrLayerCreateParam.layerShape)
    (h4 : self.PxrLayerCreateParam.layerLayout = In.PxrLayerCreateParam.layerLayout)
    (h5 : self.PxrLayerCreateParam.mipmapCount = In.PxrLayerCreateParam.mipmapCount)
    (h6 : self.PxrLayerCreateParam.sampleCount = In.PxrLayerCreateParam.sampleCount)
    (h7 : self.PxrLayerCreateParam.format = In.PxrLayerCreateParam.format)
    (h8 : self.PxrLayerCreateParam.layerType = In.PxrLayerCreateParam.layerType) :
    IfCanReuseLayers self (some In) = true := by
  simp [IfCanReuseLayers, hp, h1, h2, h3, h4, h5, h6, h7, h8]

lemma reuseOrCreate_ok (c : Consts) (h : Host) (sdk : PxrSDK) (st : RenderState)
    (self : FPICOXRStereoLayer) (InLayer : Option FPICOXRStereoLayer) (msaa : Int) (ffr : Bool)
    (hok : (reuseOrCreate c h sdk st self InLayer msaa ffr).ret = true) :
    (reuseOrCreate c h sdk st self InLayer msaa ffr).layer.PxrLayer.isSome = true ∧
    ∃ id, (reuseOrCreate c h sdk st self InLayer msaa ffr).layer.PxrLayerCreateParam
      = { self.PxrLayerCreateParam with layerId := id } := by
  by_cases hr : IfCanReuseLayers self InLayer = true
  · cases InLayer with
    | none => simp [IfCanReuseLayers] at hr
    | some In =>
      have hp := (reuse_fields hr).1
      rw [reuseOrCreate_reuse c h sdk st self In msaa ffr hr]
      obtain ⟨-, -, -, f4, -, -, -, f8, -⟩ := finishInit_ret c (adoptLayer self In) st
      rw [f4, f8]
      exact ⟨by simpa [adoptLayer] using hp, self.PxrLayerCreateParam.layerId, by simp [adoptLayer]⟩
  · simp only [Bool.not_eq_true] at hr
    rw [reuseOrCreate_create c h sdk st self InLayer msaa ffr hr] at hok ⊢
    split_ifs at hok ⊢ with hi hc
    · obtain ⟨-, -, -, f4, -, -, -, f8, -⟩ :=
        finishInit_ret c (buildSwapChains c h sdk (stampLayerId self st.PxrLayerIDCounter) msaa ffr)
          (bumpCounter (logCreateLayer st (stampLayerId self st.PxrLayerIDCounter).PxrLayerCreateParam))
      rw [f4, f8]
      exact ⟨by simp [buildSwapChains], st.PxrLayerIDCounter, by simp [buildSwapChains, stampLayerId]⟩

lemma completeCreateParam_layout_format (c : Consts) (h : Host) (self : FPICOXRStereoLayer)
    (p : PxrLayerParam) :
    (completeCreateParam c h self p).layerLayout =
      (if self.LayerDesc.LeftTexture.isSome then c.PXR_LAYER_LAYOUT_STEREO
       else c.PXR_LAYER_LAYOUT_MONO) ∧
    (completeCreateParam c h self p).format =
      (if h.RHIString == "OpenGL" then
        (if h.IsMobileColorsRGB then c.GL_SRGB8_ALPHA8 else c.GL_RGBA8)
       else if h.RHIString == "Vulkan" then
        (if h.IsMobileColorsRGB then c.VK_FORMAT_R8G8B8A8_SRGB else c.VK_FORMAT_R8G8B8A8_UNORM)
       else p.format) := by
  unfold completeCreateParam
  split_ifs <;> simp

lemma resolveCreateParam_kept (c : Consts) (h : Host) (self : FPICOXRStereoLayer) :
    (resolveCreateParam c h self).format = self.PxrLayerCreateParam.format ∧
    (resolveCreateParam c h self).layerShape = GetShapeType self ∧
    (resolveCreateParam c h self).layerType =
      (if IsLayerSupportDepth h self then c.PXR_UNDERLAY else c.PXR_OVERLAY) := by
  unfold resolveCreateParam
  cases hY : self.LayerDesc.Texture with
  | none => simp
  | some T =>
    dsimp only
    cases h2 : T.GetTexture2D with
    | some t2 => simp
    | none => cases h3 : T.GetTextureCube <;> simp

lemma resolveCreateParam_size (c : Consts) (h : Host) (X Y : FPICOXRStereoLayer)
    (hT : X.LayerDesc.Texture = Y.LayerDesc.Texture)
    (hQ : X.LayerDesc.QuadSize = Y.LayerDesc.QuadSize)
    (hw : X.PxrLayerCreateParam.width = Y.PxrLayerCreateParam.width ∨
      X.PxrLayerCreateParam.width = (resolveCreateParam c h Y).width)
    (hh : X.PxrLayerCreateParam.height = Y.PxrLayerCreateParam.height ∨
      X.PxrLayerCreateParam.height = (resolveCreateParam c h Y).height)
    (hs : X.PxrLayerCreateParam.sampleCount = Y.PxrLayerCreateParam.sampleCount ∨
      X.PxrLayerCreateParam.sampleCount = (resolveCreateParam c h Y).sampleCount)
    (hm : X.PxrLayerCreateParam.mipmapCount = Y.PxrLayerCreateParam.mipmapCount ∨
      X.PxrLayerCreateParam.mipmapCount = (resolveCreateParam c h Y).mipmapCount) :
    (resolveCreateParam c h X).width = (resolveCreateParam c h Y).width ∧
    (resolveCreateParam c h X).height = (resolveCreateParam c h Y).height ∧
    (resolveCreateParam c h X).sampleCount = (resolveCreateParam c h Y).sampleCount ∧
    (resolveCreateParam c h X).mipmapCount = (resolveCreateParam c h Y).mipmapCount := by
  unfold resolveCreateParam at hw hh hs hm ⊢
  rw [hT, hQ]
  cases hY : Y.LayerDesc.Texture with
  | none => simp
  | some T =>
    simp only [hY] at hw hh hs hm ⊢
    cases h2 : T.GetTexture2D with
    | some t2 => simp
    | none =>
      simp only [h2] at hw hh hs hm ⊢
      cases h3 : T.GetTextureCube with
      | some tc => simp
      | none =>
        simp only [h3, or_self] at hw hh hs hm ⊢
        exact ⟨hw, hh, hs, hm⟩

lemma createParam_flags_irrelevant (c : Consts) (h : Host) (L L2 : FPICOXRStereoLayer) (f : Nat)
    (hDesc : L2.LayerDesc = { L.LayerDesc with Flags := f })
    (hP : L2.PxrLayerCreateParam = L.PxrLayerCreateParam ∨
      ∃ id, L2.PxrLayerCreateParam =
        { completeCreateParam c h L (resolveCreateParam c h L) with layerId := id }) :
    ((resolveCreateParam c h L2).width = (resolveCreateParam c h L).width ∧
     (resolveCreateParam c h L2).height = (resolveCreateParam c h L).height) ∧
    (completeCreateParam c h L2 (resolveCreateParam c h L2)).width
      = (completeCreateParam c h L (resolveCreateParam c h L)).width ∧
    (completeCreateParam c h L2 (resolveCreateParam c h L2)).height
      = (completeCreateParam c h L (resolveCreateParam c h L)).height ∧
    (completeCreateParam c h L2 (resolveCreateParam c h L2)).layerShape
      = (completeCreateParam c h L (resolveCreateParam c h L)).layerShape ∧
    (completeCreateParam c h L2 (resolveCreateParam c h L2)).layerLayout
      = (completeCreateParam c h L (resolveCreateParam c h L)).layerLayout ∧
    (completeCreateParam c h L2 (resolveCreateParam c h L2)).mipmapCount
      = (completeCreateParam c h L (resolveCreateParam c h L)).mipmapCount ∧
    (completeCreateParam c h L2 (resolveCreateParam c h L2)).sampleCount
      = (completeCreateParam c h L (resolveCreateParam c h L)).sampleCount ∧
    (completeCreateParam c h L2 (resolveCreateParam c h L2)).format
      = (completeCreateParam c h L (resolveCreateParam c h L)).format ∧
    (completeCreateParam c h L2 (resolveCreateParam c h L2)).layerType
      = (completeCreateParam c h L (resolveCreateParam c h L)).layerType := by
  have hS : L2.LayerDesc.Shape = L.LayerDesc.Shape := by rw [hDesc]
  have hT : L2.LayerDesc.Texture = L.LayerDesc.Texture := by rw [hDesc]
  have hLT : L2.LayerDesc.LeftTexture = L.LayerDesc.LeftTexture := by rw [hDesc]
  have hQ : L2.LayerDesc.QuadSize = L.LayerDesc.QuadSize := by rw [hDesc]
  have cL := completeCreateParam_faceCount c h L (resolveCreateParam c h L)
  have cL2 := completeCreateParam_faceCount c h L2 (resolveCreateParam c h L2)
  have lL := completeCreateParam_layout_format c h L (resolveCreateParam c h L)
  have lL2 := completeCreateParam_layout_format c h L2 (resolveCreateParam c h L2)
  have kL := resolveCreateParam_kept c h L
  have kL2 := resolveCreateParam_kept c h L2
  have hsize : (resolveCreateParam c h L2).width = (resolveCreateParam c h L).width ∧
      (resolveCreateParam c h L2).height = (resolveCreateParam c h L).height ∧
      (resolveCreateParam c h L2).sampleCount = (resolveCreateParam c h L).sampleCount ∧
      (resolveCreateParam c h L2).mipmapCount = (resolveCreateParam c h L).mipmapCount := by
    apply resolveCreateParam_size c h L2 L hT hQ
    · rcases hP with hP | ⟨id, hP⟩
      · exact Or.inl (by rw [hP])
      · exact Or.inr (by rw [hP]; exact cL.2.2.2.2.1)
    · rcases hP with hP | ⟨id, hP⟩
      · exact Or.inl (by rw [hP])
      · exact Or.inr (by rw [hP]; exact cL.2.2.2.2.2.1)
    · rcases hP with hP | ⟨id, hP⟩
      · exact Or.inl (by rw [hP])
      · exact Or.inr (by rw [hP]; exact cL.2.2.2.2.2.2.1)
    · rcases hP with hP | ⟨id, hP⟩
      · exact Or.inl (by rw [hP])
      · exact Or.inr (by rw [hP]; exact cL.2.2.2.2.2.2.2)
  have hshape : GetShapeType L2 = GetShapeType L := by
    unfold GetShapeType
    rw [hS]
  have hdepth : IsLayerSupportDepth h L2 = IsLayerSupportDepth h L := by
    unfold IsLayerSupportDepth
    rw [hS]
  have hfmt : (completeCreateParam c h L2 (resolveCreateParam c h L2)).format
      = (completeCreateParam c h L (resolveCreateParam c h L)).format := by
    rw [lL2.2, lL.2, kL2.1, kL.1]
    rcases hP with hP | ⟨id, hP⟩
    · rw [hP]
    · rw [hP]
      simp only
      rw [lL.2, kL.1]
      split_ifs <;> rfl
  refine ⟨⟨hsize.1, hsize.2.1⟩, ?_, ?_, ?_, ?_, ?_, ?_, hfmt, ?_⟩
  · rw [cL2.2.2.2.2.1, cL.2.2.2.2.1, hsize.1]
  · rw [cL2.2.2.2.2.2.1, cL.2.2.2.2.2.1, hsize.2.1]
  · rw [cL2.2.2.1, cL.2.2.1, kL2.2.1, kL.2.1, hshape]
  · rw [lL2.1, lL.1, hLT]
  · rw [cL2.2.2.2.2.2.2.2, cL.2.2.2.2.2.2.2, hsize.2.2.2]
  · rw [cL2.2.2.2.2.2.2.1, cL.2.2.2.2.2.2.1, hsize.2.2.1]
  · rw [cL2.2.2.2.1, cL.2.2.2.1, kL2.2.2, kL.2.2, hdepth]

/-- C6.  A non-projection layer `L` is initialised with success on frame 1.
On frame 2 the layer `L2` of the same id carries the same description except
for `Flags`, its create-params being those the layer had before or after
frame 1.  Then `InitPXRLayer_RenderThread` on frame 2 against the snapshot of
frame 1 returns true, the layer shares the snapshot's swapchains, wrapper and
native layer id, and no `Pxr_CreateLayer` call is added. -/
theorem InitPXRLayer_reuse_when_only_flags_change (c : Consts) (h : Host) (sdk1 sdk2 : PxrSDK)
    (st : RenderState) (L L2 : FPICOXRStereoLayer) (prev : Option FPICOXRStereoLayer) (f : Nat)
    (hID : L.ID ≠ 0) (hSplash : L.bSplashBlackProjectionLayer = false)
    (hok : (InitPXRLayer_RenderThread c h sdk1 st L prev).ret = true)
    (hID2 : L2.ID = L.ID)
    (hSplash2 : L2.bSplashBlackProjectionLayer = L.bSplashBlackProjectionLayer)
    (hDesc : L2.LayerDesc = { L.LayerDesc with Flags := f })
    (hParam : L2.PxrLayerCreateParam = L.PxrLayerCreateParam ∨
      L2.PxrLayerCreateParam
        = (InitPXRLayer_RenderThread c h sdk1 st L prev).layer.PxrLayerCreateParam) :
    (InitPXRLayer_RenderThread c h sdk2 (InitPXRLayer_RenderThread c h sdk1 st L prev).state L2
        (some (InitPXRLayer_RenderThread c h sdk1 st L prev).layer)).ret = true ∧
    (InitPXRLayer_RenderThread c h sdk2 (InitPXRLayer_RenderThread c h sdk1 st L prev).state L2
        (some (InitPXRLayer_RenderThread c h sdk1 st L prev).layer)).layer.SwapChain
      = (InitPXRLayer_RenderThread c h sdk1 st L prev).layer.SwapChain ∧
    (InitPXRLayer_RenderThread c h sdk2 (InitPXRLayer_RenderThread c h sdk1 st L prev).state L2
        (some (InitPXRLayer_RenderThread c h sdk1 st L prev).layer)).layer.LeftSwapChain
      = (InitPXRLayer_RenderThread c h sdk1 st L prev).layer.LeftSwapChain ∧
    (InitPXRLayer_RenderThread c h sdk2 (InitPXRLayer_RenderThread c h sdk1 st L prev).state L2
        (some (InitPXRLayer_RenderThread c h sdk1 st L prev).layer)).layer.PxrLayer
      = (InitPXRLayer_RenderThread c h sdk1 st L prev).layer.PxrLayer ∧
    (InitPXRLayer_RenderThread c h sdk2 (InitPXRLayer_RenderThread c h sdk1 st L prev).state L2
        (some (InitPXRLayer_RenderThread c h sdk1 st L prev).layer)).layer.PxrLayerID
      = (InitPXRLayer_RenderThread c h sdk1 st L prev).layer.PxrLayerID ∧
    (InitPXRLayer_RenderThread c h sdk2 (InitPXRLayer_RenderThread c h sdk1 st L prev).state L2
        (some (InitPXRLayer_RenderThread c h sdk1 st L prev).layer)).state.CreateLayerCalls
      = (InitPXRLayer_RenderThread c h sdk1 st L prev).state.CreateLayerCalls := by
  -- frame 1 went past the zero-size check and through `reuseOrCreate`
  have hnz : ¬((resolveCreateParam c h L).width = 0 ∨ (resolveCreateParam c h L).height = 0) := by
    intro hz
    simp [InitPXRLayer_RenderThread, hID, hSplash, hz] at hok
  have h1 : InitPXRLayer_RenderThread c h sdk1 st L prev =
      reuseOrCreate c h sdk1 st
        { L with PxrLayerCreateParam := completeCreateParam c h L (resolveCreateParam c h L) }
        prev 1 false := by
    simp [InitPXRLayer_RenderThread, hID, hSplash, hnz]
  rw [h1] at hok hParam ⊢
  obtain ⟨hwrap, id, hpar⟩ := reuseOrCreate_ok c h sdk1 st _ prev 1 false hok
  generalize reuseOrCreate c h sdk1 st
    { L with PxrLayerCreateParam := completeCreateParam c h L (resolveCreateParam c h L) }
    prev 1 false = r1 at hok hParam hwrap hpar ⊢
  simp only at hpar
  -- the create-params of frame 2 match those of the snapshot
  have hP : L2.PxrLayerCreateParam = L.PxrLayerCreateParam ∨
      ∃ id, L2.PxrLayerCreateParam =
        { completeCreateParam c h L (resolveCreateParam c h L) with layerId := id } := by
    rcases hParam with hp | hp
    · exact Or.inl hp
    · exact Or.inr ⟨id, by rw [hp, hpar]⟩
  obtain ⟨⟨hw, hh⟩, e1, e2, e3, e4, e5, e6, e7, e8⟩ := createParam_flags_irrelevant c h L L2 f hDesc hP
  have hnz2 : ¬((resolveCreateParam c h L2).width = 0 ∨ (resolveCreateParam c h L2).height = 0) := by
    rw [hw, hh]
    exact hnz
  have hs : layerAtReuseTest c h L2 = some
      { L2 with PxrLayerCreateParam := completeCreateParam c h L2 (resolveCreateParam c h L2) } := by
    simp [layerAtReuseTest, hID2, hID, hSplash2, hSplash, hnz2]
  have hr : IfCanReuseLayers
      { L2 with PxrLayerCreateParam := completeCreateParam c h L2 (resolveCreateParam c h L2) }
      (some r1.layer) = true := by
    apply reuse_of_fields hwrap <;> simp only [hpar] <;> assumption
  rw [init_of_layerAtReuseTest c h sdk2 r1.state L2 _ r1.layer hs hr]
  obtain ⟨f1, f2, f3, f4, f5, f6, -, -, -⟩ := finishInit_ret c
    (adoptLayer
      { L2 with PxrLayerCreateParam := completeCreateParam c h L2 (resolveCreateParam c h L2) }
      r1.layer) r1.state
  exact ⟨f1, f5, f6, f4, f3, by rw [f2]⟩

/-- C6, witness: the two example frames, frame 2 having the continuous-update
flag toggled; the layer of frame 2 is a clone of `exLayer` with the new
description stored by `SetPXRLayerDesc`. -/
theorem InitPXRLayer_reuse_when_only_flags_change_witness :
    exFrame1.ret = true ∧
    (InitPXRLayer_RenderThread stdConsts exHost exSDK exFrame1.state
      (CloneMyself (SetPXRLayerDesc stdConsts exHost exLayer { exDesc with Flags := 1 }))
      (some exFrame1.layer)).ret = true :=
  ⟨by decide,
   (InitPXRLayer_reuse_when_only_flags_change stdConsts exHost exSDK exSDK exState exLayer
      (CloneMyself (SetPXRLayerDesc stdConsts exHost exLayer { exDesc with Flags := 1 }))
      none 1 (by decide) rfl (by decide) (by decide) (by decide) (by decide) (Or.inl (by decide))).1⟩

/-! ## Storing a description -/

lemma ManageUnderlayComponent_keeps (c : Consts) (h : Host) (self : FPICOXRStereoLayer) :
    (ManageUnderlayComponent c h self).LayerDesc = self.LayerDesc ∧
    (ManageUnderlayComponent c h self).bTextureNeedUpdate = self.bTextureNeedUpdate := by
  unfold ManageUnderlayComponent
  split_ifs
  · cases self.UnderlayMeshComponent with
    | some Component => simp
    | none =>
      dsimp only
      cases findWorld h.WorldContexts <;> simp
  · simp

/-- C7.  `SetPXRLayerDesc(d)` leaves the stored description equal to `d` and
`bTextureNeedUpdate` equal to its previous value OR "the texture handle
differs" OR "the left-eye texture handle differs"; an update that keeps both
handles leaves the flag as it was, and a set flag stays set. -/
theorem SetPXRLayerDesc_stores_and_flags (c : Consts) (h : Host) (self : FPICOXRStereoLayer)
    (d : FLayerDesc) :
    (SetPXRLayerDesc c h self d).LayerDesc = d ∧
    (SetPXRLayerDesc c h self d).bTextureNeedUpdate =
      (self.bTextureNeedUpdate || (texPtr self.LayerDesc.Texture != texPtr d.Texture)
        || (texPtr self.LayerDesc.LeftTexture != texPtr d.LeftTexture)) ∧
    (texPtr self.LayerDesc.Texture = texPtr d.Texture →
      texPtr self.LayerDesc.LeftTexture = texPtr d.LeftTexture →
      (SetPXRLayerDesc c h self d).bTextureNeedUpdate = self.bTextureNeedUpdate) ∧
    (self.bTextureNeedUpdate = true → (SetPXRLayerDesc c h self d).bTextureNeedUpdate = true) := by
  have key : (SetPXRLayerDesc c h self d).bTextureNeedUpdate =
      (self.bTextureNeedUpdate || (texPtr self.LayerDesc.Texture != texPtr d.Texture)
        || (texPtr self.LayerDesc.LeftTexture != texPtr d.LeftTexture)) := by
    unfold SetPXRLayerDesc
    dsimp only
    rw [(ManageUnderlayComponent_keeps c h _).2]
    split_ifs with hc
    · simp only [Bool.or_eq_true] at hc
      rcases hc with hc | hc <;> simp [hc]
    · simp only [Bool.or_eq_true, not_or, Bool.not_eq_true] at hc
      simp [hc.1, hc.2]
  refine ⟨?_, key, ?_, ?_⟩
  · unfold SetPXRLayerDesc
    dsimp only
    rw [(ManageUnderlayComponent_keeps c h _).1]
  · intro e1 e2
    rw [key, e1, e2]
    simp
  · intro hb
    rw [key, hb]
    simp

/-! ## Quad underlay -/

/-- C8.  For a quad layer with `QuadSize` (X,Y) and the preserve-aspect flag
off, `CreateUnderlayMesh`, called on empty arrays as `ManageUnderlayComponent`
does, yields the four vertices (0,-0.99X/2,-0.99Y/2), (0,0.99X/2,-0.99Y/2),
(0,0.99X/2,0.99Y/2), (0,-0.99X/2,0.99Y/2) and the index list [0,1,2,0,2,3];
the normals of the triangles (0,1,2) and (0,2,3) are the same vector, along
the X axis with length 0.99X times 0.99Y. -/
theorem CreateUnderlayMesh_quad (c : Consts) (h : Host) (self : FPICOXRStereoLayer)
    (hq : self.LayerDesc.Shape = LayerShape.Quad)
    (hflag : hasFlag self.LayerDesc.Flags (Consts.LAYER_FLAG_QUAD_PRESERVE_TEX_RATIO c) = false) :
    (CreateUnderlayMesh c h self ⟨[], [], []⟩).Vertices =
      [ ⟨0, -(99 / 100 * self.LayerDesc.QuadSize.X) / 2, -(99 / 100 * self.LayerDesc.QuadSize.Y) / 2⟩,
        ⟨0, (99 / 100 * self.LayerDesc.QuadSize.X) / 2, -(99 / 100 * self.LayerDesc.QuadSize.Y) / 2⟩,
        ⟨0, (99 / 100 * self.LayerDesc.QuadSize.X) / 2, (99 / 100 * self.LayerDesc.QuadSize.Y) / 2⟩,
        ⟨0, -(99 / 100 * self.LayerDesc.QuadSize.X) / 2, (99 / 100 * self.LayerDesc.QuadSize.Y) / 2⟩ ] ∧
    (CreateUnderlayMesh c h self ⟨[], [], []⟩).Triangles = [0, 1, 2, 0, 2, 3] ∧
    (∀ v0 v1 v2 v3, (CreateUnderlayMesh c h self ⟨[], [], []⟩).Vertices = [v0, v1, v2, v3] →
      FVector.cross (v1.sub v0) (v2.sub v0) = FVector.cross (v2.sub v0) (v3.sub v0) ∧
      FVector.cross (v1.sub v0) (v2.sub v0) =
        ⟨(99 / 100 * self.LayerDesc.QuadSize.X) * (99 / 100 * self.LayerDesc.QuadSize.Y), 0, 0⟩) := by
  have hv : (CreateUnderlayMesh c h self ⟨[], [], []⟩).Vertices =
      [ ⟨0, -(99 / 100 * self.LayerDesc.QuadSize.X) / 2, -(99 / 100 * self.LayerDesc.QuadSize.Y) / 2⟩,
        ⟨0, (99 / 100 * self.LayerDesc.QuadSize.X) / 2, -(99 / 100 * self.LayerDesc.QuadSize.Y) / 2⟩,
        ⟨0, (99 / 100 * self.LayerDesc.QuadSize.X) / 2, (99 / 100 * self.LayerDesc.QuadSize.Y) / 2⟩,
        ⟨0, -(99 / 100 * self.LayerDesc.QuadSize.X) / 2, (99 / 100 * self.LayerDesc.QuadSize.Y) / 2⟩ ] := by
    unfold CreateUnderlayMesh
    rw [hq]
    simp only [hflag, Bool.false_eq_true, if_false, List.replicate, List.set, FVector.scale]
    simp only [List.cons.injEq, FVector.mk.injEq, and_true, true_and, zero_mul]
    refine ⟨⟨?_, ?_⟩, ⟨?_, ?_⟩, ⟨?_, ?_⟩, ⟨?_, ?_⟩⟩ <;> ring
  refine ⟨hv, ?_, ?_⟩
  · unfold CreateUnderlayMesh
    rw [hq]
    simp [AddFaceIndices]
  · intro v0 v1 v2 v3 hvs
    rw [hv] at hvs
    simp only [List.cons.injEq, and_true] at hvs
    obtain ⟨e0, e1, e2, e3⟩ := hvs
    subst e0 e1 e2 e3
    simp only [FVector.cross, FVector.sub, FVector.mk.injEq]
    refine ⟨⟨?_, ?_, ?_⟩, ⟨?_, ?_, ?_⟩⟩ <;> ring

/-- C8, witness: the example quad, whose `QuadSize` is (1,1). -/
theorem CreateUnderlayMesh_quad_witness :
    (CreateUnderlayMesh stdConsts exHost exLayer ⟨[], [], []⟩).Triangles = [0, 1, 2, 0, 2, 3] :=
  (CreateUnderlayMesh_quad stdConsts exHost exLayer rfl (by decide)).2.1

/-! ## Cylinder segment count -/

lemma truncToInt_mono {a b : ℚ} (hab : a ≤ b) : truncToInt a ≤ truncToInt b := by
  unfold truncToInt
  split_ifs with ha hb hb
  · exact Int.floor_le_floor hab
  · exact absurd (le_trans ha hab) hb
  · have h1 : ⌈a⌉ ≤ 0 := Int.ceil_le.mpr (by push_cast; exact le_of_lt (not_le.mp ha))
    have h2 : (0 : Int) ≤ ⌊b⌋ := Int.floor_nonneg.mpr hb
    exact le_trans h1 h2
  · exact Int.ceil_le_ceil hab

lemma sidesArg_mono {PI R Arc1 Arc2 : ℚ} (hPI : 0 < PI) (hR : 0 < R) (hArc : Arc1 ≤ Arc2) :
    (Arc1 / R * 180) / (PI * 5) ≤ (Arc2 / R * 180) / (PI * 5) := by
  have h5 : (0 : ℚ) < PI * 5 := by positivity
  apply div_le_div_of_nonneg_right _ (le_of_lt h5)
  apply mul_le_mul_of_nonneg_right _ (by norm_num)
  exact div_le_div_of_nonneg_right hArc (le_of_lt hR)

lemma cylinderSides_eq {PI Arc R : ℚ} {z : Int}
    (h0 : 0 ≤ (Arc / R * 180) / (PI * 5))
    (h1 : (z : ℚ) ≤ (Arc / R * 180) / (PI * 5))
    (h2 : (Arc / R * 180) / (PI * 5) < (z : ℚ) + 1) :
    cylinderSides PI Arc R = z := by
  unfold cylinderSides truncToInt
  rw [if_pos h0]
  exact Int.floor_eq_iff.mpr ⟨h1, h2⟩

/-- C9.  For a fixed radius `R > 0` (and the positive constant `PI`), the
segment count `Sides = (int)((Arc / R * 180) / (PI * 5))` of the cylinder
branch of `CreateUnderlayMesh`, over exact arithmetic, does not decrease when
the arc length grows. -/
theorem cylinderSides_mono (c : Consts) (R Arc1 Arc2 : ℚ) (hPI : 0 < c.PI) (hR : 0 < R)
    (hArc : Arc1 ≤ Arc2) :
    cylinderSides c.PI Arc1 R ≤ cylinderSides c.PI Arc2 R := by
  unfold cylinderSides
  exact truncToInt_mono (sidesArg_mono hPI hR hArc)

/-- C9, witness: arcs 100 and 200 on radius 100 give 11 and 22 segments. -/
theorem cylinderSides_mono_witness :
    cylinderSides stdConsts.PI 100 100 = 11 ∧ cylinderSides stdConsts.PI 200 100 = 22 ∧
    cylinderSides stdConsts.PI 100 100 ≤ cylinderSides stdConsts.PI 200 100 :=
  ⟨cylinderSides_eq (by norm_num [stdConsts]) (by norm_num [stdConsts]) (by norm_num [stdConsts]),
   cylinderSides_eq (by norm_num [stdConsts]) (by norm_num [stdConsts]) (by norm_num [stdConsts]),
   cylinderSides_mono stdConsts 100 100 200 (by norm_num [stdConsts]) (by norm_num)
    (by norm_num)⟩

lemma two_zpow_pos (e : Int) : (0 : ℚ) < 2 ^ e := zpow_pos (by norm_num) e

lemma roundHalfEven_near (q : ℚ) (m : Int) (hlo : (m : ℚ) - 1 / 2 < q)
    (hhi : q < (m : ℚ) + 1 / 2) : roundHalfEven q = m := by
  unfold roundHalfEven
  by_cases hq : (m : ℚ) ≤ q
  · have hf : ⌊q⌋ = m := Int.floor_eq_iff.mpr ⟨hq, by linarith⟩
    rw [hf, if_pos (by linarith)]
  · have hf : ⌊q⌋ = m - 1 := Int.floor_eq_iff.mpr ⟨by push_cast; linarith, by push_cast; linarith⟩
    rw [hf, if_neg (by push_cast; linarith), if_pos (by push_cast; linarith)]
    omega

/-- The rounding of a positive value in the binade of exponent `k + 23`: the
multiple `m * 2 ^ k` of the unit in the last place that is less than half a
unit away. -/
lemma roundBinary32_near (x : ℚ) (m k : Int) (hk : -149 ≤ k)
    (h1 : (2 : ℚ) ^ (k + 23) ≤ x) (h2 : x < (2 : ℚ) ^ (k + 24))
    (hlo : (m : ℚ) - 1 / 2 < x / 2 ^ k) (hhi : x / 2 ^ k < (m : ℚ) + 1 / 2) :
    roundBinary32 x = (m : ℚ) * 2 ^ k := by
  have hx : 0 < x := lt_of_lt_of_le (two_zpow_pos _) h1
  have hL1 : k + 23 ≤ Int.log 2 x :=
    (Int.zpow_le_iff_le_log (R := ℚ) (b := 2) (by norm_num) hx).mp (by simpa using h1)
  have hL2 : Int.log 2 x < k + 24 :=
    (Int.lt_zpow_iff_log_lt (R := ℚ) (b := 2) (by norm_num) hx).mp (by simpa using h2)
  have hE : binary32UlpExponent x = k := by
    unfold binary32UlpExponent
    rw [abs_of_pos hx]
    omega
  unfold roundBinary32
  rw [hE, roundHalfEven_near _ m hlo hhi]

/-- Rounding moves the threshold.  Arc 1143819/131072 on radius 100 is just
below five degrees, so the segment count over exact arithmetic is 0; in
`float` arithmetic the quotient rounds to 1 and the segment count is 1. -/
lemma cylinderSidesBinary32_at_threshold :
    ¬ (stdConsts.PI * 5 * 100 ≤ 1143819 / 131072 * 180) ∧
    cylinderSides stdConsts.PI (1143819 / 131072) 100 = 0 ∧
    cylinderSidesBinary32 stdConsts.PI (1143819 / 131072) 100 = 1 := by
  have ha : roundBinary32 (1143819 / 131072 / 100) = ((11712707 : Int) : ℚ) * 2 ^ (-27 : Int) :=
    roundBinary32_near _ 11712707 (-27) (by norm_num) (by norm_num) (by norm_num)
      (by norm_num) (by norm_num)
  have hb : roundBinary32 (((11712707 : Int) : ℚ) * 2 ^ (-27 : Int) * 180)
      = ((16470994 : Int) : ℚ) * 2 ^ (-20 : Int) :=
    roundBinary32_near _ 16470994 (-20) (by norm_num) (by norm_num) (by norm_num)
      (by norm_num) (by norm_num)
  have hp : roundBinary32 (stdConsts.PI * 5) = ((16470994 : Int) : ℚ) * 2 ^ (-20 : Int) :=
    roundBinary32_near _ 16470994 (-20) (by norm_num) (by norm_num [stdConsts])
      (by norm_num [stdConsts]) (by norm_num [stdConsts]) (by norm_num [stdConsts])
  have hq : roundBinary32 1 = ((8388608 : Int) : ℚ) * 2 ^ (-23 : Int) :=
    roundBinary32_near _ 8388608 (-23) (by norm_num) (by norm_num) (by norm_num)
      (by norm_num) (by norm_num)
  refine ⟨by norm_num [stdConsts], ?_, ?_⟩
  · exact cylinderSides_eq (by norm_num [stdConsts]) (by norm_num [stdConsts])
      (by norm_num [stdConsts])
  · unfold cylinderSidesBinary32
    rw [ha, hb, hp, div_self (by norm_num), hq]
    norm_num [truncToInt]

lemma TickTask_drop (self : FOnlineAsyncTaskManagerPico) (m : ppfMessage) (rest : List ppfMessage)
    (hm : isDropped self m = true) :
    TickTask self (m :: rest) =
      ⟨(TickTask self rest).Manager, (TickTask self rest).Queue,
        OnlineEvent.FreeMessage (some m.Handle) :: (TickTask self rest).Events⟩ := by
  simp only [isDropped, Bool.and_eq_true, Option.isNone_iff_eq_none] at hm
  simp [TickTask, hm.1, hm.2]

lemma TickTask_drop_run (self : FOnlineAsyncTaskManagerPico) (pre q : List ppfMessage)
    (hpre : ∀ x ∈ pre, isDropped self x = true) :
    TickTask self (pre ++ q) =
      ⟨(TickTask self q).Manager, (TickTask self q).Queue,
        dropEvents pre ++ (TickTask self q).Events⟩ := by
  induction pre with
  | nil => simp [dropEvents]
  | cons x xs ih =>
    have hx := hpre x (List.mem_cons_self x xs)
    have hxs : ∀ y ∈ xs, isDropped self y = true := fun y hy => hpre y (List.mem_cons_of_mem x hy)
    rw [List.cons_append, TickTask_drop self x (xs ++ q) hx, ih hxs]
    simp [dropEvents]

lemma dropEvents_no_callback (l : List ppfMessage) :
    (dropEvents l).filter OnlineEvent.isCallback = [] ∧
    (dropEvents l).filter OnlineEvent.isTaskCallback = [] := by
  induction l with
  | nil => simp [dropEvents]
  | cons x xs ih =>
    simp only [dropEvents, List.map_cons] at ih ⊢
    simp [OnlineEvent.isCallback, OnlineEvent.isTaskCallback, ih.1, ih.2]

lemma dropEvents_count (l : List ppfMessage) (m : ppfMessage)
    (hu : ∀ x ∈ l, x.Handle ≠ m.Handle) :
    (dropEvents l).count (OnlineEvent.FreeMessage (some m.Handle)) = 0 := by
  rw [List.count_eq_zero]
  intro hmem
  simp only [dropEvents, List.mem_map] at hmem
  obtain ⟨x, hx, he⟩ := hmem
  simp only [OnlineEvent.FreeMessage.injEq, Option.some.injEq] at he
  exact hu x hx he

lemma lookup_filter_ne {β : Type} (l : List (Nat × β)) (R k : Nat) :
    (l.filter (fun e => e.1 != R)).lookup k = if k = R then none else l.lookup k := by
  induction l with
  | nil => simp
  | cons e es ih =>
    obtain ⟨a, b⟩ := e
    by_cases haR : a = R
    · subst haR
      simp only [List.filter_cons, bne_self_eq_false, Bool.false_eq_true, if_false, ih]
      by_cases hk : k = a
      · simp [hk]
      · have : (k == a) = false := by simpa using hk
        simp [hk, List.lookup_cons, this]
    · have hne : (a != R) = true := by simpa using haR
      simp only [List.filter_cons, hne, if_true, List.lookup_cons]
      by_cases hka : k = a
      · subst hka
        simp [haR]
      · have : (k == a) = false := by simpa using hka
        simp only [this, ih]

/-- C12.  The pending map holds task `T` with a bound delegate `d` under the
request id of message `m`, which carries no error flag; `m` is popped by
`TickTask`, after a run `pre` of dropped messages.  Then the events of the
call are the frees of `pre`, one execution of `d` with `m` and one free of
`m`: the only callback of the call is `d` on `m`, and `m` is freed exactly
once (its address being that of no message of `pre`).  Afterwards the map has
no entry for that request id and every other key looks up as before. -/
theorem TickTask_completes_matched_task (self : FOnlineAsyncTaskManagerPico)
    (pre rest : List ppfMessage) (m : ppfMessage) (T : FOnlineAsyncTaskPico) (d : Nat)
    (hpre : ∀ x ∈ pre, isDropped self x = true)
    (hT : self.RequestTaskMap.lookup m.RequestID = some T)
    (hd : T.Delegate = some d)
    (herr : m.IsError = false) :
    (TickTask self (pre ++ m :: rest)).Events =
      dropEvents pre ++
        [OnlineEvent.ExecuteDelegate d (some m.Handle) false,
         OnlineEvent.FreeMessage (some m.Handle)] ∧
    (TickTask self (pre ++ m :: rest)).Events.filter OnlineEvent.isCallback =
      [OnlineEvent.ExecuteDelegate d (some m.Handle) false] ∧
    ((∀ x ∈ pre, x.Handle ≠ m.Handle) →
      (TickTask self (pre ++ m :: rest)).Events.count (OnlineEvent.FreeMessage (some m.Handle))
        = 1) ∧
    (TickTask self (pre ++ m :: rest)).Manager.RequestTaskMap.lookup m.RequestID = none ∧
    (∀ k, k ≠ m.RequestID →
      (TickTask self (pre ++ m :: rest)).Manager.RequestTaskMap.lookup k
        = self.RequestTaskMap.lookup k) ∧
    (TickTask self (pre ++ m :: rest)).Manager.NotificationMap = self.NotificationMap ∧
    (TickTask self (pre ++ m :: rest)).Queue = rest := by
  have hstep : TickTask self (m :: rest) =
      ⟨{ self with RequestTaskMap := self.RequestTaskMap.filter (fun e => e.1 != m.RequestID) },
        rest,
        [OnlineEvent.ExecuteDelegate d (some m.Handle) false,
         OnlineEvent.FreeMessage (some m.Handle)]⟩ := by
    simp [TickTask, hT, FOnlineAsyncTaskPico.TaskReceiveMessage, hd, herr]
  rw [TickTask_drop_run self pre (m :: rest) hpre, hstep]
  refine ⟨rfl, ?_, ?_, ?_, ?_, rfl, rfl⟩
  · simp [List.filter_append, (dropEvents_no_callback pre).1, OnlineEvent.isCallback]
  · intro hu
    simp [List.count_append, dropEvents_count pre m hu]
  · simp [lookup_filter_ne]
  · intro k hk
    simp [lookup_filter_ne, hk]

/-- C12, witness: the answer to request 7 arrives behind a stray message. -/
theorem TickTask_completes_matched_task_witness :
    (TickTask exManager [exMsgStray, exMsgDone, exMsgNotify]).Events =
      [OnlineEvent.FreeMessage (some 502), OnlineEvent.ExecuteDelegate 70 (some 500) false,
       OnlineEvent.FreeMessage (some 500)] :=
  (TickTask_completes_matched_task exManager [exMsgStray] [exMsgNotify] exMsgDone exTask 70
    (by decide) (by decide) rfl rfl).1

/-- C13, counterexample.  A message that carries the error flag still leaves
the task marked successful. -/
theorem TaskReceiveMessage_error_flag_still_successful :
    (exTask.TaskReceiveMessage (some 500) true).1.bWasSuccessful = true ∧
    ¬ ((exTask.TaskReceiveMessage (some 500) true).1.bWasSuccessful = true ↔ true = false) := by
  decide

/-- C13, amended.  A non-null message marks the task complete and successful
whether or not it carries the error flag; the flag is recorded in `bIsError`
and handed to the completion delegate, when one is bound. -/
theorem TaskReceiveMessage_marks_successful (self : FOnlineAsyncTaskPico) (Handle : Nat)
    (isError : Bool) :
    (self.TaskReceiveMessage (some Handle) isError).1.bIsComplete = true ∧
    (self.TaskReceiveMessage (some Handle) isError).1.bWasSuccessful = true ∧
    (self.TaskReceiveMessage (some Handle) isError).1.bIsError = isError ∧
    (∀ d, self.Delegate = some d →
      (self.TaskReceiveMessage (some Handle) isError).2 =
        [OnlineEvent.ExecuteDelegate d (some Handle) isError,
         OnlineEvent.FreeMessage (some Handle)]) := by
  refine ⟨by simp [FOnlineAsyncTaskPico.TaskReceiveMessage],
    by simp [FOnlineAsyncTaskPico.TaskReceiveMessage],
    by simp [FOnlineAsyncTaskPico.TaskReceiveMessage], ?_⟩
  intro d hd
  simp [FOnlineAsyncTaskPico.TaskReceiveMessage, hd]

/-- C14.  Message `m` matches no pending task and its type has the entry
`D` in the notification map; it is popped by `TickTask`, after a run `pre` of
dropped messages.  Then `m` is broadcast to `D`, no task completion delegate
is executed, and the manager (pending map and notification map) is as it was. -/
theorem TickTask_broadcasts_notification (self : FOnlineAsyncTaskManagerPico)
    (pre rest : List ppfMessage) (m : ppfMessage) (D : List Nat)
    (hpre : ∀ x ∈ pre, isDropped self x = true)
    (hT : self.RequestTaskMap.lookup m.RequestID = none)
    (hN : self.NotificationMap.lookup m.MessageType = some D) :
    (TickTask self (pre ++ m :: rest)).Events =
      dropEvents pre ++ [OnlineEvent.Broadcast D (some m.Handle) m.IsError] ∧
    (TickTask self (pre ++ m :: rest)).Events.filter OnlineEvent.isTaskCallback = [] ∧
    (TickTask self (pre ++ m :: rest)).Manager = self ∧
    (TickTask self (pre ++ m :: rest)).Queue = rest := by
  have hstep : TickTask self (m :: rest) =
      ⟨self, rest, [OnlineEvent.Broadcast D (some m.Handle) m.IsError]⟩ := by
    simp [TickTask, hT, hN, FOnlineAsyncEventPico_TriggerDelegates]
  rw [TickTask_drop_run self pre (m :: rest) hpre, hstep]
  refine ⟨rfl, ?_, rfl, rfl⟩
  simp [List.filter_append, (dropEvents_no_callback pre).2, OnlineEvent.isTaskCallback]

/-- C14, witness: a message of the registered type 100 behind a stray one. -/
theorem TickTask_broadcasts_notification_witness :
    (TickTask exManager [exMsgStray, exMsgNotify, exMsgDone]).Events =
      [OnlineEvent.FreeMessage (some 502), OnlineEvent.Broadcast [1, 2] (some 501) false] ∧
    (TickTask exManager [exMsgStray, exMsgNotify, exMsgDone]).Manager = exManager :=
  ⟨(TickTask_broadcasts_notification exManager [exMsgStray] [exMsgDone] exMsgNotify [1, 2]
      (by decide) (by decide) (by decide)).1,
   (TickTask_broadcasts_notification exManager [exMsgStray] [exMsgDone] exMsgNotify [1, 2]
      (by decide) (by decide) (by decide)).2.2.1⟩

/-- C15.  `Tick` marks the task complete and failed when its request id
differs from the exempt constant and the elapsed time is at least 10; for the
exempt request id, and for an elapsed time below 10, the task is returned
as it is.  The completion delegate is never touched: `Tick` has no event to
give and leaves `Delegate` bound as it was. -/
theorem Tick_times_out (GetAccessToken : Nat) (ElapsedTime : ℚ) (self : FOnlineAsyncTaskPico) :
    (self.RequestId ≠ GetAccessToken ∧ 10 ≤ ElapsedTime →
      (self.Tick GetAccessToken ElapsedTime).bIsComplete = true ∧
      (self.Tick GetAccessToken ElapsedTime).bWasSuccessful = false) ∧
    (self.RequestId = GetAccessToken → self.Tick GetAccessToken ElapsedTime = self) ∧
    (ElapsedTime < 10 → self.Tick GetAccessToken ElapsedTime = self) ∧
    (self.Tick GetAccessToken ElapsedTime ≠ self →
      self.RequestId ≠ GetAccessToken ∧ 10 ≤ ElapsedTime) ∧
    (self.Tick GetAccessToken ElapsedTime).Delegate = self.Delegate ∧
    (self.Tick GetAccessToken ElapsedTime).MessageHandle = self.MessageHandle := by
  unfold FOnlineAsyncTaskPico.Tick
  refine ⟨?_, ?_, ?_, ?_, ?_, ?_⟩
  · rintro ⟨h1, h2⟩
    simp [h1, h2]
  · intro h1
    simp [h1]
  · intro h2
    have : ¬ ElapsedTime ≥ 10 := not_le.mpr h2
    simp [this]
  · intro hne
    by_contra hc
    apply hne
    rw [not_and_or] at hc
    rcases hc with hc | hc
    · simp only [ne_eq, not_not] at hc
      simp [hc]
    · have : ¬ ElapsedTime ≥ 10 := hc
      simp [this]
  · split_ifs <;> rfl
  · split_ifs <;> rfl

/-- C16, counterexample.  With two stray messages in the queue one call of
`TickTask` pops both. -/
theorem TickTask_pops_two_messages :
    poppedCount [exMsgStray, exMsgStray2] (TickTask exManager [exMsgStray, exMsgStray2]) = 2 ∧
    (TickTask exManager [exMsgStray, exMsgStray2]).Events =
      [OnlineEvent.FreeMessage (some 502), OnlineEvent.FreeMessage (some 503)] := by
  decide

lemma TaskReceiveMessage_callbacks (T : FOnlineAsyncTaskPico) (Handle : Option Nat)
    (e : Bool) :
    ((T.TaskReceiveMessage Handle e).2.filter OnlineEvent.isCallback).length ≤ 1 := by
  unfold FOnlineAsyncTaskPico.TaskReceiveMessage
  cases Handle <;> cases hD : T.Delegate <;> simp [hD, OnlineEvent.isCallback]

lemma TickTask_not_dropped (self : FOnlineAsyncTaskManagerPico) (m : ppfMessage)
    (rest : List ppfMessage) (hm : isDropped self m = false) :
    (TickTask self (m :: rest)).Queue = rest ∧
    ((TickTask self (m :: rest)).Events.filter OnlineEvent.isCallback).length ≤ 1 := by
  unfold TickTask
  cases hT : self.RequestTaskMap.lookup m.RequestID with
  | some Item => exact ⟨rfl, TaskReceiveMessage_callbacks Item _ _⟩
  | none =>
    cases hN : self.NotificationMap.lookup m.MessageType with
    | some D => exact ⟨rfl, by simp [FOnlineAsyncEventPico_TriggerDelegates, OnlineEvent.isCallback]⟩
    | none => simp [isDropped, hT, hN] at hm

lemma TickTask_queue_length (self : FOnlineAsyncTaskManagerPico) (q : List ppfMessage) :
    (TickTask self q).Queue.length + min ((q.takeWhile (isDropped self)).length + 1) q.length
      = q.length ∧
    ((TickTask self q).Events.filter OnlineEvent.isCallback).length ≤ 1 := by
  induction q with
  | nil => simp [TickTask]
  | cons m rest ih =>
    cases hm : isDropped self m with
    | true =>
      rw [TickTask_drop self m rest hm]
      simp only [List.takeWhile_cons, hm, if_true, List.length_cons]
      refine ⟨?_, ?_⟩
      · have := ih.1
        omega
      · simpa [OnlineEvent.isCallback] using ih.2
    | false =>
      obtain ⟨hq, hc⟩ := TickTask_not_dropped self m rest hm
      rw [hq]
      simp only [List.takeWhile_cons, hm, List.length_cons, List.length_nil]
      exact ⟨by simp, hc⟩

/-- C16, amended.  One call of `TickTask` routes at most one message to a
task delegate or to notification delegates.  It pops every leading message
that is neither matched nor registered and, when there is one behind them,
the first message that is matched or registered; so the number of popped
messages is bounded by the length of the queue, not by one. -/
theorem TickTask_routes_at_most_one (self : FOnlineAsyncTaskManagerPico)
    (q : List ppfMessage) :
    ((TickTask self q).Events.filter OnlineEvent.isCallback).length ≤ 1 ∧
    poppedCount q (TickTask self q) =
      min ((q.takeWhile (isDropped self)).length + 1) q.length ∧
    poppedCount q (TickTask self q) ≤ q.length := by
  obtain ⟨hl, hc⟩ := TickTask_queue_length self q
  refine ⟨hc, ?_, ?_⟩
  · unfold poppedCount
    omega
  · unfold poppedCount
    omega

/-- C17.  `TaskReceiveMessage` with a null handle marks the task complete and
failed, gives no event (no delegate execution, no `ppf_FreeMessage`) and
leaves the delegate bound and the stored message handle as they were. -/
theorem TaskReceiveMessage_null_handle (self : FOnlineAsyncTaskPico) (isError : Bool) :
    (self.TaskReceiveMessage none isError).1.bIsComplete = true ∧
    (self.TaskReceiveMessage none isError).1.bWasSuccessful = false ∧
    (self.TaskReceiveMessage none isError).2 = [] ∧
    (self.TaskReceiveMessage none isError).1.Delegate = self.Delegate ∧
    (self.TaskReceiveMessage none isError).1.MessageHandle = self.MessageHandle ∧
    (self.TaskReceiveMessage none isError).1.bIsError = self.bIsError := by
  simp [FOnlineAsyncTaskPico.TaskReceiveMessage]

/-- C18, counterexample.  The first popped message matches no task and no
notification entry, yet the same call of `TickTask` goes on to the next
message, executes the delegate of task 7 and removes it from the pending map. -/
theorem TickTask_after_drop_routes_next :
    isDropped exManager exMsgStray = true ∧
    (TickTask exManager [exMsgStray, exMsgDone]).Events =
      [OnlineEvent.FreeMessage (some 502), OnlineEvent.ExecuteDelegate 70 (some 500) false,
       OnlineEvent.FreeMessage (some 500)] ∧
    (TickTask exManager [exMsgStray, exMsgDone]).Manager.RequestTaskMap
      ≠ exManager.RequestTaskMap := by
  decide

/-- C18, amended.  A popped message `m` that matches no pending task and no
notification entry is freed, and handling it executes no delegate and changes
neither map: the call continues with the messages behind it, as `TickTask` on
`rest` would.  When every message behind it is dropped too (in particular
when there is none), the whole call frees `m` exactly once, invokes no task
delegate and no notification delegate and leaves both maps as they were. -/
theorem TickTask_drops_unrouted_message (self : FOnlineAsyncTaskManagerPico)
    (pre rest : List ppfMessage) (m : ppfMessage)
    (hpre : ∀ x ∈ pre, isDropped self x = true)
    (hm : isDropped self m = true) :
    (TickTask self (pre ++ m :: rest)).Events =
      dropEvents pre ++ OnlineEvent.FreeMessage (some m.Handle) :: (TickTask self rest).Events ∧
    (TickTask self (pre ++ m :: rest)).Manager = (TickTask self rest).Manager ∧
    (TickTask self (pre ++ m :: rest)).Queue = (TickTask self rest).Queue ∧
    ((∀ x ∈ rest, isDropped self x = true) →
      (TickTask self (pre ++ m :: rest)).Manager = self ∧
      (TickTask self (pre ++ m :: rest)).Events.filter OnlineEvent.isCallback = [] ∧
      ((∀ x ∈ pre ++ rest, x.Handle ≠ m.Handle) →
        (TickTask self (pre ++ m :: rest)).Events.count (OnlineEvent.FreeMessage (some m.Handle))
          = 1)) := by
  rw [TickTask_drop_run self pre (m :: rest) hpre, TickTask_drop self m rest hm]
  refine ⟨rfl, rfl, rfl, ?_⟩
  intro hrest
  have hr := TickTask_drop_run self rest [] hrest
  simp only [List.append_nil, TickTask] at hr
  rw [hr]
  refine ⟨rfl, ?_, ?_⟩
  · simp [List.filter_append, (dropEvents_no_callback pre).1, (dropEvents_no_callback rest).1,
      OnlineEvent.isCallback]
  · intro hu
    have h1 := dropEvents_count pre m (fun x hx => hu x (List.mem_append_left rest hx))
    have h2 := dropEvents_count rest m (fun x hx => hu x (List.mem_append_right pre hx))
    simp [List.count_append, List.count_cons, h1, h2]

/-- C18, witness: two stray messages, nothing else in the queue. -/
theorem TickTask_drops_unrouted_message_witness :
    (TickTask exManager [exMsgStray, exMsgStray2]).Manager = exManager ∧
    (TickTask exManager [exMsgStray, exMsgStray2]).Events.filter OnlineEvent.isCallback = [] :=
  ⟨((TickTask_drops_unrouted_message exManager [] [exMsgStray2] exMsgStray
      (by decide) (by decide)).2.2.2 (by decide)).1,
   ((TickTask_drops_unrouted_message exManager [] [exMsgStray2] exMsgStray
      (by decide) (by decide)).2.2.2 (by decide)).2.1⟩


/-! ## Submission -/

/-- C11.  The vertical UV flip of the equirect branch of
`SubmitLayer_RHIThread`, `(vmin, vmax) -> (1 - vmax, 1 - vmin)`, is an
involution over exact arithmetic: applied twice it gives back the pair. -/
theorem flipV_involutive (v : ℚ × ℚ) : flipV (flipV v) = v := by
  obtain ⟨a, b⟩ := v
  simp [flipV]

/-- C19, counterexample.  A layer with id 1, not the splash black projection
layer, whose shape is none of quad, cylinder, equirect and cubemap: its
`GetShapeType` is 0 and `SubmitLayer_RHIThread` issues no submission call. -/
theorem SubmitLayer_other_shape_submits_nothing :
    exLayerOtherShape.ID = 1 ∧ exLayerOtherShape.bSplashBlackProjectionLayer = false ∧
    GetShapeType exLayerOtherShape = 0 ∧
    SubmitLayer_RHIThread stdConsts exHMD exPoseHelpers exLayerOtherShape exGameFrame = [] := by
  decide

/-- C19, amended.  One call of `SubmitLayer_RHIThread` issues at most one
native submission call, and exactly one when the layer is the projection
layer (`ID == 0`), the splash black projection layer, or a layer whose
`GetShapeType` is one of `PXR_LAYER_QUAD`, `PXR_LAYER_CYLINDER`,
`PXR_LAYER_EQUIRECT`, `PXR_LAYER_CUBE`; with these four constants equal to
1, 2, 3, 5 that is every layer of shape quad, cylinder, equirect or cubemap.
Any other layer is not submitted. -/
theorem SubmitLayer_call_count (c : Consts) (HMDDevice : FPICOXRHMD) (ph : PoseHelpers)
    (self : FPICOXRStereoLayer) (Frame : FPXRGameFrame) :
    (SubmitLayer_RHIThread c HMDDevice ph self Frame).length ≤ 1 ∧
    ((SubmitLayer_RHIThread c HMDDevice ph self Frame).length = 1 ↔
      (self.ID = 0 ∨ self.bSplashBlackProjectionLayer = true ∨
        GetShapeType self = c.PXR_LAYER_QUAD ∨ GetShapeType self = c.PXR_LAYER_CYLINDER ∨
        GetShapeType self = c.PXR_LAYER_EQUIRECT ∨ GetShapeType self = c.PXR_LAYER_CUBE)) ∧
    (c.PXR_LAYER_QUAD = 1 → c.PXR_LAYER_CYLINDER = 2 → c.PXR_LAYER_EQUIRECT = 3 →
      c.PXR_LAYER_CUBE = 5 → self.LayerDesc.Shape ≠ LayerShape.Other →
      (SubmitLayer_RHIThread c HMDDevice ph self Frame).length = 1) := by
  have key : (SubmitLayer_RHIThread c HMDDevice ph self Frame).length ≤ 1 ∧
      ((SubmitLayer_RHIThread c HMDDevice ph self Frame).length = 1 ↔
        (self.ID = 0 ∨ self.bSplashBlackProjectionLayer = true ∨
          GetShapeType self = c.PXR_LAYER_QUAD ∨ GetShapeType self = c.PXR_LAYER_CYLINDER ∨
          GetShapeType self = c.PXR_LAYER_EQUIRECT ∨ GetShapeType self = c.PXR_LAYER_CUBE)) := by
    unfold SubmitLayer_RHIThread
    dsimp only
    by_cases h0 : self.ID = 0
    · rw [if_pos h0]
      simp [h0]
    · rw [if_neg h0]
      by_cases h1 : self.bSplashBlackProjectionLayer = true
      · rw [if_pos h1]
        simp [h1]
      · rw [if_neg h1]
        by_cases h2 : GetShapeType self = c.PXR_LAYER_QUAD
        · rw [if_pos h2]
          simp [h2]
        · rw [if_neg h2]
          by_cases h3 : GetShapeType self = c.PXR_LAYER_CYLINDER
          · rw [if_pos h3]
            simp [h3]
          · rw [if_neg h3]
            by_cases h4 : GetShapeType self = c.PXR_LAYER_EQUIRECT
            · rw [if_pos h4]
              simp [h4]
            · rw [if_neg h4]
              by_cases h5 : GetShapeType self = c.PXR_LAYER_CUBE
              · rw [if_pos h5]
                simp [h5]
              · rw [if_neg h5]
                simp [h0, h1, h2, h3, h4, h5]
  refine ⟨key.1, key.2, ?_⟩
  intro hq hc he hu hs
  rw [key.2, hq, hc, he, hu]
  right; right
  unfold GetShapeType
  cases hshape : self.LayerDesc.Shape <;> simp_all

/-! ## Catching up with the next image -/

lemma spinSwapChain_of_eq (index : Int) (fuel : Nat) (sc : FXRSwapChain)
    (h : index = (sc.SwapChainIndex : Int)) : spinSwapChain index fuel sc = some (sc, 0) := by
  cases fuel <;> simp [spinSwapChain, FXRSwapChain.GetSwapChainIndex_RHIThread, h]

lemma spinSwapChain_step (index : Int) (fuel : Nat) (sc : FXRSwapChain)
    (h : index ≠ (sc.SwapChainIndex : Int)) :
    spinSwapChain index (fuel + 1) sc =
      (spinSwapChain index fuel sc.IncrementSwapChainIndex_RHIThread).map
        (fun r => (r.1, r.2 + 1)) := by
  simp [spinSwapChain, FXRSwapChain.GetSwapChainIndex_RHIThread, h]

lemma spinSwapChain_reaches (i n : Nat) :
    ∀ (d : Nat) (sc : FXRSwapChain) (fuel : Nat), sc.Textures.length = n →
      (sc.SwapChainIndex + d) % n = i → sc.SwapChainIndex < n → d ≤ fuel →
      ∃ sc1 k, spinSwapChain (i : Int) fuel sc = some (sc1, k) ∧ k ≤ d ∧
        sc1.SwapChainIndex = i ∧ sc1.Textures = sc.Textures := by
  intro d
  induction d with
  | zero =>
    intro sc fuel _ hd hlt _
    rw [Nat.add_zero, Nat.mod_eq_of_lt hlt] at hd
    exact ⟨sc, 0, spinSwapChain_of_eq _ fuel sc (by rw [hd]), le_refl 0, hd, rfl⟩
  | succ d ih =>
    intro sc fuel hn hd hlt hfuel
    by_cases he : ((i : Int)) = (sc.SwapChainIndex : Int)
    · exact ⟨sc, 0, spinSwapChain_of_eq _ fuel sc he, Nat.zero_le _,
        by exact_mod_cast he.symm, rfl⟩
    · obtain ⟨f, rfl⟩ : ∃ f, fuel = f + 1 := ⟨fuel - 1, by omega⟩
      have hpos : 0 < n := by omega
      have hinc : (sc.IncrementSwapChainIndex_RHIThread.SwapChainIndex + d) % n = i := by
        simp only [FXRSwapChain.IncrementSwapChainIndex_RHIThread, hn]
        rw [Nat.add_mod, Nat.mod_mod, ← Nat.add_mod]
        rw [← hd]
        congr 1
        omega
      have hlt1 : sc.IncrementSwapChainIndex_RHIThread.SwapChainIndex < n := by
        simp only [FXRSwapChain.IncrementSwapChainIndex_RHIThread, hn]
        exact Nat.mod_lt _ hpos
      obtain ⟨sc1, k, hs, hk, hi, ht⟩ :=
        ih sc.IncrementSwapChainIndex_RHIThread f (by simpa [FXRSwapChain.IncrementSwapChainIndex_RHIThread] using hn)
          hinc hlt1 (by omega)
      refine ⟨sc1, k + 1, ?_, by omega, hi, ?_⟩
      · rw [spinSwapChain_step _ f sc he, hs]
        rfl
      · rw [ht]
        rfl

lemma spinSwapChain_terminates (i : Nat) (sc : FXRSwapChain) (fuel : Nat)
    (hi : i < sc.Textures.length) (hfuel : sc.Textures.length ≤ fuel) :
    ∃ sc1 k, spinSwapChain (i : Int) fuel sc = some (sc1, k) ∧ k ≤ sc.Textures.length ∧
      sc1.SwapChainIndex = i ∧ sc1.Textures = sc.Textures := by
  have key : ∀ (t : FXRSwapChain) (g : Nat), t.Textures.length = sc.Textures.length →
      t.SwapChainIndex < sc.Textures.length → sc.Textures.length - 1 ≤ g →
      ∃ sc1 k, spinSwapChain (i : Int) g t = some (sc1, k) ∧ k ≤ sc.Textures.length - 1 ∧
        sc1.SwapChainIndex = i ∧ sc1.Textures = t.Textures := by
    intro t g ht hlt hg
    have hd : (t.SwapChainIndex + (i + sc.Textures.length - t.SwapChainIndex) % sc.Textures.length)
        % sc.Textures.length = i := by
      rw [Nat.add_mod, Nat.mod_mod, ← Nat.add_mod]
      have : t.SwapChainIndex + (i + sc.Textures.length - t.SwapChainIndex)
          = i + sc.Textures.length := by omega
      rw [this, Nat.add_mod_right, Nat.mod_eq_of_lt hi]
    have hdlt : (i + sc.Textures.length - t.SwapChainIndex) % sc.Textures.length
        < sc.Textures.length := Nat.mod_lt _ (by omega)
    obtain ⟨sc1, k, hs, hk, hidx, htex⟩ :=
      spinSwapChain_reaches i sc.Textures.length _ t g ht hd hlt (by omega)
    exact ⟨sc1, k, hs, by omega, hidx, htex⟩
  by_cases hlt : sc.SwapChainIndex < sc.Textures.length
  · obtain ⟨sc1, k, hs, hk, hidx, htex⟩ := key sc fuel rfl hlt (by omega)
    exact ⟨sc1, k, hs, by omega, hidx, htex⟩
  · have he : ((i : Int)) ≠ (sc.SwapChainIndex : Int) := by
      intro h
      have : i = sc.SwapChainIndex := by exact_mod_cast h
      omega
    obtain ⟨f, rfl⟩ : ∃ f, fuel = f + 1 := ⟨fuel - 1, by omega⟩
    have hlt1 : sc.IncrementSwapChainIndex_RHIThread.SwapChainIndex < sc.Textures.length := by
      simp only [FXRSwapChain.IncrementSwapChainIndex_RHIThread]
      exact Nat.mod_lt _ (by omega)
    obtain ⟨sc1, k, hs, hk, hidx, htex⟩ :=
      key sc.IncrementSwapChainIndex_RHIThread f rfl hlt1 (by omega)
    refine ⟨sc1, k + 1, ?_, by omega, hidx, ?_⟩
    · rw [spinSwapChain_step _ f sc he, hs]
      rfl
    · rw [htex]
      rfl

lemma spinSwapChain_never (index : Int) :
    ∀ (fuel : Nat) (sc : FXRSwapChain), sc.SwapChainIndex < sc.Textures.length →
      (index < 0 ∨ (sc.Textures.length : Int) ≤ index) →
      spinSwapChain index fuel sc = none := by
  intro fuel
  induction fuel with
  | zero =>
    intro sc hlt hout
    have he : index ≠ (sc.SwapChainIndex : Int) := by omega
    simp [spinSwapChain, FXRSwapChain.GetSwapChainIndex_RHIThread, he]
  | succ f ih =>
    intro sc hlt hout
    have he : index ≠ (sc.SwapChainIndex : Int) := by omega
    rw [spinSwapChain_step _ f sc he]
    have hlt1 : sc.IncrementSwapChainIndex_RHIThread.SwapChainIndex
        < sc.IncrementSwapChainIndex_RHIThread.Textures.length := by
      simp only [FXRSwapChain.IncrementSwapChainIndex_RHIThread]
      exact Nat.mod_lt _ (by omega)
    rw [ih sc.IncrementSwapChainIndex_RHIThread hlt1
      (by simpa [FXRSwapChain.IncrementSwapChainIndex_RHIThread] using hout)]
    rfl

/-- C20, counterexample.  A visible layer whose main swapchain is a ring of
three images: when the SDK reports the next image index 3, the loop of
`IncrementSwapChainIndex_RHIThread` is still running after any number of
increments. -/
theorem IncrementSwapChainIndex_spins_forever :
    hasFlag exRingLayer.LayerDesc.Flags stdConsts.LAYER_FLAG_HIDDEN = false ∧
    exRingLayer.SwapChain.map (fun sc => (sc.Textures.length, sc.SwapChainIndex)) = some (3, 0) ∧
    ¬ ∃ fuel, (IncrementSwapChainIndex_RHIThread stdConsts fuel 3 exRingLayer).isSome = true := by
  refine ⟨by decide, by decide, ?_⟩
  rintro ⟨fuel, h⟩
  obtain ⟨sc, hsc, hlen, hidx⟩ : ∃ sc, exRingLayer.SwapChain = some sc ∧ sc.Textures.length = 3 ∧
      sc.SwapChainIndex = 0 := by
    cases hs : exRingLayer.SwapChain with
    | none =>
      have : exRingLayer.SwapChain ≠ none := by decide
      exact absurd hs this
    | some sc =>
      have h3 : exRingLayer.SwapChain.map (fun sc => (sc.Textures.length, sc.SwapChainIndex))
          = some (3, 0) := by decide
      rw [hs] at h3
      simp only [Option.map_some', Option.some.injEq, Prod.mk.injEq] at h3
      exact ⟨sc, rfl, h3.1, h3.2⟩
  have hvis : hasFlag exRingLayer.LayerDesc.Flags stdConsts.LAYER_FLAG_HIDDEN = false := by decide
  have hnever : spinSwapChain 3 fuel sc = none :=
    spinSwapChain_never 3 fuel sc (by omega) (Or.inr (by omega))
  simp [IncrementSwapChainIndex_RHIThread, hvis, hsc, hnever] at h

/-- C20, amended.  For a layer that is not hidden, with a main swapchain of
ring size `n` (its index advancing modulo `n`) and a reported next image
index that lies in the ring, `0 <= index < n` (and in the ring of the
left-eye swapchain, when there is one), `IncrementSwapChainIndex_RHIThread`
comes to an end after at most `n` increments per swapchain, whatever
number of at least that many increments it is allowed, and then the index of
the main swapchain, and of the left-eye swapchain when present, is the
reported one. -/
theorem IncrementSwapChainIndex_catches_up (c : Consts) (self : FPICOXRStereoLayer)
    (sc : FXRSwapChain) (index fuel : Nat)
    (hvis : hasFlag self.LayerDesc.Flags c.LAYER_FLAG_HIDDEN = false)
    (hsc : self.SwapChain = some sc)
    (hidx : index < sc.Textures.length)
    (hleft : ∀ lsc, self.LeftSwapChain = some lsc → index < lsc.Textures.length)
    (hfuel : sc.Textures.length ≤ fuel)
    (hfuelLeft : ∀ lsc, self.LeftSwapChain = some lsc → lsc.Textures.length ≤ fuel) :
    ∃ r, IncrementSwapChainIndex_RHIThread c fuel (index : Int) self = some r ∧
      r.MainIncrements ≤ sc.Textures.length ∧
      r.layer.SwapChain.map (fun x => x.SwapChainIndex) = some index ∧
      (∀ lsc, self.LeftSwapChain = some lsc →
        r.LeftIncrements ≤ lsc.Textures.length ∧
        r.layer.LeftSwapChain.map (fun x => x.SwapChainIndex) = some index) ∧
      (self.LeftSwapChain = none → r.layer.LeftSwapChain = none) := by
  obtain ⟨sc1, k, hs, hk, hi, -⟩ := spinSwapChain_terminates index sc fuel hidx hfuel
  cases hl : self.LeftSwapChain with
  | none =>
    refine ⟨⟨{ self with SwapChain := some sc1 }, k, 0⟩, ?_, hk, ?_, ?_, ?_⟩
    · simp [IncrementSwapChainIndex_RHIThread, hvis, hsc, hs, hl]
    · simp [hi]
    · intro lsc hc
      cases hc
    · intro _
      exact hl
  | some lsc =>
    obtain ⟨lsc1, kl, hls, hkl, hli, -⟩ :=
      spinSwapChain_terminates index lsc fuel (hleft lsc hl) (hfuelLeft lsc hl)
    refine ⟨⟨{ self with SwapChain := some sc1, LeftSwapChain := some lsc1 }, k, kl⟩,
      ?_, hk, ?_, ?_, ?_⟩
    · simp [IncrementSwapChainIndex_RHIThread, hvis, hsc, hs, hl, hls]
    · simp [hi]
    · intro lsc2 hc
      cases hc
      exact ⟨hkl, by simp [hli]⟩
    · intro hc
      cases hc

/-- C20, witness: the ring of three at index 0 is asked to reach index 2. -/
theorem IncrementSwapChainIndex_catches_up_witness :
    ∃ r, IncrementSwapChainIndex_RHIThread stdConsts 3 2 exRingLayer = some r ∧
      r.MainIncrements ≤ 3 ∧
      r.layer.SwapChain.map (fun x => x.SwapChainIndex) = some 2 := by
  obtain ⟨r, h1, h2, h3, -⟩ := IncrementSwapChainIndex_catches_up stdConsts exRingLayer
    (exRingLayer.SwapChain.get (by decide)) 2 3 (by decide) (by decide) (by decide) (by decide)
    (by decide) (by decide)
  exact ⟨r, h1, h2, h3⟩

/-! ## Failed creation, and the counter of native layer ids -/

lemma init_eq_reuseOrCreate (c : Consts) (h : Host) (sdk : PxrSDK) (st : RenderState)
    (self self1 : FPICOXRStereoLayer) (InLayer : Option FPICOXRStereoLayer)
    (hs : layerAtReuseTest c h self = some self1) :
    ∃ msaa ffr, InitPXRLayer_RenderThread c h sdk st self InLayer
      = reuseOrCreate c h sdk st self1 InLayer msaa ffr := by
  unfold layerAtReuseTest at hs
  unfold InitPXRLayer_RenderThread
  dsimp only at hs ⊢
  split_ifs at hs ⊢ <;> cases hs <;> exact ⟨_, _, rfl⟩

lemma layerAtReuseTest_fields (c : Consts) (h : Host) (self self1 : FPICOXRStereoLayer)
    (hs : layerAtReuseTest c h self = some self1) :
    self1.PxrLayer = self.PxrLayer ∧ self1.SwapChain = self.SwapChain ∧
    self1.LeftSwapChain = self.LeftSwapChain ∧
    self1.FoveationSwapChain = self.FoveationSwapChain ∧
    self1.bTextureNeedUpdate = self.bTextureNeedUpdate ∧ self1.PxrLayerID = self.PxrLayerID := by
  unfold layerAtReuseTest at hs
  dsimp only at hs
  split_ifs at hs <;> cases hs <;> simp

lemma init_zero_or_reuseOrCreate (c : Consts) (h : Host) (sdk : PxrSDK) (st : RenderState)
    (self : FPICOXRStereoLayer) (InLayer : Option FPICOXRStereoLayer) :
    (layerAtReuseTest c h self = none ∧
      (InitPXRLayer_RenderThread c h sdk st self InLayer).ret = false ∧
      (InitPXRLayer_RenderThread c h sdk st self InLayer).state = st) ∨
    ∃ self1 msaa ffr, layerAtReuseTest c h self = some self1 ∧
      InitPXRLayer_RenderThread c h sdk st self InLayer
        = reuseOrCreate c h sdk st self1 InLayer msaa ffr := by
  cases hs : layerAtReuseTest c h self with
  | some self1 =>
    obtain ⟨msaa, ffr, he⟩ := init_eq_reuseOrCreate c h sdk st self self1 InLayer hs
    exact Or.inr ⟨self1, msaa, ffr, rfl, he⟩
  | none =>
    left
    unfold layerAtReuseTest at hs
    unfold InitPXRLayer_RenderThread
    dsimp only at hs ⊢
    split_ifs at hs ⊢
    exact ⟨rfl, rfl, rfl⟩

/-- C21.  Line 442 is reached, reuse is not possible, and the SDK is not
initialised or `Pxr_CreateLayer` answers a non-zero status.  Then
`InitPXRLayer_RenderThread` returns false; the wrapper and the main, left-eye
and foveation swapchains of the layer are the ones it had before the call
(none is constructed), and `PxrLayerIDCounter` is unchanged. -/
theorem InitPXRLayer_creation_fails (c : Consts) (h : Host) (sdk : PxrSDK) (st : RenderState)
    (self self1 : FPICOXRStereoLayer) (InLayer : Option FPICOXRStereoLayer)
    (hs : layerAtReuseTest c h self = some self1)
    (hr : IfCanReuseLayers self1 InLayer = false)
    (hfail : sdk.Pxr_IsInitialized = false ∨
      sdk.Pxr_CreateLayer (stampLayerId self1 st.PxrLayerIDCounter).PxrLayerCreateParam ≠ 0) :
    (InitPXRLayer_RenderThread c h sdk st self InLayer).ret = false ∧
    (InitPXRLayer_RenderThread c h sdk st self InLayer).layer.PxrLayer = self.PxrLayer ∧
    (InitPXRLayer_RenderThread c h sdk st self InLayer).layer.SwapChain = self.SwapChain ∧
    (InitPXRLayer_RenderThread c h sdk st self InLayer).layer.LeftSwapChain
      = self.LeftSwapChain ∧
    (InitPXRLayer_RenderThread c h sdk st self InLayer).layer.FoveationSwapChain
      = self.FoveationSwapChain ∧
    (InitPXRLayer_RenderThread c h sdk st self InLayer).state.PxrLayerIDCounter
      = st.PxrLayerIDCounter := by
  obtain ⟨msaa, ffr, he⟩ := init_eq_reuseOrCreate c h sdk st self self1 InLayer hs
  obtain ⟨f1, f2, f3, f4, -, -⟩ := layerAtReuseTest_fields c h self self1 hs
  rw [he, reuseOrCreate_create c h sdk st self1 InLayer msaa ffr hr]
  rcases hfail with hi | hc
  · rw [hi]
    simp [stampLayerId, f1, f2, f3, f4]
  · by_cases hi : sdk.Pxr_IsInitialized = true
    · rw [if_pos hi, if_neg hc]
      simp [stampLayerId, logCreateLayer, f1, f2, f3, f4]
    · rw [if_neg hi]
      simp [stampLayerId, f1, f2, f3, f4]

/-- C21, witness: the example layer on an SDK whose creations fail. -/
theorem InitPXRLayer_creation_fails_witness :
    (InitPXRLayer_RenderThread stdConsts exHost exFailingSDK exState exLayer none).ret = false ∧
    (InitPXRLayer_RenderThread stdConsts exHost exFailingSDK exState exLayer none).layer.PxrLayer
      = none :=
  ⟨(InitPXRLayer_creation_fails stdConsts exHost exFailingSDK exState exLayer
      { exLayer with
        PxrLayerCreateParam :=
          completeCreateParam stdConsts exHost exLayer (resolveCreateParam stdConsts exHost exLayer) }
      none (by decide) (by decide) (Or.inr (by decide))).1,
   (InitPXRLayer_creation_fails stdConsts exHost exFailingSDK exState exLayer
      { exLayer with
        PxrLayerCreateParam :=
          completeCreateParam stdConsts exHost exLayer (resolveCreateParam stdConsts exHost exLayer) }
      none (by decide) (by decide) (Or.inr (by decide))).2.1⟩

lemma reuseOrCreate_counter (c : Consts) (h : Host) (sdk : PxrSDK) (st : RenderState)
    (self : FPICOXRStereoLayer) (InLayer : Option FPICOXRStereoLayer) (msaa : Int) (ffr : Bool) :
    (didCreate st (reuseOrCreate c h sdk st self InLayer msaa ffr) = true →
      (reuseOrCreate c h sdk st self InLayer msaa ffr).layer.PxrLayerID = st.PxrLayerIDCounter ∧
      (reuseOrCreate c h sdk st self InLayer msaa ffr).layer.PxrLayer
        = some ⟨st.PxrLayerIDCounter⟩ ∧
      (reuseOrCreate c h sdk st self InLayer msaa ffr).state.PxrLayerIDCounter
        = (st.PxrLayerIDCounter + 1) % 2 ^ 32) ∧
    (didCreate st (reuseOrCreate c h sdk st self InLayer msaa ffr) = false →
      (reuseOrCreate c h sdk st self InLayer msaa ffr).state.PxrLayerIDCounter
        = st.PxrLayerIDCounter) ∧
    ((reuseOrCreate c h sdk st self InLayer msaa ffr).ret = true →
      didCreate st (reuseOrCreate c h sdk st self InLayer msaa ffr) = false →
      ∃ prev, InLayer = some prev ∧ IfCanReuseLayers self InLayer = true ∧
        (reuseOrCreate c h sdk st self InLayer msaa ffr).layer.PxrLayerID = prev.PxrLayerID ∧
        (reuseOrCreate c h sdk st self InLayer msaa ffr).layer.PxrLayer = prev.PxrLayer) := by
  by_cases hr : IfCanReuseLayers self InLayer = true
  · cases InLayer with
    | none => simp [IfCanReuseLayers] at hr
    | some prev =>
      rw [reuseOrCreate_reuse c h sdk st self prev msaa ffr hr]
      obtain ⟨-, f2, f3, f4, -, -, -, -, -⟩ := finishInit_ret c (adoptLayer self prev) st
      refine ⟨?_, ?_, ?_⟩
      · intro hd
        simp [didCreate, f2] at hd
      · intro _
        rw [f2]
      · intro _ _
        exact ⟨prev, rfl, hr, by rw [f3]; rfl, by rw [f4]; rfl⟩
  · simp only [Bool.not_eq_true] at hr
    rw [reuseOrCreate_create c h sdk st self InLayer msaa ffr hr]
    by_cases hi : sdk.Pxr_IsInitialized = true
    · rw [if_pos hi]
      by_cases hc : sdk.Pxr_CreateLayer (stampLayerId self st.PxrLayerIDCounter).PxrLayerCreateParam = 0
      · rw [if_pos hc]
        obtain ⟨f1, f2, f3, f4, -, -, -, -, -⟩ :=
          finishInit_ret c (buildSwapChains c h sdk (stampLayerId self st.PxrLayerIDCounter) msaa ffr)
            (bumpCounter
              (logCreateLayer st (stampLayerId self st.PxrLayerIDCounter).PxrLayerCreateParam))
        have hdc : didCreate st
            (finishInit c (buildSwapChains c h sdk (stampLayerId self st.PxrLayerIDCounter) msaa ffr)
              (bumpCounter
                (logCreateLayer st (stampLayerId self st.PxrLayerIDCounter).PxrLayerCreateParam)))
            = true := by
          rw [didCreate, f1, f2]
          simp [bumpCounter, logCreateLayer]
        refine ⟨?_, ?_, ?_⟩
        · intro _
          rw [f2, f3, f4]
          simp [buildSwapChains, stampLayerId, bumpCounter, logCreateLayer]
        · intro hd
          rw [hdc] at hd
          cases hd
        · intro _ hd
          rw [hdc] at hd
          cases hd
      · rw [if_neg hc]
        simp [didCreate, logCreateLayer]
    · rw [if_neg hi]
      simp [didCreate]

lemma init_counter (c : Consts) (h : Host) (sdk : PxrSDK) (st : RenderState)
    (self : FPICOXRStereoLayer) (InLayer : Option FPICOXRStereoLayer) :
    (didCreate st (InitPXRLayer_RenderThread c h sdk st self InLayer) = true →
      (InitPXRLayer_RenderThread c h sdk st self InLayer).layer.PxrLayerID
        = st.PxrLayerIDCounter ∧
      (InitPXRLayer_RenderThread c h sdk st self InLayer).layer.PxrLayer
        = some ⟨st.PxrLayerIDCounter⟩ ∧
      (InitPXRLayer_RenderThread c h sdk st self InLayer).state.PxrLayerIDCounter
        = (st.PxrLayerIDCounter + 1) % 2 ^ 32) ∧
    (didCreate st (InitPXRLayer_RenderThread c h sdk st self InLayer) = false →
      (InitPXRLayer_RenderThread c h sdk st self InLayer).state.PxrLayerIDCounter
        = st.PxrLayerIDCounter) ∧
    ((InitPXRLayer_RenderThread c h sdk st self InLayer).ret = true →
      didCreate st (InitPXRLayer_RenderThread c h sdk st self InLayer) = false →
      ∃ prev, InLayer = some prev ∧
        (InitPXRLayer_RenderThread c h sdk st self InLayer).layer.PxrLayerID = prev.PxrLayerID ∧
        (InitPXRLayer_RenderThread c h sdk st self InLayer).layer.PxrLayer = prev.PxrLayer) := by
  rcases init_zero_or_reuseOrCreate c h sdk st self InLayer with ⟨-, hret, hst⟩ | ⟨self1, msaa, ffr, -, he⟩
  · refine ⟨?_, ?_, ?_⟩
    · intro hd
      simp [didCreate, hret] at hd
    · intro _
      rw [hst]
    · intro hr
      rw [hret] at hr
      cases hr
  · rw [he]
    obtain ⟨a, b, d⟩ := reuseOrCreate_counter c h sdk st self1 InLayer msaa ffr
    refine ⟨a, b, ?_⟩
    intro h1 h2
    obtain ⟨prev, e1, -, e3, e4⟩ := d h1 h2
    exact ⟨prev, e1, e3, e4⟩

lemma createdLayerIds_eq (c : Consts) (calls : List InitCall) :
    ∀ st : RenderState, createdLayerIds c st calls
      = countedIds st.PxrLayerIDCounter (createdLayerIds c st calls).length := by
  induction calls with
  | nil => intro st; simp [createdLayerIds, countedIds]
  | cons call rest ih =>
    intro st
    obtain ⟨a, b, -⟩ := init_counter c call.h call.sdk st call.self call.InLayer
    unfold createdLayerIds
    by_cases hd : didCreate st
        (InitPXRLayer_RenderThread c call.h call.sdk st call.self call.InLayer) = true
    · rw [if_pos hd]
      obtain ⟨e1, -, e3⟩ := a hd
      rw [List.length_cons, countedIds, ← e3, ← ih, e1]
    · rw [if_neg hd]
      simp only [Bool.not_eq_true] at hd
      have e := b hd
      have := ih (InitPXRLayer_RenderThread c call.h call.sdk st call.self call.InLayer).state
      rw [e] at this
      exact this

lemma countedIds_mem (n : Nat) :
    ∀ (c0 x : Nat), x ∈ countedIds ((c0 + 1) % 2 ^ 32) n →
      ∃ k, 1 ≤ k ∧ k ≤ n ∧ x = (c0 + k) % 2 ^ 32 := by
  induction n with
  | zero => intro c0 x hx; simp [countedIds] at hx
  | succ n ih =>
    intro c0 x hx
    rw [countedIds, List.mem_cons] at hx
    rcases hx with hx | hx
    · exact ⟨1, le_refl 1, by omega, hx⟩
    · obtain ⟨k, h1, h2, h3⟩ := ih ((c0 + 1) % 2 ^ 32) x hx
      refine ⟨k + 1, by omega, by omega, ?_⟩
      rw [h3]
      omega

lemma countedIds_nodup (n : Nat) : ∀ c0 : Nat, n ≤ 2 ^ 32 → (countedIds c0 n).Nodup := by
  induction n with
  | zero => intro c0 _; simp [countedIds]
  | succ n ih =>
    intro c0 hn
    rw [countedIds, List.nodup_cons]
    refine ⟨?_, ih _ (by omega)⟩
    intro hmem
    obtain ⟨k, h1, h2, h3⟩ := countedIds_mem n c0 c0 hmem
    omega

/-- C23, counterexample.  With the counter at the largest `uint32`, a
successful creation binds the layer to 4294967295 and leaves the counter at
0: the counter has decreased. -/
theorem PxrLayerIDCounter_wraps :
    didCreate exStateLastId
      (InitPXRLayer_RenderThread stdConsts exHost exSDK exStateLastId exLayer none) = true ∧
    (InitPXRLayer_RenderThread stdConsts exHost exSDK exStateLastId exLayer none).layer.PxrLayerID
      = 4294967295 ∧
    (InitPXRLayer_RenderThread stdConsts exHost exSDK exStateLastId exLayer
      none).state.PxrLayerIDCounter = 0 ∧
    (InitPXRLayer_RenderThread stdConsts exHost exSDK exStateLastId exLayer
      none).state.PxrLayerIDCounter < exStateLastId.PxrLayerIDCounter := by
  decide

/-- C23, amended.  Every successful native creation in
`InitPXRLayer_RenderThread` binds the layer, and its wrapper, to the current
value of `PxrLayerIDCounter` and then increments the counter by one modulo
2^32.  No call writes the counter in any other way, so it never decreases
short of the wrap from 2^32 - 1 to 0.  Hence the ids bound by the successful
creations of a run of calls are pairwise distinct as long as there are at most
2^32 of them.  A call that returns true without creating has taken the id and
the wrapper of the previous snapshot: an id is shared only through reuse. -/
theorem PxrLayerIDCounter_hands_out_distinct_ids (c : Consts) (h : Host) (sdk : PxrSDK)
    (st : RenderState) (self : FPICOXRStereoLayer) (InLayer : Option FPICOXRStereoLayer)
    (calls : List InitCall) :
    (didCreate st (InitPXRLayer_RenderThread c h sdk st self InLayer) = true →
      (InitPXRLayer_RenderThread c h sdk st self InLayer).layer.PxrLayerID
        = st.PxrLayerIDCounter ∧
      (InitPXRLayer_RenderThread c h sdk st self InLayer).layer.PxrLayer
        = some ⟨st.PxrLayerIDCounter⟩ ∧
      (InitPXRLayer_RenderThread c h sdk st self InLayer).state.PxrLayerIDCounter
        = (st.PxrLayerIDCounter + 1) % 2 ^ 32) ∧
    (didCreate st (InitPXRLayer_RenderThread c h sdk st self InLayer) = false →
      (InitPXRLayer_RenderThread c h sdk st self InLayer).state.PxrLayerIDCounter
        = st.PxrLayerIDCounter) ∧
    (st.PxrLayerIDCounter + 1 < 2 ^ 32 →
      st.PxrLayerIDCounter
        ≤ (InitPXRLayer_RenderThread c h sdk st self InLayer).state.PxrLayerIDCounter) ∧
    ((createdLayerIds c st calls).length ≤ 2 ^ 32 → (createdLayerIds c st calls).Nodup) ∧
    ((InitPXRLayer_RenderThread c h sdk st self InLayer).ret = true →
      didCreate st (InitPXRLayer_RenderThread c h sdk st self InLayer) = false →
      ∃ prev, InLayer = some prev ∧
        (InitPXRLayer_RenderThread c h sdk st self InLayer).layer.PxrLayerID = prev.PxrLayerID ∧
        (InitPXRLayer_RenderThread c h sdk st self InLayer).layer.PxrLayer = prev.PxrLayer) := by
  obtain ⟨a, b, d⟩ := init_counter c h sdk st self InLayer
  refine ⟨a, b, ?_, ?_, d⟩
  · intro hlt
    cases hd : didCreate st (InitPXRLayer_RenderThread c h sdk st self InLayer) with
    | true =>
      rw [(a hd).2.2, Nat.mod_eq_of_lt hlt]
      exact Nat.le_succ _
    | false => rw [b hd]
  · intro hlen
    rw [createdLayerIds_eq c calls st]
    exact countedIds_nodup _ _ hlen

/-! ## What the create-params depend on -/

lemma resolveCreateParam_congr (c : Consts) (h : Host) (A B : FPICOXRStereoLayer)
    (hDesc : A.LayerDesc = B.LayerDesc)
    (hP : A.PxrLayerCreateParam = B.PxrLayerCreateParam) :
    resolveCreateParam c h A = resolveCreateParam c h B := by
  unfold resolveCreateParam GetShapeType IsLayerSupportDepth
  rw [hDesc, hP]

lemma completeCreateParam_congr (c : Consts) (h : Host) (A B : FPICOXRStereoLayer)
    (p : PxrLayerParam) (hDesc : A.LayerDesc = B.LayerDesc)
    (hSplash : A.bSplashLayer = B.bSplashLayer) :
    completeCreateParam c h A p = completeCreateParam c h B p := by
  unfold completeCreateParam
  rw [hDesc, hSplash]

lemma createParam_layerFlags (c : Consts) (h : Host) (A : FPICOXRStereoLayer) :
    (completeCreateParam c h A (resolveCreateParam c h A)).layerFlags =
      (if (A.bSplashLayer && h.RHIString == "Vulkan")
          || !hasFlag A.LayerDesc.Flags c.LAYER_FLAG_TEX_CONTINUOUS_UPDATE then
        A.PxrLayerCreateParam.layerFlags ||| c.PXR_LAYER_FLAG_STATIC_IMAGE
       else A.PxrLayerCreateParam.layerFlags) ∧
    (completeCreateParam c h A (resolveCreateParam c h A)).layerId
      = A.PxrLayerCreateParam.layerId := by
  have hk : (resolveCreateParam c h A).layerFlags = A.PxrLayerCreateParam.layerFlags ∧
      (resolveCreateParam c h A).layerId = A.PxrLayerCreateParam.layerId := by
    unfold resolveCreateParam
    cases hY : A.LayerDesc.Texture with
    | none => simp
    | some T =>
      dsimp only
      cases h2 : T.GetTexture2D with
      | some t2 => simp
      | none => cases h3 : T.GetTextureCube <;> simp
  rw [← hk.1, ← hk.2]
  unfold completeCreateParam
  split_ifs <;> simp

lemma resolveCreateParam_size_resolved (c : Consts) (h : Host) (A B : FPICOXRStereoLayer)
    (hDesc : A.LayerDesc = B.LayerDesc)
    (hres : A.LayerDesc.Texture = none ∨
      ∃ t, A.LayerDesc.Texture = some t ∧
        (t.GetTexture2D.isSome = true ∨ t.GetTextureCube.isSome = true)) :
    (resolveCreateParam c h A).width = (resolveCreateParam c h B).width ∧
    (resolveCreateParam c h A).height = (resolveCreateParam c h B).height ∧
    (resolveCreateParam c h A).sampleCount = (resolveCreateParam c h B).sampleCount ∧
    (resolveCreateParam c h A).mipmapCount = (resolveCreateParam c h B).mipmapCount := by
  unfold resolveCreateParam
  rw [← hDesc]
  rcases hres with hn | ⟨t, ht, hv⟩
  · simp [hn]
  · rw [ht]
    dsimp only
    cases h2 : t.GetTexture2D with
    | some t2 => simp
    | none =>
      cases h3 : t.GetTextureCube with
      | some tc => simp
      | none => simp [h2, h3] at hv

lemma layerAtReuseTest_param (c : Consts) (h : Host) (A A1 : FPICOXRStereoLayer)
    (hID : A.ID ≠ 0) (hBlack : A.bSplashBlackProjectionLayer = false)
    (hA : layerAtReuseTest c h A = some A1) :
    A1.PxrLayerCreateParam = completeCreateParam c h A (resolveCreateParam c h A) := by
  unfold layerAtReuseTest at hA
  dsimp only at hA
  rw [if_neg hID] at hA
  simp only [hBlack, Bool.not_false, if_true] at hA
  split_ifs at hA
  cases hA
  rfl

/-- C25, counterexample.  Two layers with the same description (continuous
updates asked for), the same splash flag and the same backend, initialised
from the same state: the one whose create-params already carried the
static-image flag keeps it, the other has `layerFlags` 0. -/
theorem createParam_keeps_earlier_static_flag :
    exLayer2.LayerDesc = exLayer2Static.LayerDesc ∧
    exLayer2.bSplashLayer = exLayer2Static.bSplashLayer ∧
    (InitPXRLayer_RenderThread stdConsts exHost exSDK exState exLayer2
      none).layer.PxrLayerCreateParam.layerFlags = 0 ∧
    (InitPXRLayer_RenderThread stdConsts exHost exSDK exState exLayer2Static
      none).layer.PxrLayerCreateParam.layerFlags = 4 ∧
    (InitPXRLayer_RenderThread stdConsts exHost exSDK exState exLayer2 none).layer.PxrLayerCreateParam
      ≠ (InitPXRLayer_RenderThread stdConsts exHost exSDK exState exLayer2Static
          none).layer.PxrLayerCreateParam := by
  decide

/-- C25, amended.  The create-params a non-projection layer has when line
442 is reached are a function of its description, its splash flag, the
renderer capabilities and the create-params it held before the call.  For two
layers `A`, `B` with equal descriptions and splash flags on the same host:
shape, type, face count, array size and layout always agree; width, height,
sample and mip count agree when the texture is invalid or has a 2D or cube
view; the format agrees on OpenGL and Vulkan; `layerFlags` is the earlier
value with the static-image flag OR-ed in when the layer is static, so it
agrees when the earlier values do; and with equal earlier create-params the
two results are identical. -/
theorem createParam_determined (c : Consts) (h : Host) (A B A1 B1 : FPICOXRStereoLayer)
    (hIDA : A.ID ≠ 0) (hBlackA : A.bSplashBlackProjectionLayer = false)
    (hIDB : B.ID ≠ 0) (hBlackB : B.bSplashBlackProjectionLayer = false)
    (hDesc : A.LayerDesc = B.LayerDesc) (hSplash : A.bSplashLayer = B.bSplashLayer)
    (hA : layerAtReuseTest c h A = some A1) (hB : layerAtReuseTest c h B = some B1) :
    (A1.PxrLayerCreateParam.layerShape = B1.PxrLayerCreateParam.layerShape ∧
     A1.PxrLayerCreateParam.layerType = B1.PxrLayerCreateParam.layerType ∧
     A1.PxrLayerCreateParam.faceCount = B1.PxrLayerCreateParam.faceCount ∧
     A1.PxrLayerCreateParam.arraySize = B1.PxrLayerCreateParam.arraySize ∧
     A1.PxrLayerCreateParam.layerLayout = B1.PxrLayerCreateParam.layerLayout) ∧
    ((A.LayerDesc.Texture = none ∨
        ∃ t, A.LayerDesc.Texture = some t ∧
          (t.GetTexture2D.isSome = true ∨ t.GetTextureCube.isSome = true)) →
      A1.PxrLayerCreateParam.width = B1.PxrLayerCreateParam.width ∧
      A1.PxrLayerCreateParam.height = B1.PxrLayerCreateParam.height ∧
      A1.PxrLayerCreateParam.sampleCount = B1.PxrLayerCreateParam.sampleCount ∧
      A1.PxrLayerCreateParam.mipmapCount = B1.PxrLayerCreateParam.mipmapCount) ∧
    ((h.RHIString = "OpenGL" ∨ h.RHIString = "Vulkan") →
      A1.PxrLayerCreateParam.format = B1.PxrLayerCreateParam.format) ∧
    A1.PxrLayerCreateParam.layerFlags =
      (if (A.bSplashLayer && h.RHIString == "Vulkan")
          || !hasFlag A.LayerDesc.Flags c.LAYER_FLAG_TEX_CONTINUOUS_UPDATE then
        A.PxrLayerCreateParam.layerFlags ||| c.PXR_LAYER_FLAG_STATIC_IMAGE
       else A.PxrLayerCreateParam.layerFlags) ∧
    (A.PxrLayerCreateParam.layerFlags = B.PxrLayerCreateParam.layerFlags →
      A1.PxrLayerCreateParam.layerFlags = B1.PxrLayerCreateParam.layerFlags) ∧
    (A.PxrLayerCreateParam = B.PxrLayerCreateParam →
      A1.PxrLayerCreateParam = B1.PxrLayerCreateParam) := by
  rw [layerAtReuseTest_param c h A A1 hIDA hBlackA hA,
    layerAtReuseTest_param c h B B1 hIDB hBlackB hB]
  have cA := completeCreateParam_faceCount c h A (resolveCreateParam c h A)
  have cB := completeCreateParam_faceCount c h B (resolveCreateParam c h B)
  have lA := completeCreateParam_layout_format c h A (resolveCreateParam c h A)
  have lB := completeCreateParam_layout_format c h B (resolveCreateParam c h B)
  have kA := resolveCreateParam_kept c h A
  have kB := resolveCreateParam_kept c h B
  have fA := createParam_layerFlags c h A
  have fB := createParam_layerFlags c h B
  have hshape : GetShapeType A = GetShapeType B := by
    unfold GetShapeType
    rw [hDesc]
  have hdepth : IsLayerSupportDepth h A = IsLayerSupportDepth h B := by
    unfold IsLayerSupportDepth
    rw [hDesc]
  have hs : (resolveCreateParam c h A).layerShape = (resolveCreateParam c h B).layerShape := by
    rw [kA.2.1, kB.2.1, hshape]
  refine ⟨⟨?_, ?_, ?_, ?_, ?_⟩, ?_, ?_, fA.1, ?_, ?_⟩
  · rw [cA.2.2.1, cB.2.2.1, hs]
  · rw [cA.2.2.2.1, cB.2.2.2.1, kA.2.2, kB.2.2, hdepth]
  · rw [cA.1, cB.1, hs]
  · rw [cA.2.1, cB.2.1]
  · rw [lA.1, lB.1, hDesc]
  · intro hres
    obtain ⟨s1, s2, s3, s4⟩ := resolveCreateParam_size_resolved c h A B hDesc hres
    exact ⟨by rw [cA.2.2.2.2.1, cB.2.2.2.2.1, s1], by rw [cA.2.2.2.2.2.1, cB.2.2.2.2.2.1, s2],
      by rw [cA.2.2.2.2.2.2.1, cB.2.2.2.2.2.2.1, s3], by rw [cA.2.2.2.2.2.2.2, cB.2.2.2.2.2.2.2, s4]⟩
  · intro hrhi
    rw [lA.2, lB.2]
    rcases hrhi with hg | hv
    · simp [hg]
    · simp [hv]
  · intro hf
    rw [fA.1, fB.1, hDesc, hSplash, hf]
  · intro hP
    rw [resolveCreateParam_congr c h A B hDesc hP,
      completeCreateParam_congr c h A B _ hDesc hSplash]

/-- C25, witness: the two example layers of frame 2, one fresh and one with
the static-image flag set before. -/
theorem createParam_determined_witness :
    exLayer2AtTest.PxrLayerCreateParam.layerLayout = 3 ∧
    exLayer2AtTest.PxrLayerCreateParam.width = 512 ∧
    exLayer2AtTest.PxrLayerCreateParam.layerShape
      = (completeCreateParam stdConsts exHost exLayer2Static
          (resolveCreateParam stdConsts exHost exLayer2Static)).layerShape :=
  ⟨by decide, by decide,
   (createParam_determined stdConsts exHost exLayer2 exLayer2Static exLayer2AtTest
      { exLayer2Static with
        PxrLayerCreateParam :=
          completeCreateParam stdConsts exHost exLayer2Static
            (resolveCreateParam stdConsts exHost exLayer2Static) }
      (by decide) rfl (by decide) rfl (by decide) rfl (by decide) (by decide)).1.1⟩


/-! ## Completed tasks, and registered notification types -/

/-- C22, counterexample.  A task already complete is still changed by later
calls: the timed-out task (complete, failed, delegate still bound) that then
receives a message is marked successful and its delegate is executed; the
task completed by a message is marked failed by a later `Tick` past the
timeout. -/
theorem completed_task_is_not_terminal :
    exTaskTimedOut.bIsComplete = true ∧ exTaskTimedOut.bWasSuccessful = false ∧
    (exTaskTimedOut.TaskReceiveMessage (some 500) false).1.bWasSuccessful = true ∧
    (exTaskTimedOut.TaskReceiveMessage (some 500) false).2 =
      [OnlineEvent.ExecuteDelegate 70 (some 500) false, OnlineEvent.FreeMessage (some 500)] ∧
    exTaskDone.bIsComplete = true ∧ exTaskDone.bWasSuccessful = true ∧
    (exTaskDone.Tick 0 10).bWasSuccessful = false := by
  decide

/-- C22, amended.  `bIsComplete`, once true, stays true under every later
`Tick` and `TaskReceiveMessage`.  `Tick` never touches the completion
delegate.  `TaskReceiveMessage` executes the delegate only when it is bound,
and a task completed by a non-null message has its delegate unbound: no
later `Tick` or `TaskReceiveMessage` executes a completion delegate for it.
The success flag itself is written again by such later calls. -/
theorem completed_task_later_calls (self : FOnlineAsyncTaskPico) (GetAccessToken : Nat)
    (ElapsedTime : ℚ) (Handle : Option Nat) (isError : Bool) :
    (self.bIsComplete = true → (self.Tick GetAccessToken ElapsedTime).bIsComplete = true) ∧
    (self.TaskReceiveMessage Handle isError).1.bIsComplete = true ∧
    (self.Tick GetAccessToken ElapsedTime).Delegate = self.Delegate ∧
    (self.Delegate = none →
      (self.TaskReceiveMessage Handle isError).2.filter OnlineEvent.isCallback = []) ∧
    (∀ m, (self.TaskReceiveMessage (some m) isError).1.Delegate = none) ∧
    (∀ m Handle2 isError2 G E,
      ((self.TaskReceiveMessage (some m) isError).1.TaskReceiveMessage Handle2 isError2).2.filter
        OnlineEvent.isCallback = [] ∧
      ((((self.TaskReceiveMessage (some m) isError).1.Tick G E).TaskReceiveMessage Handle2
        isError2).2.filter OnlineEvent.isCallback = [])) := by
  have hno : ∀ (T : FOnlineAsyncTaskPico) (H : Option Nat) (e : Bool), T.Delegate = none →
      (T.TaskReceiveMessage H e).2.filter OnlineEvent.isCallback = [] := by
    intro T H e hT
    unfold FOnlineAsyncTaskPico.TaskReceiveMessage
    cases H <;> simp [hT, OnlineEvent.isCallback]
  have hunbound : ∀ m, (self.TaskReceiveMessage (some m) isError).1.Delegate = none := by
    intro m
    simp [FOnlineAsyncTaskPico.TaskReceiveMessage]
  have htick : ∀ (T : FOnlineAsyncTaskPico) (G : Nat) (E : ℚ), (T.Tick G E).Delegate = T.Delegate := by
    intro T G E
    unfold FOnlineAsyncTaskPico.Tick
    split_ifs <;> rfl
  refine ⟨?_, ?_, htick self _ _, hno self Handle isError, hunbound, ?_⟩
  · intro hc
    unfold FOnlineAsyncTaskPico.Tick
    split_ifs
    · rfl
    · exact hc
    · exact hc
  · unfold FOnlineAsyncTaskPico.TaskReceiveMessage
    cases Handle <;> simp
  · intro m Handle2 isError2 G E
    exact ⟨hno _ _ _ (hunbound m), hno _ _ _ (by rw [htick]; exact hunbound m)⟩

lemma lookup_append_one (l : List (Nat × List Nat)) (t k : Nat) (v : List Nat) :
    (l ++ [(t, v)]).lookup k =
      match l.lookup k with
      | some x => some x
      | none => if k = t then some v else none := by
  induction l with
  | nil =>
    by_cases hk : k = t
    · subst hk
      simp [List.lookup]
    · have : (k == t) = false := by simpa using hk
      simp [List.lookup, this, hk]
  | cons e es ih =>
    obtain ⟨a, b⟩ := e
    by_cases hka : k = a
    · subst hka
      simp [List.lookup]
    · have : (k == a) = false := by simpa using hka
      simp only [List.cons_append, List.lookup_cons, this, ih]

lemma lookup_FindOrAdd (Map : List (Nat × List Nat)) (t k : Nat) :
    (FindOrAdd Map t).lookup k = if k = t then some ((Map.lookup t).getD []) else Map.lookup k := by
  unfold FindOrAdd
  cases hm : Map.lookup t with
  | some v =>
    by_cases hk : k = t
    · subst hk
      simp [hm]
    · simp [hk]
  | none =>
    simp only [lookup_append_one, Option.getD_none]
    by_cases hk : k = t
    · subst hk
      simp [hm]
    · simp only [hk, if_false]
      cases Map.lookup k <;> rfl

lemma lookup_map_value (l : List (Nat × List Nat)) (f : Nat → List Nat → List Nat) (k : Nat) :
    (l.map (fun e => (e.1, f e.1 e.2))).lookup k = (l.lookup k).map (f k) := by
  induction l with
  | nil => simp
  | cons e es ih =>
    obtain ⟨a, b⟩ := e
    by_cases hka : k = a
    · subst hka
      simp [List.lookup]
    · have : (k == a) = false := by simpa using hka
      simp only [List.map_cons, List.lookup_cons, this, ih]

lemma TickTask_notify (self : FOnlineAsyncTaskManagerPico) (m : ppfMessage)
    (rest : List ppfMessage) (D : List Nat)
    (hT : self.RequestTaskMap.lookup m.RequestID = none)
    (hN : self.NotificationMap.lookup m.MessageType = some D) :
    TickTask self (m :: rest) =
      ⟨self, rest, [OnlineEvent.Broadcast D (some m.Handle) m.IsError]⟩ := by
  simp [TickTask, hT, hN, FOnlineAsyncEventPico_TriggerDelegates]

lemma lookup_RemoveNotifyDelegate (self : FOnlineAsyncTaskManagerPico) (t d k : Nat) :
    (RemoveNotifyDelegate self t d).NotificationMap.lookup k =
      ((FindOrAdd self.NotificationMap t).lookup k).map
        (fun v => if k = t then v.filter (fun x => x != d) else v) := by
  exact lookup_map_value (FindOrAdd self.NotificationMap t)
    (fun key v => if key = t then v.filter (fun x => x != d) else v) k

/-- C30.  `RemoveNotifyDelegate(type, handle)` removes no key from the
notification map, and leaves the key `type` in it, with an empty delegate
list when it was absent; `GetOrAddNotifyDelegate(type)` leaves the key in it
as well.  After either call, a message of that type that matches no pending
task is not dropped by `TickTask` but broadcast to the delegate list of the
type, which is empty when the key was absent before. -/
theorem RemoveNotifyDelegate_keeps_key (self : FOnlineAsyncTaskManagerPico) (t d : Nat) :
    (∀ k, (self.NotificationMap.lookup k).isSome = true →
      ((RemoveNotifyDelegate self t d).NotificationMap.lookup k).isSome = true) ∧
    ((RemoveNotifyDelegate self t d).NotificationMap.lookup t).isSome = true ∧
    (self.NotificationMap.lookup t = none →
      (RemoveNotifyDelegate self t d).NotificationMap.lookup t = some []) ∧
    ((GetOrAddNotifyDelegate self t).NotificationMap.lookup t).isSome = true ∧
    (self.NotificationMap.lookup t = none →
      (GetOrAddNotifyDelegate self t).NotificationMap.lookup t = some []) ∧
    (∀ mgr, (mgr = RemoveNotifyDelegate self t d ∨ mgr = GetOrAddNotifyDelegate self t) →
      ∀ (pre rest : List ppfMessage) (m : ppfMessage),
        (∀ x ∈ pre, isDropped mgr x = true) → m.MessageType = t →
        mgr.RequestTaskMap.lookup m.RequestID = none →
        isDropped mgr m = false ∧
        ∃ D, (TickTask mgr (pre ++ m :: rest)).Events =
            dropEvents pre ++ [OnlineEvent.Broadcast D (some m.Handle) m.IsError] ∧
          (self.NotificationMap.lookup t = none → D = [])) := by
  have hR : ∀ k, (RemoveNotifyDelegate self t d).NotificationMap.lookup k =
      (if k = t then some ((self.NotificationMap.lookup t).getD []) else
        self.NotificationMap.lookup k).map
        (fun v => if k = t then v.filter (fun x => x != d) else v) := by
    intro k
    rw [lookup_RemoveNotifyDelegate, lookup_FindOrAdd]
  have hG : ∀ k, (GetOrAddNotifyDelegate self t).NotificationMap.lookup k =
      if k = t then some ((self.NotificationMap.lookup t).getD []) else
        self.NotificationMap.lookup k := by
    intro k
    exact lookup_FindOrAdd self.NotificationMap t k
  have hRt : ((RemoveNotifyDelegate self t d).NotificationMap.lookup t).isSome = true := by
    rw [hR]
    simp
  have hGt : ((GetOrAddNotifyDelegate self t).NotificationMap.lookup t).isSome = true := by
    rw [hG]
    simp
  have hRn : self.NotificationMap.lookup t = none →
      (RemoveNotifyDelegate self t d).NotificationMap.lookup t = some [] := by
    intro hn
    rw [hR, hn]
    simp
  have hGn : self.NotificationMap.lookup t = none →
      (GetOrAddNotifyDelegate self t).NotificationMap.lookup t = some [] := by
    intro hn
    rw [hG, hn]
    simp
  refine ⟨?_, hRt, hRn, hGt, hGn, ?_⟩
  · intro k hk
    rw [hR]
    by_cases hkt : k = t
    · simp [hkt]
    · simpa [hkt] using hk
  · intro mgr hmgr pre rest m hpre hmt hno
    have hkey : (mgr.NotificationMap.lookup t).isSome = true ∧
        (self.NotificationMap.lookup t = none → mgr.NotificationMap.lookup t = some []) := by
      rcases hmgr with rfl | rfl
      · exact ⟨hRt, hRn⟩
      · exact ⟨hGt, hGn⟩
    obtain ⟨D, hD⟩ := Option.isSome_iff_exists.mp hkey.1
    have hDm : mgr.NotificationMap.lookup m.MessageType = some D := by rw [hmt]; exact hD
    refine ⟨by simp [isDropped, hDm], D, ?_, ?_⟩
    · rw [TickTask_drop_run mgr pre (m :: rest) hpre, TickTask_notify mgr m rest D hno hDm]
    · intro hn
      have := hkey.2 hn
      rw [hD] at this
      exact Option.some.inj this

/-! ## Deferred deletion -/

lemma runDeletion_balance (ops : List RenderOp) :
    ∀ (q : FDelayDeleteLayerManager) (id : Nat),
      (runDeletion q ops).2.count id + (runDeletion q ops).1.Queue.count id
        = q.Queue.count id + destroyedWrappers id ops := by
  induction ops with
  | nil => intro q id; simp [runDeletion, destroyedWrappers]
  | cons op rest ih =>
    intro q id
    cases op with
    | DestroyWrapper b w =>
      rw [runDeletion, ih, destroyedWrappers]
      cases b <;>
        simp [FPxrLayer.destructor, FDelayDeleteLayerManager.AddPxrLayerToDeferredDeletionQueue,
          List.count_append, List.count_cons] <;> omega
    | FrameEnd =>
      simp only [runDeletion, destroyedWrappers, List.count_append]
      have := ih q.drainAtFrameEnd.1 id
      simp only [FDelayDeleteLayerManager.drainAtFrameEnd, List.count_nil] at this ⊢
      omega

lemma runDeletion_no_frame_end (ops : List RenderOp) :
    ∀ q : FDelayDeleteLayerManager, (∀ op ∈ ops, op ≠ RenderOp.FrameEnd) →
      (runDeletion q ops).2 = [] := by
  induction ops with
  | nil => intro q _; rfl
  | cons op rest ih =>
    intro q hno
    cases op with
    | DestroyWrapper b w =>
      rw [runDeletion]
      exact ih _ (fun o ho => hno o (List.mem_cons_of_mem _ ho))
    | FrameEnd => exact absurd rfl (hno RenderOp.FrameEnd (List.mem_cons_self _ _))

lemma runDeletion_ends_drained (ops : List RenderOp) :
    ∀ q : FDelayDeleteLayerManager, (runDeletion q (ops ++ [RenderOp.FrameEnd])).1.Queue = [] := by
  induction ops with
  | nil => intro q; simp [runDeletion, FDelayDeleteLayerManager.drainAtFrameEnd]
  | cons op rest ih =>
    intro q
    cases op with
    | DestroyWrapper b w =>
      rw [List.cons_append, runDeletion]
      exact ih _
    | FrameEnd =>
      rw [List.cons_append, runDeletion]
      exact ih _

/-- C24.  Destroying an `FPxrLayer` wrapper makes exactly one call of
`AddPxrLayerToDeferredDeletionQueue`, with the wrapper's native layer id,
wrapped in `ExecuteOnRenderThread` exactly when the destructor runs on the
game thread.  On the queue: no id is handed to the native destroy entry point
before a frame reaches its drain point; every enqueued id is destroyed at most
once, and exactly once as soon as a drain point has followed, the number of
destructions of an id being the number of destroyed wrappers of that id. -/
theorem deferred_deletion_once (IsInGameThread : Bool) (w : FPxrLayer)
    (ops : List RenderOp) (id : Nat) :
    w.destructor IsInGameThread = [⟨w.PxrLayerId, IsInGameThread⟩] ∧
    ((∀ op ∈ ops, op ≠ RenderOp.FrameEnd) → (runDeletion ⟨[]⟩ ops).2 = []) ∧
    (runDeletion ⟨[]⟩ ops).2.count id ≤ destroyedWrappers id ops ∧
    (runDeletion ⟨[]⟩ ops).2.count id + (runDeletion ⟨[]⟩ ops).1.Queue.count id
      = destroyedWrappers id ops ∧
    (runDeletion ⟨[]⟩ (ops ++ [RenderOp.FrameEnd])).2.count id
      = destroyedWrappers id (ops ++ [RenderOp.FrameEnd]) ∧
    (runDeletion ⟨[]⟩ ([RenderOp.DestroyWrapper IsInGameThread w, RenderOp.FrameEnd])).2
      = [w.PxrLayerId] := by
  have hb := runDeletion_balance ops ⟨[]⟩ id
  have hb2 := runDeletion_balance (ops ++ [RenderOp.FrameEnd]) ⟨[]⟩ id
  rw [runDeletion_ends_drained ops ⟨[]⟩] at hb2
  simp only [List.count_nil, Nat.add_zero, Nat.zero_add] at hb hb2
  refine ⟨?_, runDeletion_no_frame_end ops ⟨[]⟩, by omega, hb, hb2, ?_⟩
  · cases IsInGameThread <;> rfl
  · cases IsInGameThread <;> rfl

/-! ## Cube mesh -/

lemma CreateUnderlayMesh_cubemap_eq (c : Consts) (h : Host) (self : FPICOXRStereoLayer)
    (m : UnderlayMesh) (hq : self.LayerDesc.Shape = LayerShape.Cubemap) :
    CreateUnderlayMesh c h self m =
      { Vertices :=
          [ ⟨-1000, -1000, -1000⟩, ⟨-1000, -1000, 1000⟩, ⟨-1000, 1000, -1000⟩,
            ⟨-1000, 1000, 1000⟩, ⟨1000, -1000, -1000⟩, ⟨1000, -1000, 1000⟩,
            ⟨1000, 1000, -1000⟩, ⟨1000, 1000, 1000⟩ ]
        Triangles := m.Triangles ++
          [ 0, 1, 3, 0, 3, 2, 4, 7, 5, 4, 6, 7, 0, 5, 1, 0, 4, 5,
            2, 3, 7, 2, 7, 6, 0, 2, 6, 0, 6, 4, 1, 7, 3, 1, 5, 7 ]
        UV0 := m.UV0 } := by
  unfold CreateUnderlayMesh
  rw [hq]
  simp only [AddFaceIndices, List.replicate, List.set, FVector.scale, Bool.false_eq_true,
    if_false, if_true, List.append_assoc, List.cons_append, List.nil_append]
  norm_num

/-- C26.  For a cubemap layer, `CreateUnderlayMesh` called on fresh arrays
gives the eight vertices (+-1000, +-1000, +-1000), and 36 indices making 12
triangles, two per face, all indices in 0..7; for every triangle (a, b, c)
the cross product (b - a) x (c - a) has a strictly positive dot product with
the centroid of the triangle. -/
theorem CreateUnderlayMesh_cubemap (c : Consts) (h : Host) (self : FPICOXRStereoLayer)
    (hq : self.LayerDesc.Shape = LayerShape.Cubemap) :
    (CreateUnderlayMesh c h self ⟨[], [], []⟩).Vertices =
      [ ⟨-1000, -1000, -1000⟩, ⟨-1000, -1000, 1000⟩, ⟨-1000, 1000, -1000⟩,
        ⟨-1000, 1000, 1000⟩, ⟨1000, -1000, -1000⟩, ⟨1000, -1000, 1000⟩,
        ⟨1000, 1000, -1000⟩, ⟨1000, 1000, 1000⟩ ] ∧
    (CreateUnderlayMesh c h self ⟨[], [], []⟩).Triangles.length = 36 ∧
    trianglesOf (CreateUnderlayMesh c h self ⟨[], [], []⟩).Triangles =
      [ (0, 1, 3), (0, 3, 2), (4, 7, 5), (4, 6, 7), (0, 5, 1), (0, 4, 5),
        (2, 3, 7), (2, 7, 6), (0, 2, 6), (0, 6, 4), (1, 7, 3), (1, 5, 7) ] ∧
    (∀ i ∈ (CreateUnderlayMesh c h self ⟨[], [], []⟩).Triangles, 0 ≤ i ∧ i < 8) ∧
    (∀ t ∈ trianglesOf (CreateUnderlayMesh c h self ⟨[], [], []⟩).Triangles,
      0 < outwardness (CreateUnderlayMesh c h self ⟨[], [], []⟩).Vertices t) := by
  rw [CreateUnderlayMesh_cubemap_eq c h self ⟨[], [], []⟩ hq]
  refine ⟨rfl, rfl, ?_, ?_, ?_⟩
  · simp [trianglesOf]
  · intro i hi
    simp only [List.nil_append, List.mem_cons, List.mem_singleton, List.not_mem_nil,
      or_false] at hi
    omega
  · intro t ht
    simp only [List.nil_append, trianglesOf, List.mem_cons, List.mem_singleton,
      List.not_mem_nil, or_false] at ht
    rcases ht with rfl | rfl | rfl | rfl | rfl | rfl | rfl | rfl | rfl | rfl | rfl | rfl <;>
      norm_num [outwardness, vertexAt, FVector.dot, FVector.cross, FVector.sub, FVector.add,
        FVector.scale, (show Int.toNat 0 = 0 from rfl), (show Int.toNat 1 = 1 from rfl),
        (show Int.toNat 2 = 2 from rfl), (show Int.toNat 3 = 3 from rfl),
        (show Int.toNat 4 = 4 from rfl), (show Int.toNat 5 = 5 from rfl),
        (show Int.toNat 6 = 6 from rfl), (show Int.toNat 7 = 7 from rfl)]

/-- C26, witness: the example cubemap layer has 36 indices. -/
theorem CreateUnderlayMesh_cubemap_witness :
    (CreateUnderlayMesh stdConsts exHost exLayerCubemap ⟨[], [], []⟩).Triangles.length = 36 :=
  (CreateUnderlayMesh_cubemap stdConsts exHost exLayerCubemap rfl).2.1

/-! ## Cylinder mesh -/

lemma cylinderBody_lengths (h : Host) (R : ℚ) (HH : FVector) (cs a : ℚ) (Sides : Int)
    (s : CylinderLoop) (Side : Nat) :
    (cylinderBody h R HH cs a Sides s Side).Vertices.length = s.Vertices.length ∧
    (cylinderBody h R HH cs a Sides s Side).UV0.length = s.UV0.length ∧
    (cylinderBody h R HH cs a Sides s Side).Triangles.length = s.Triangles.length := by
  unfold cylinderBody
  dsimp only
  refine ⟨by simp only [List.length_set], by simp only [List.length_set], ?_⟩
  split_ifs
  · simp only [List.length_set]
  · rfl

lemma cylinderFold_lengths (h : Host) (R : ℚ) (HH : FVector) (cs a : ℚ) (Sides : Int)
    (l : List Nat) :
    ∀ s : CylinderLoop,
      (l.foldl (cylinderBody h R HH cs a Sides) s).Vertices.length = s.Vertices.length ∧
      (l.foldl (cylinderBody h R HH cs a Sides) s).UV0.length = s.UV0.length ∧
      (l.foldl (cylinderBody h R HH cs a Sides) s).Triangles.length = s.Triangles.length := by
  induction l with
  | nil => intro s; exact ⟨rfl, rfl, rfl⟩
  | cons x rest ih =>
    intro s
    rw [List.foldl_cons]
    obtain ⟨h1, h2, h3⟩ := ih (cylinderBody h R HH cs a Sides s x)
    obtain ⟨g1, g2, g3⟩ := cylinderBody_lengths h R HH cs a Sides s x
    exact ⟨h1.trans g1, h2.trans g2, h3.trans g3⟩

lemma CreateUnderlayMesh_cylinder_eq (c : Consts) (h : Host) (self : FPICOXRStereoLayer)
    (m : UnderlayMesh) (p : FCylinderLayer) (hq : self.LayerDesc.Shape = LayerShape.Cylinder p) :
    ∃ (HH : FVector) (a0 : ℚ),
      (CreateUnderlayMesh c h self m).Vertices =
        ((List.range (cylinderSides c.PI p.OverlayArc p.Radius + 1).toNat).foldl
          (cylinderBody h p.Radius HH (99 / 100) (p.OverlayArc / p.Radius /
            ((cylinderSides c.PI p.OverlayArc p.Radius : Int) : ℚ))
            (cylinderSides c.PI p.OverlayArc p.Radius))
          ⟨List.replicate (2 * (cylinderSides c.PI p.OverlayArc p.Radius + 1)).toNat
              FVector.ZeroVector,
            List.replicate (2 * (cylinderSides c.PI p.OverlayArc p.Radius + 1)).toNat
              FVector2D.ZeroVector,
            List.replicate (cylinderSides c.PI p.OverlayArc p.Radius * 6).toNat 0, a0⟩).Vertices ∧
      (CreateUnderlayMesh c h self m).UV0 =
        ((List.range (cylinderSides c.PI p.OverlayArc p.Radius + 1).toNat).foldl
          (cylinderBody h p.Radius HH (99 / 100) (p.OverlayArc / p.Radius /
            ((cylinderSides c.PI p.OverlayArc p.Radius : Int) : ℚ))
            (cylinderSides c.PI p.OverlayArc p.Radius))
          ⟨List.replicate (2 * (cylinderSides c.PI p.OverlayArc p.Radius + 1)).toNat
              FVector.ZeroVector,
            List.replicate (2 * (cylinderSides c.PI p.OverlayArc p.Radius + 1)).toNat
              FVector2D.ZeroVector,
            List.replicate (cylinderSides c.PI p.OverlayArc p.Radius * 6).toNat 0, a0⟩).UV0 ∧
      (CreateUnderlayMesh c h self m).Triangles =
        ((List.range (cylinderSides c.PI p.OverlayArc p.Radius + 1).toNat).foldl
          (cylinderBody h p.Radius HH (99 / 100) (p.OverlayArc / p.Radius /
            ((cylinderSides c.PI p.OverlayArc p.Radius : Int) : ℚ))
            (cylinderSides c.PI p.OverlayArc p.Radius))
          ⟨List.replicate (2 * (cylinderSides c.PI p.OverlayArc p.Radius + 1)).toNat
              FVector.ZeroVector,
            List.replicate (2 * (cylinderSides c.PI p.OverlayArc p.Radius + 1)).toNat
              FVector2D.ZeroVector,
            List.replicate (cylinderSides c.PI p.OverlayArc p.Radius * 6).toNat 0, a0⟩).Triangles := by
  unfold CreateUnderlayMesh
  rw [hq]
  exact ⟨_, _, rfl, rfl, rfl⟩

lemma CreateUnderlayMesh_cylinder_lengths (c : Consts) (h : Host) (self : FPICOXRStereoLayer)
    (m : UnderlayMesh) (p : FCylinderLayer) (hq : self.LayerDesc.Shape = LayerShape.Cylinder p) :
    (CreateUnderlayMesh c h self m).Vertices.length =
      (2 * (cylinderSides c.PI p.OverlayArc p.Radius + 1)).toNat ∧
    (CreateUnderlayMesh c h self m).UV0.length =
      (2 * (cylinderSides c.PI p.OverlayArc p.Radius + 1)).toNat ∧
    (CreateUnderlayMesh c h self m).Triangles.length =
      (cylinderSides c.PI p.OverlayArc p.Radius * 6).toNat := by
  obtain ⟨HH, a0, hV, hU, hT⟩ := CreateUnderlayMesh_cylinder_eq c h self m p hq
  rw [hV, hU, hT]
  have hl := cylinderFold_lengths h p.Radius HH (99 / 100) (p.OverlayArc / p.Radius /
      ((cylinderSides c.PI p.OverlayArc p.Radius : Int) : ℚ))
      (cylinderSides c.PI p.OverlayArc p.Radius)
      (List.range (cylinderSides c.PI p.OverlayArc p.Radius + 1).toNat)
      ⟨List.replicate (2 * (cylinderSides c.PI p.OverlayArc p.Radius + 1)).toNat
          FVector.ZeroVector,
        List.replicate (2 * (cylinderSides c.PI p.OverlayArc p.Radius + 1)).toNat
          FVector2D.ZeroVector,
        List.replicate (cylinderSides c.PI p.OverlayArc p.Radius * 6).toNat 0, a0⟩
  simpa only [List.length_replicate] using hl

lemma CreateUnderlayMesh_quad_UV0 (c : Consts) (h : Host) (self : FPICOXRStereoLayer)
    (m : UnderlayMesh) (hq : self.LayerDesc.Shape = LayerShape.Quad) :
    (CreateUnderlayMesh c h self m).UV0 = [⟨1, 0⟩, ⟨1, 1⟩, ⟨0, 0⟩, ⟨0, 1⟩] ∧
    ∃ X Y : ℚ, (CreateUnderlayMesh c h self m).Vertices =
      [ FVector.scale ⟨0, -X / 2, -Y / 2⟩ (99 / 100), FVector.scale ⟨0, X / 2, -Y / 2⟩ (99 / 100),
        FVector.scale ⟨0, X / 2, Y / 2⟩ (99 / 100), FVector.scale ⟨0, -X / 2, Y / 2⟩ (99 / 100) ] := by
  unfold CreateUnderlayMesh
  rw [hq]
  exact ⟨rfl, _, _, rfl⟩

/-- C27, counterexample.  For the example cubemap layer, called on fresh
arrays as `ManageUnderlayComponent` does, `CreateUnderlayMesh` gives eight
vertices and no texture coordinate at all. -/
theorem cubemap_mesh_has_no_UV :
    (CreateUnderlayMesh stdConsts exHost exLayerCubemap ⟨[], [], []⟩).Vertices.length = 8 ∧
    (CreateUnderlayMesh stdConsts exHost exLayerCubemap ⟨[], [], []⟩).UV0.length = 0 ∧
    (CreateUnderlayMesh stdConsts exHost exLayerCubemap ⟨[], [], []⟩).UV0.length ≠
      (CreateUnderlayMesh stdConsts exHost exLayerCubemap ⟨[], [], []⟩).Vertices.length := by
  rw [CreateUnderlayMesh_cubemap_eq stdConsts exHost exLayerCubemap ⟨[], [], []⟩ rfl]
  exact ⟨rfl, rfl, by decide⟩

/-- C27, amended.  For a quad `CreateUnderlayMesh` gives four vertices and
four texture coordinates; for a cylinder it gives `2 * (Sides + 1)` of each
(none of either when that count is not positive); for a cubemap it gives
eight vertices and writes no texture coordinate, the UV array being left as
it was passed in. -/
theorem CreateUnderlayMesh_UV_count (c : Consts) (h : Host) (self : FPICOXRStereoLayer)
    (m : UnderlayMesh) :
    (self.LayerDesc.Shape = LayerShape.Quad →
      (CreateUnderlayMesh c h self m).Vertices.length = 4 ∧
      (CreateUnderlayMesh c h self m).UV0.length = 4) ∧
    (∀ p, self.LayerDesc.Shape = LayerShape.Cylinder p →
      (CreateUnderlayMesh c h self m).Vertices.length =
        (2 * (cylinderSides c.PI p.OverlayArc p.Radius + 1)).toNat ∧
      (CreateUnderlayMesh c h self m).UV0.length =
        (2 * (cylinderSides c.PI p.OverlayArc p.Radius + 1)).toNat) ∧
    (self.LayerDesc.Shape = LayerShape.Cubemap →
      (CreateUnderlayMesh c h self m).Vertices.length = 8 ∧
      (CreateUnderlayMesh c h self m).UV0 = m.UV0) := by
  refine ⟨?_, ?_, ?_⟩
  · intro hq
    obtain ⟨hU, X, Y, hV⟩ := CreateUnderlayMesh_quad_UV0 c h self m hq
    rw [hU, hV]
    exact ⟨rfl, rfl⟩
  · intro p hq
    obtain ⟨lV, lU, _⟩ := CreateUnderlayMesh_cylinder_lengths c h self m p hq
    exact ⟨lV, lU⟩
  · intro hq
    rw [CreateUnderlayMesh_cubemap_eq c h self m hq]
    exact ⟨rfl, rfl⟩

/-- C28.  The texture coordinates of the quad underlay are not an affine
image of its vertices.  For every quad layer the UV array is
(1,0), (1,1), (0,0), (0,1) and no map `v ↦ (a . v + a0, b . v + b0)` sends
the four vertices to these four values.  On the example quad (size 1 by 1)
the vertices run round the rectangle, so vertices 1 and 2 share an edge and
vertices 0 and 2 are diagonally opposite, while the coordinates of 1 and 2
are the opposite corners (1,1), (0,0) and those of 0 and 2 are the adjacent
corners (1,0), (0,0). -/
theorem quad_UV_not_affine (c : Consts) (h : Host) (self : FPICOXRStereoLayer)
    (m : UnderlayMesh) :
    (self.LayerDesc.Shape = LayerShape.Quad →
      (CreateUnderlayMesh c h self m).UV0 = [⟨1, 0⟩, ⟨1, 1⟩, ⟨0, 0⟩, ⟨0, 1⟩] ∧
      ¬ ∃ (a b : FVector) (a0 b0 : ℚ),
        (CreateUnderlayMesh c h self m).UV0 =
          (CreateUnderlayMesh c h self m).Vertices.map (affineUV a b a0 b0)) ∧
    (CreateUnderlayMesh stdConsts exHost exLayer ⟨[], [], []⟩).Vertices =
      [ ⟨0, -(99 / 200), -(99 / 200)⟩, ⟨0, 99 / 200, -(99 / 200)⟩,
        ⟨0, 99 / 200, 99 / 200⟩, ⟨0, -(99 / 200), 99 / 200⟩ ] ∧
    (CreateUnderlayMesh stdConsts exHost exLayer ⟨[], [], []⟩).UV0 =
      [⟨1, 0⟩, ⟨1, 1⟩, ⟨0, 0⟩, ⟨0, 1⟩] := by
  refine ⟨?_, ?_, ?_⟩
  · intro hq
    obtain ⟨hU, X, Y, hV⟩ := CreateUnderlayMesh_quad_UV0 c h self m hq
    refine ⟨hU, ?_⟩
    rintro ⟨a, b, a0, b0, hab⟩
    rw [hU, hV] at hab
    simp only [List.map_cons, List.map_nil, List.cons.injEq, and_true, affineUV,
      FVector2D.mk.injEq, FVector.dot, FVector.scale] at hab
    obtain ⟨⟨_, h0⟩, ⟨_, h1⟩, ⟨_, h2⟩, ⟨_, h3⟩⟩ := hab
    have : (2 : ℚ) = 0 := by linear_combination h1 + h3 - h0 - h2
    norm_num at this
  · unfold CreateUnderlayMesh
    simp only [exLayer, exDesc, List.replicate, List.set, FVector.scale]
    norm_num [hasFlag, stdConsts]
  · exact (CreateUnderlayMesh_quad_UV0 stdConsts exHost exLayer ⟨[], [], []⟩ rfl).1

end PicoXR
